import Mathlib

/-!
# GPS-disciplined oscillator controller (software/pid2/main.c)

A shallow embedding of the two-stage controller of `software/pid2/main.c`:
the two timer interrupt handlers (`Timer_A`, `Timer_A0`), one pass of the
`while (1)` loop of `main`, and the properties of the specification that
can be settled on them.  One pass of the loop of the single-stage
controller `software/p/main.c` is embedded in the namespace `PControl`.

Target arithmetic.  The program is built for the MSP430: `int` and
`unsigned int` are 16 bits, `long` is 32 bits, plain `char` is an unsigned
8-bit type.  Every C variable is an `Int` here and every store goes through
the wrap of its C type (`wrapS16`, `wrapU16`, `wrapS32`, `wrapU8`).

Not modelled: the serial diagnostics (`tx`, `printf*`, `nl`), the loop
counter `wlc` and `oldstate`, which only feed those diagnostics, and the
port pins driven by `ledstate`; the arguments of the last `ledstate` call
are kept in the field `led`.
-/

namespace Gpsdo

/-! ## Machine arithmetic -/

/-- Value of a 16-bit `int` after a store: two's complement wrap. -/
def wrapS16 (x : Int) : Int := (x + 32768) % 65536 - 32768

/-- Value of a 16-bit `unsigned int` after a store. -/
def wrapU16 (x : Int) : Int := x % 65536

/-- Value of a 32-bit `long` after a store: two's complement wrap. -/
def wrapS32 (x : Int) : Int := (x + 2147483648) % 4294967296 - 2147483648

/-- Value of an 8-bit `char` after a store. -/
def wrapU8 (x : Int) : Int := x % 256

/-- The C library `int abs(int)` on the 16-bit target: the argument is taken
as an `int` (a `long` argument keeps its low 16 bits), and the result is an
`int` again, so `abs(-32768)` is `-32768`. -/
def abs16 (x : Int) : Int := wrapS16 (((wrapS16 x).natAbs : Nat) : Int)

/-! ## Controller constants (the active `#if 1` Isotemp block) -/

abbrev P_FACTOR_FAST : Int := 2500
abbrev P_ERRORBAND_FAST : Int := 1
abbrev P_MAX_ERROR : Int := 393
abbrev P_FACTOR_SLOW : Int := 50
abbrev P_ERRORBAND_SLOW : Int := 1
abbrev I_FACTOR_SLOW : Int := 25
abbrev I_ERRORBAND_SLOW : Int := 1
abbrev HAVE_GPSLOCK : Nat := 0
abbrev HAVE_OSCCOLD : Nat := 1
abbrev SAMPLE_SECONDS : Int := 8
abbrev SAMPLE_MINUTE : Int := 60

/-- Port 2 bit: oscillator-good input, high when the oscillator is cold. -/
abbrev P2OSC : Nat := 0x01
/-- Port 2 bit: GPS lock input, high when there is no lock. -/
abbrev P2GPSLOCK : Nat := 0x02

/-- The C test `port & mask` as a condition. -/
def bitSet (port mask : Nat) : Bool := (port &&& mask) != 0

/-! ## Data of the interrupt handlers -/

/-- The `volatile` globals shared by the handlers and the main loop, and the
capture-overflow bit `COV` of `TA0CCTL0`. -/
structure Shared where
  count : Int
  countadd : Int
  capture : Int
  pps : Int
  cov : Bool
  deriving DecidableEq, Repr

/-- Values at start-up: `count = 0`, `countadd = 0x10000`, `capture = 0`,
`pps = 0`. -/
def Shared.init : Shared :=
  { count := 0, countadd := 0x10000, capture := 0, pps := 0, cov := false }

/-- `Timer_A`: the TA0IV handler.  Only vector 10 (counter overflow) acts:
`count += countadd; countadd = 0x10000`. -/
def Timer_A (TA0IV : Nat) (sh : Shared) : Shared :=
  if TA0IV = 10 then
    { sh with count := wrapS32 (sh.count + sh.countadd), countadd := 0x10000 }
  else sh

/-- `Timer_A0`: the capture/compare 0 handler, run at a 1PPS edge with the
latched counter value `c = TA0CCR0` (an `unsigned int`). -/
def Timer_A0 (TA0CCR0 : Int) (sh : Shared) : Shared :=
  let c := wrapU16 TA0CCR0
  { count := 0
    countadd := wrapS32 (0x10000 - c)
    capture := wrapS32 (sh.count + c)
    pps := wrapU8 (sh.pps + 1)
    cov := false }

/-! ## The free-running counter that drives the handlers -/

/-- Timer 0 in continuous mode: the 16-bit counter `TAR`, clocked by the
oscillator, together with the handlers' data. -/
structure Timer where
  TAR : Int
  sh : Shared
  deriving DecidableEq, Repr

/-- One oscillator tick: `TAR` counts up; the roll-over from 0xFFFF to 0
raises the overflow interrupt (TA0IV = 10). -/
def Timer.tick (t : Timer) : Timer :=
  let tar := wrapU16 (t.TAR + 1)
  { TAR := tar, sh := if tar = 0 then Timer_A 10 t.sh else t.sh }

/-- A 1PPS edge: the counter value is latched into `TA0CCR0` and `Timer_A0`
runs. -/
def Timer.edge (t : Timer) : Timer :=
  { t with sh := Timer_A0 t.TAR t.sh }

/-- The counter ticks `n` times. -/
def Timer.ticks : Nat → Timer → Timer
  | 0, t => t
  | n + 1, t => Timer.ticks n t.tick

/-! ## The main loop -/

/-- The values of the `state` variable (`#define START 0` ... `SLOW 11`). -/
inductive Mode where
  | START | CHECKERRORS | OSCCOLD | NOOSCCLOCK | NOGPSPPS | NOGPSLOCK | GOOD
  | FASTINIT | FASTWAIT | FAST | SLOWINIT | SLOW
  deriving DecidableEq, Repr

open Mode

/-- The locals of `main` that the control loop uses, and the PWM compare
register `TA1CCR1` it drives.  `TA1CCR1_writes` counts the stores to that
register made by the loop. -/
structure Main where
  pwm_duty_cycle : Int
  sum : Int
  counter : Int
  lockcount : Int
  state : Mode
  error : Int
  adjust : Int
  P : Int
  I : Int
  Ihist : Int
  slowlock : Int
  TA1CCR1 : Int
  TA1CCR1_writes : Nat
  led : Int × Int × Int
  deriving DecidableEq, Repr

/-- The locals when the `while (1)` loop is entered: `pwm_duty_cycle = 1`
has been stored to `TA1CCR1`, `counter = -1`, `state = START`, and
`ledstate(0,0,0)` was called.  `error`, `adjust`, `P`, `I` and `Ihist` are
not initialised by the program; they are written before they are read and
start at 0 here. -/
def Main.init : Main :=
  { pwm_duty_cycle := 1, sum := 0, counter := -1, lockcount := 0, state := START,
    error := 0, adjust := 0, P := 0, I := 0, Ihist := 0, slowlock := 0,
    TA1CCR1 := 1, TA1CCR1_writes := 0, led := (0, 0, 0) }

/-- The error checks of the `default:` label of the first `switch`. -/
def errorChecks (P2IN : Nat) (sh : Shared) (m : Main) : Shared × Main :=
  if HAVE_OSCCOLD ≠ 0 ∧ bitSet P2IN P2OSC then
    (sh, { m with led := (-1, 0, 0), state := OSCCOLD })
  else if HAVE_GPSLOCK ≠ 0 ∧ bitSet P2IN P2GPSLOCK then
    (sh, { m with led := (0, 0, 5), state := NOGPSLOCK })
  else
    let m1 := if sh.count > 150000000 then
                { m with led := (0, 0, 3), state := NOGPSPPS }
              else m
    if sh.pps > 14 then
      ({ sh with pps := 0 }, { m1 with led := (1, 0, 0), state := NOOSCCLOCK })
    else (sh, m1)

/-- The first `switch (state)`: the states that are run on every pass. -/
def faultSwitch (P2IN : Nat) (sh : Shared) (m : Main) : Shared × Main :=
  match m.state with
  | START => errorChecks P2IN sh { m with state := GOOD }
  | CHECKERRORS => errorChecks P2IN sh { m with state := GOOD }
  | OSCCOLD =>
    if bitSet P2IN P2OSC = false then
      (sh, { m with led := (0, 0, 0), state := CHECKERRORS })
    else (sh, m)
  | NOOSCCLOCK =>
    if sh.pps ≠ 0 then (sh, { m with led := (0, 0, 0), state := CHECKERRORS })
    else (sh, m)
  | NOGPSPPS =>
    if sh.pps ≠ 0 then (sh, { m with led := (0, 0, 0), state := CHECKERRORS })
    else (sh, m)
  | NOGPSLOCK =>
    if bitSet P2IN P2GPSLOCK = false then
      (sh, { m with led := (0, 0, 0), state := CHECKERRORS })
    else (sh, m)
  | GOOD => (sh, { m with state := FASTINIT })
  | _ => errorChecks P2IN sh m

/-- FAST window close, the error band: lines `if (abs (error) <=
P_ERRORBAND_FAST) ... else ...`.  Takes `error`, `lockcount`, `state` and
`adjust` (0 on entry) from `m`. -/
def fastBand (m : Main) : Main :=
  if abs16 m.error ≤ P_ERRORBAND_FAST then
    let lc := wrapU8 (m.lockcount + 1)
    { m with lockcount := lc, state := if lc > 5 then SLOWINIT else m.state }
  else
    let e1 := if m.error > P_MAX_ERROR then P_MAX_ERROR else m.error
    let e2 := if e1 < 0 - P_MAX_ERROR then 0 - P_MAX_ERROR else e1
    { m with lockcount := 0, error := e2,
             adjust := wrapS16 (wrapS32 ((P_FACTOR_FAST / SAMPLE_SECONDS) * e2)) }

/-- FAST window close, first guard: limiting the adjustment value. -/
def fastLimit (adjust : Int) : Int :=
  if adjust > 32000 then 32001
  else if adjust < -32000 then -32000
  else adjust

/-- FAST window close, second guard: the overflow / underflow test on the
`unsigned int` sum `pwm_duty_cycle + adjust`. -/
def fastGuard (pwm_duty_cycle adjust : Int) : Int :=
  if adjust > 0 ∧ wrapU16 (pwm_duty_cycle + adjust) < pwm_duty_cycle then 0x8001
  else if adjust < 0 ∧ wrapU16 (pwm_duty_cycle + adjust) > pwm_duty_cycle then 0x8000
  else wrapU16 (pwm_duty_cycle + adjust)

/-- FAST window close, head: `counter = 0`, the window error
`(SAMPLE_SECONDS * 10000000) - sum` and the LED status. -/
def fastError (m : Main) : Main :=
  let error := wrapS32 (SAMPLE_SECONDS * 10000000 - m.sum)
  { m with counter := 0, error := error,
           led := if abs16 error < 2 then (0, 0, -1) else (0, 0, 1) }

/-- FAST window close, tail: the adjustment is limited and applied to the
duty cycle through the overflow guard; a non-zero adjustment is stored to
`TA1CCR1` and sets `counter = -1`; `sum = 0`. -/
def fastApply (m : Main) : Main :=
  let adjust := fastLimit m.adjust
  let pwm := fastGuard m.pwm_duty_cycle adjust
  let m1 := { m with adjust := adjust, pwm_duty_cycle := pwm }
  let m2 := if adjust ≠ 0 then
              { m1 with TA1CCR1 := pwm, TA1CCR1_writes := m1.TA1CCR1_writes + 1,
                        counter := -1 }
            else m1
  { m2 with sum := 0 }

/-- FAST window close: the body of `if (counter >= SAMPLE_SECONDS)`. -/
def fastClose (m : Main) : Main :=
  fastApply (fastBand (fastError m))

/-- SLOW proportional term: `P = error * P_FACTOR_SLOW` outside the error
band, 0 inside (`P` is an `int`, `error` a `long`). -/
def slowP (error : Int) : Int :=
  if abs16 error > P_ERRORBAND_SLOW then wrapS16 (wrapS32 (error * P_FACTOR_SLOW)) else 0

/-- SLOW integral history update: the `if (error < 0 && Ihist <= 0) ... else
if (error > 0 && Ihist >= 0) ... else ...` statement. -/
def slowIhist (error Ihist : Int) : Int :=
  if error < 0 ∧ Ihist ≤ 0 then wrapS16 (Ihist - 1)
  else if error > 0 ∧ Ihist ≥ 0 then wrapS16 (Ihist + 1)
  else 0

/-- SLOW integral term: `I = I_FACTOR_SLOW * Ihist` when `abs(Ihist)`
exceeds the band, 0 otherwise (`int` arithmetic). -/
def slowI (Ihist : Int) : Int :=
  if abs16 Ihist > I_ERRORBAND_SLOW then wrapS16 (I_FACTOR_SLOW * Ihist) else 0

/-- SLOW window close, the `else` branch of the glitch test: the P and I
terms, the history update, `adjust = P + I`, and the two `if (adjust)`
statements (status, then `pwm_duty_cycle += adjust; TA1CCR1 =
pwm_duty_cycle; counter = -1`), which test the same value. -/
def slowAdjust (m : Main) : Main :=
  let P := slowP m.error
  let Ihist := slowIhist m.error m.Ihist
  let I := slowI Ihist
  let adjust := wrapS16 (P + I)
  if adjust ≠ 0 then
    let pwm := wrapU16 (m.pwm_duty_cycle + adjust)
    { m with P := P, I := I, Ihist := Ihist, adjust := adjust, slowlock := 0,
             led := (0, 1, 0), pwm_duty_cycle := pwm, TA1CCR1 := pwm,
             TA1CCR1_writes := m.TA1CCR1_writes + 1, counter := -1 }
  else
    { m with P := P, I := I, Ihist := Ihist, adjust := 0,
             slowlock := wrapU8 (m.slowlock + 1), led := (0, -1, 0) }

/-- SLOW window close: the body of `if (counter >= SAMPLE_MINUTE)`. -/
def slowClose (m : Main) : Main :=
  let error := wrapS32 (60 * 10000000 - m.sum)
  let m1 := { m with error := error, counter := 0, sum := 0 }
  if abs16 error > 128 then { m1 with state := FASTINIT }
  else slowAdjust m1

/-- The `case SLOW:` body, also reached by fall-through from SLOWINIT. -/
def slowCase (m : Main) : Main :=
  let m1 := { m with counter := wrapS16 (m.counter + 1) }
  if m1.counter ≥ SAMPLE_MINUTE then slowClose m1 else m1

/-- The second `switch (state)`: the states that run on a 1PPS sample. -/
def ppsSwitch (m : Main) : Main :=
  match m.state with
  | FASTINIT => { m with counter := 5, state := FASTWAIT, led := (0, 0, 1), lockcount := 0 }
  | FASTWAIT =>
    let m1 := { m with counter := wrapS16 (m.counter - 1) }
    if m1.counter ≤ 0 then { m1 with state := FAST, sum := 0 } else m1
  | FAST =>
    let m1 := { m with adjust := 0, counter := wrapS16 (m.counter + 1) }
    if m1.counter ≥ SAMPLE_SECONDS then fastClose m1 else m1
  | SLOWINIT =>
    slowCase { m with slowlock := 0, sum := 0, Ihist := 0, led := (0, 1, 0),
                      state := SLOW, counter := -2 }
  | SLOW => slowCase m
  | _ => m

/-- The head of the block `if (capture != 0) { ... }`: the sample is added
to the window sum only when `counter >= 0`, and the one-second error is
computed (DEBUG_SEC_SHORT is defined). -/
def takeSample (m : Main) (capture : Int) : Main :=
  let m1 := if m.counter ≥ 0 then { m with sum := wrapS32 (m.sum + capture) } else m
  { m1 with error := wrapS32 (10000000 - capture) }

/-- The block `if (capture != 0) { ... }`: `pps` is cleared, the sample is
taken, `capture` is cleared and the second `switch` runs. -/
def onCapture (sh : Shared) (m : Main) : Shared × Main :=
  if sh.capture ≠ 0 then
    ({ sh with pps := 0, capture := 0 }, ppsSwitch (takeSample m sh.capture))
  else (sh, m)

/-- One pass of the `while (1)` loop, with the port-2 inputs `P2IN` and the
handlers' data as they stand at the pass. -/
def mainPass (P2IN : Nat) (s : Shared × Main) : Shared × Main :=
  let r := faultSwitch P2IN s.1 s.2
  onCapture r.1 r.2

/-- The net effect of the 1PPS handler as the main loop sees it: a sample
`x` in `capture`, the accumulator restarted, `pps` counted up. -/
def sampleArrives (x : Int) (sh : Shared) : Shared :=
  { sh with capture := x, count := 0, pps := wrapU8 (sh.pps + 1) }

/-- One second of operation: the 1PPS handler delivers the sample `x`, then
the main loop makes a pass that sees it.  (The other passes of that second
find `capture = 0`; in the 1PPS-gated states they change nothing unless a
fault shows, see `mainPass_idle`.) -/
def second (P2IN : Nat) (s : Shared × Main) (x : Int) : Shared × Main :=
  mainPass P2IN (sampleArrives x s.1, s.2)

/-- The main loop fed with one sample per second. -/
def feed (P2IN : Nat) (s : Shared × Main) (xs : List Int) : Shared × Main :=
  xs.foldl (second P2IN) s

/-- The states of the second `switch`, which act only on a 1PPS sample. -/
def Mode.ppsGated : Mode → Bool
  | FASTINIT | FASTWAIT | FAST | SLOWINIT | SLOW => true
  | _ => false

/-- The timer right after a reference edge that latched `c`. -/
def Timer.justAfterEdge (c cap p : Int) (b : Bool) : Timer :=
  { TAR := c
    sh := { count := 0, countadd := 65536 - c, capture := cap, pps := p, cov := b } }

/-- The handlers' data as a pass that took a sample leaves them: `capture`
and `pps` cleared (the accumulator was restarted by the 1PPS handler). -/
def Shared.taken (sh : Shared) : Shared :=
  { sh with capture := 0, count := 0, pps := 0 }

/-- A FAST second inside a window, as `takeSample` and `case FAST:` leave the
locals when the sample is accepted and the window does not close. -/
def fastAccept (m : Main) (x : Int) : Main :=
  { m with sum := wrapS32 (m.sum + x), error := wrapS32 (10000000 - x), adjust := 0,
           counter := m.counter + 1 }

/-- A SLOW second inside a window, as `takeSample` and `case SLOW:` leave
the locals when the sample is accepted and the window does not close. -/
def slowAccept (m : Main) (x : Int) : Main :=
  { m with sum := wrapS32 (m.sum + x), error := wrapS32 (10000000 - x),
           counter := m.counter + 1 }

/-- A SLOW window close on a window whose sum is `600000000 - e`, that is,
whose window error is `e`. -/
def slowCloseWithError (m : Main) (e : Int) : Main :=
  slowClose { m with sum := 600000000 - e }

/-- The states in which the first `switch` runs the error checks: START and
CHECKERRORS (which fall through to them) and the states of the `default:`
label. -/
def Mode.checked : Mode → Bool
  | START | CHECKERRORS | FASTINIT | FASTWAIT | FAST | SLOWINIT | SLOW => true
  | _ => false

/-- The mode with which a checked state enters the error checks: GOOD from
START and CHECKERRORS, the state itself from the `default:` label. -/
def Mode.enterChecks : Mode → Mode
  | START | CHECKERRORS => GOOD
  | s => s

/-- The 1PPS interrupt taken by the running program: `Timer_A0` works on the
globals; the locals of `main` are not in its scope. -/
def interruptA0 (TA0CCR0 : Int) (s : Shared × Main) : Shared × Main :=
  (Timer_A0 TA0CCR0 s.1, s.2)

/-! ## Sequences of interrupt requests -/

/-- An interrupt request served by one of the two handlers: the TA0IV
vector (`TIMER0_A1_VECTOR`, handler `Timer_A`, with the value read from
`TA0IV`) or the capture/compare 0 vector (`TIMER0_A0_VECTOR`, handler
`Timer_A0`, with the value latched in `TA0CCR0`). -/
inductive Interrupt where
  | vectorA1 (TA0IV : Nat)
  | vectorA0 (TA0CCR0 : Int)
  deriving DecidableEq, Repr

/-- The handler that serves an interrupt request. -/
def Interrupt.serve : Interrupt → Shared → Shared
  | .vectorA1 v, sh => Timer_A v sh
  | .vectorA0 c, sh => Timer_A0 c sh

/-- A sequence of interrupt requests, served in order. -/
def serveAll (es : List Interrupt) (sh : Shared) : Shared :=
  es.foldl (fun s e => e.serve s) sh

/-- The side condition on one interrupt request: a latched counter value is
a 16-bit value, and `count += countadd` does not leave the `long` range. -/
def Interrupt.inRange (sh : Shared) : Interrupt → Bool
  | .vectorA1 v => v != 10 || decide (sh.count + sh.countadd < 2147483648)
  | .vectorA0 c => decide (0 ≤ c ∧ c ≤ 65535)

/-- The side condition along a sequence of interrupt requests. -/
def allInRange : List Interrupt → Shared → Bool
  | [], _ => true
  | e :: es, sh => e.inRange sh && allInRange es (e.serve sh)

/-! ## The single-stage proportional controller (software/p/main.c) -/

namespace PControl

/-- The globals of `software/p/main.c` that its main loop uses (`capture`,
`pps`, `blink`), the LED port `P1OUT`, the locals of its `main` and the PWM
compare register `TA1CCR1`.  Widths as for the two-stage controller; `P1OUT`
is an 8-bit port. -/
structure State where
  capture : Int
  pps : Int
  blink : Int
  P1OUT : Nat
  pwm_duty_cycle : Int
  sum : Int
  counter : Int
  error : Int
  adjust : Int
  TA1CCR1 : Int
  deriving DecidableEq, Repr

/-- Values when the loop is entered: `pwm_duty_cycle = 32768`, `sum = 0`,
`counter = -10`, `blink = 2`, LEDs off; `error` and `adjust` have no
initialiser and are written before they are read. -/
def State.init : State :=
  { capture := 0, pps := 0, blink := 2, P1OUT := 0, pwm_duty_cycle := 32768, sum := 0,
    counter := -10, error := 0, adjust := 0, TA1CCR1 := 32768 }

/-- The LED status after a window: `if (abs(error) >= 10) ... else if
(abs(error) < 2) ... else ...`, on `blink` and `P1OUT`. -/
def showError (s : State) : State :=
  if abs16 s.error ≥ 10 then { s with blink := 2, P1OUT := s.P1OUT &&& 0xBF }
  else if abs16 s.error < 2 then
    { s with P1OUT := (s.P1OUT ||| 0x40) &&& 0x7F, blink := 0 }
  else { s with P1OUT := s.P1OUT &&& 0x7F, blink := 1 }

/-- The adjustment for a window error: `error * 75` limited to
[-10000, 10000] above 2, `error * 10` at 2, `error` below. -/
def adjustFor (error : Int) : Int :=
  if abs16 error > 2 then
    let adjust := wrapS16 (wrapS32 (error * 75))
    if adjust > 10000 then 10000
    else if adjust < -10000 then -10000
    else adjust
  else if abs16 error > 1 then wrapS16 (wrapS32 (error * 10))
  else wrapS16 error

/-- The guarded update of the `unsigned int` duty cycle: 0xffff on overflow,
1 on underflow, `pwm_duty_cycle + adjust` otherwise. -/
def applyAdjust (pwm_duty_cycle adjust : Int) : Int :=
  if adjust > 0 ∧ wrapU16 (pwm_duty_cycle + adjust) < pwm_duty_cycle then 0xffff
  else if adjust < 0 ∧ wrapU16 (pwm_duty_cycle + adjust) > pwm_duty_cycle then 1
  else wrapU16 (pwm_duty_cycle + adjust)

/-- The body of `if (counter == 10)`: window error, LED status, adjustment,
duty cycle, `TA1CCR1`, then `counter = -5; sum = 0`. -/
def windowClose (s : State) : State :=
  let s1 := showError { s with error := wrapS32 (100000000 - s.sum) }
  let adjust := adjustFor s1.error
  let pwm := applyAdjust s1.pwm_duty_cycle adjust
  { s1 with adjust := adjust, pwm_duty_cycle := pwm, TA1CCR1 := pwm, counter := -5, sum := 0 }

/-- The body of `if (capture != 0)`: the sample is summed when
`counter >= 0`, `counter++`, the window closes at `counter == 10`, and
`capture` and `pps` are cleared. -/
def onSample (s : State) : State :=
  let s1 := if s.counter ≥ 0 then { s with sum := wrapS32 (s.sum + s.capture) } else s
  let s2 := { s1 with counter := wrapS16 (s1.counter + 1) }
  let s3 := if s2.counter = 10 then windowClose s2 else s2
  { s3 with capture := 0, pps := 0 }

/-- The arms of the `if ... else if ... else if ...` chain of the loop body. -/
inductive Branch where
  | sample
  | missingGps
  | missingOsc
  | idle
  deriving DecidableEq, Repr

/-- The arm a pass takes: `if (capture != 0)`, `else if (capture >
15000000)`, `else if (pps > 4)`, tested in this order. -/
def branch (s : State) : Branch :=
  if s.capture ≠ 0 then Branch.sample
  else if s.capture > 15000000 then Branch.missingGps
  else if s.pps > 4 then Branch.missingOsc
  else Branch.idle

/-- One pass of the `while (1)` loop of `software/p/main.c`, with no
interrupt served inside it. -/
def mainPass (s : State) : State :=
  match branch s with
  | Branch.sample => onSample s
  | Branch.missingGps => { s with P1OUT := s.P1OUT ^^^ 0x80, capture := 0 }
  | Branch.missingOsc => { s with P1OUT := s.P1OUT ^^^ 0x80, pps := 0 }
  | Branch.idle => s

end PControl

/-! # Properties -/

/-! ## Basic facts about one pass -/

theorem errorChecks_quiet (P2IN : Nat) (sh : Shared) (m : Main)
    (hcold : bitSet P2IN P2OSC = false) (hcount : sh.count ≤ 150000000)
    (hpps : sh.pps ≤ 14) : errorChecks P2IN sh m = (sh, m) := by
  have h1 : ¬ (sh.count > 150000000) := by omega
  have h2 : ¬ (sh.pps > 14) := by omega
  simp [errorChecks, hcold, h1, h2]

/-- In a 1PPS-gated state the first `switch` is the error checks alone. -/
theorem faultSwitch_quiet (P2IN : Nat) (sh : Shared) (m : Main)
    (hcold : bitSet P2IN P2OSC = false) (hcount : sh.count ≤ 150000000)
    (hpps : sh.pps ≤ 14) (hg : m.state.ppsGated = true) :
    faultSwitch P2IN sh m = (sh, m) := by
  unfold faultSwitch
  cases hs : m.state <;> simp [hs, Mode.ppsGated] at hg ⊢ <;>
    exact errorChecks_quiet P2IN sh m hcold hcount hpps

/-- One second in a 1PPS-gated state with no fault: the sample is taken and
the second `switch` runs on it; `capture` and `pps` are left cleared. -/
theorem second_quiet (P2IN : Nat) (sh : Shared) (m : Main) (x : Int)
    (hcold : bitSet P2IN P2OSC = false) (hp0 : 0 ≤ sh.pps) (hp1 : sh.pps ≤ 13)
    (hg : m.state.ppsGated = true) (hx : x ≠ 0) :
    second P2IN (sh, m) x =
      ({ sh with capture := 0, count := 0, pps := 0 }, ppsSwitch (takeSample m x)) := by
  have hpps : (sampleArrives x sh).pps ≤ 14 := by
    simp only [sampleArrives, wrapU8]; omega
  have hf := faultSwitch_quiet P2IN (sampleArrives x sh) m hcold (by simp [sampleArrives]) hpps hg
  simp only [second, mainPass, hf, onCapture]
  simp [sampleArrives, hx]

/-- A pass that finds no sample and no fault in a 1PPS-gated state changes
nothing: the passes between two samples are idle. -/
theorem mainPass_idle (P2IN : Nat) (sh : Shared) (m : Main)
    (hcold : bitSet P2IN P2OSC = false) (hcount : sh.count ≤ 150000000)
    (hpps : sh.pps ≤ 14) (hg : m.state.ppsGated = true) (hcap : sh.capture = 0) :
    mainPass P2IN (sh, m) = (sh, m) := by
  simp only [mainPass, faultSwitch_quiet P2IN sh m hcold hcount hpps hg, onCapture, hcap]
  simp

/-- Adding to a wrapped `long` and wrapping again is wrapping the sum. -/
theorem wrapS32_add_wrapS32 (a b : Int) : wrapS32 (wrapS32 a + b) = wrapS32 (a + b) := by
  simp only [wrapS32]; omega

/-- FAST, `0 <= counter <= 6`: the sample is summed and counted. -/
theorem second_fast_accept (P2IN : Nat) (sh : Shared) (m : Main) (x : Int)
    (hcold : bitSet P2IN P2OSC = false) (hp0 : 0 ≤ sh.pps) (hp1 : sh.pps ≤ 13)
    (hs : m.state = FAST) (hc0 : 0 ≤ m.counter) (hc1 : m.counter ≤ 6) (hx : x ≠ 0) :
    second P2IN (sh, m) x = (sh.taken, fastAccept m x) := by
  rw [second_quiet P2IN sh m x hcold hp0 hp1 (by rw [hs]; rfl) hx]
  have hw : wrapS16 (m.counter + 1) = m.counter + 1 := by simp only [wrapS16]; omega
  have h8 : ¬ (m.counter + 1 ≥ SAMPLE_SECONDS) := by simp only [SAMPLE_SECONDS]; omega
  simp [ppsSwitch, takeSample, hs, hc0, hw, h8, fastAccept, Shared.taken]

/-- FAST, `counter = -1`: the sample is not summed; `counter` becomes 0. -/
theorem second_fast_skip (P2IN : Nat) (sh : Shared) (m : Main) (x : Int)
    (hcold : bitSet P2IN P2OSC = false) (hp0 : 0 ≤ sh.pps) (hp1 : sh.pps ≤ 13)
    (hs : m.state = FAST) (hc : m.counter = -1) (hx : x ≠ 0) :
    second P2IN (sh, m) x =
      (sh.taken, { m with error := wrapS32 (10000000 - x), adjust := 0, counter := 0 }) := by
  rw [second_quiet P2IN sh m x hcold hp0 hp1 (by rw [hs]; rfl) hx]
  simp [ppsSwitch, takeSample, hs, hc, wrapS16, Shared.taken]

/-- FAST, `counter >= 7`: the sample is summed and the window closes. -/
theorem second_fast_close (P2IN : Nat) (sh : Shared) (m : Main) (x : Int)
    (hcold : bitSet P2IN P2OSC = false) (hp0 : 0 ≤ sh.pps) (hp1 : sh.pps ≤ 13)
    (hs : m.state = FAST) (hc0 : 7 ≤ m.counter) (hc1 : m.counter < 32767) (hx : x ≠ 0) :
    second P2IN (sh, m) x = (sh.taken, fastClose (fastAccept m x)) := by
  rw [second_quiet P2IN sh m x hcold hp0 hp1 (by rw [hs]; rfl) hx]
  have hw : wrapS16 (m.counter + 1) = m.counter + 1 := by simp only [wrapS16]; omega
  have h8 : m.counter + 1 ≥ SAMPLE_SECONDS := by simp only [SAMPLE_SECONDS]; omega
  have h0 : 0 ≤ m.counter := by omega
  simp [ppsSwitch, takeSample, hs, h0, hw, h8, fastAccept, Shared.taken]

/-- Feeding no sample. -/
theorem feed_nil (P2IN : Nat) (s : Shared × Main) : feed P2IN s [] = s := rfl

/-- Feeding a first sample and then the rest. -/
theorem feed_cons (P2IN : Nat) (s : Shared × Main) (x : Int) (xs : List Int) :
    feed P2IN s (x :: xs) = feed P2IN (second P2IN s x) xs := rfl

/-- Feeding two runs of samples one after the other. -/
theorem feed_append (P2IN : Nat) (s : Shared × Main) (xs ys : List Int) :
    feed P2IN s (xs ++ ys) = feed P2IN (feed P2IN s xs) ys := by
  simp [feed, List.foldl_append]

/-- The locals after a run of accepted FAST samples. -/
theorem foldl_fastAccept (xs : List Int) (m : Main) :
    xs.foldl fastAccept m =
      if xs = [] then m
      else { m with sum := wrapS32 (m.sum + xs.sum),
                    error := (xs.foldl fastAccept m).error, adjust := 0,
                    counter := m.counter + xs.length } := by
  induction xs generalizing m with
  | nil => simp
  | cons x xs ih =>
    simp only [List.foldl_cons, reduceCtorEq, if_false]
    rw [ih]
    by_cases hxs : xs = []
    · subst hxs; simp [fastAccept]
    · simp only [hxs, if_false]
      simp only [fastAccept, wrapS32_add_wrapS32, List.sum_cons, List.length_cons]
      have e1 : m.sum + x + xs.sum = m.sum + (x + xs.sum) := by ring
      have e2 : m.counter + 1 + (xs.length : Int) = m.counter + ((xs.length + 1 : Nat) : Int) := by
        push_cast; ring
      rw [e1, e2]

/-- Seconds inside a FAST window: while fewer than `SAMPLE_SECONDS` samples
have been counted, every sample is accepted and no window closes. -/
theorem feed_fast_accept (P2IN : Nat) (hcold : bitSet P2IN P2OSC = false)
    (xs : List Int) : ∀ (sh : Shared) (m : Main), 0 ≤ sh.pps → sh.pps ≤ 13 →
    m.state = FAST → 0 ≤ m.counter → m.counter + xs.length ≤ 7 →
    (∀ x ∈ xs, x ≠ 0) →
    feed P2IN (sh, m) xs = (if xs = [] then sh else sh.taken, xs.foldl fastAccept m) := by
  induction xs with
  | nil => intros; rfl
  | cons x xs ih =>
    intro sh m hp0 hp1 hs hc0 hc1 hx
    have hlen : ((x :: xs).length : Int) = (xs.length : Int) + 1 := by simp
    rw [hlen] at hc1
    have hxl : (0 : Int) ≤ xs.length := Int.natCast_nonneg _
    rw [feed_cons, second_fast_accept P2IN sh m x hcold hp0 hp1 hs hc0 (by omega)
      (hx x (List.mem_cons_self _ _))]
    rw [ih sh.taken (fastAccept m x) (by simp [Shared.taken]) (by simp [Shared.taken])
      (by simp [fastAccept, hs]) (by simp [fastAccept]; omega) (by simp [fastAccept]; omega)
      (fun y hy => hx y (List.mem_cons_of_mem _ hy))]
    simp only [List.foldl_cons, reduceCtorEq, if_false]
    by_cases hxs : xs = [] <;> simp [hxs, Shared.taken]

/-- A FAST window close overwrites `counter`, `error` and `led`. -/
theorem fastClose_irrelevant (m : Main) (c e : Int) (l : Int × Int × Int) :
    fastClose { m with counter := c, error := e, led := l } = fastClose m := by
  simp [fastClose, fastError]

/-- A whole FAST window: from a FAST state with `counter = 0` and `sum = 0`,
eight samples are accepted and the window closes at the eighth, on their
sum. -/
theorem feed_fast_window (P2IN : Nat) (hcold : bitSet P2IN P2OSC = false)
    (sh : Shared) (m : Main) (xs : List Int) (hp0 : 0 ≤ sh.pps) (hp1 : sh.pps ≤ 13)
    (hs : m.state = FAST) (hc : m.counter = 0) (hsum : m.sum = 0)
    (hlen : xs.length = 8) (hx : ∀ x ∈ xs, x ≠ 0) :
    feed P2IN (sh, m) xs =
      (sh.taken, fastClose { m with sum := wrapS32 xs.sum, adjust := 0 }) := by
  have hne : xs ≠ [] := by intro h; simp [h] at hlen
  obtain ⟨ys, y, rfl⟩ : ∃ ys y, xs = ys ++ [y] :=
    ⟨xs.dropLast, xs.getLast hne, (List.dropLast_append_getLast hne).symm⟩
  have hly : ys.length = 7 := by simpa using hlen
  have hys : ys ≠ [] := by intro h; simp [h] at hly
  rw [feed_append, feed_fast_accept P2IN hcold ys sh m hp0 hp1 hs (by omega)
    (by rw [hc, hly]; decide) (fun x hx' => hx x (List.mem_append_left _ hx'))]
  simp only [hys, if_false, feed_cons, feed_nil]
  rw [foldl_fastAccept, if_neg hys]
  rw [second_fast_close P2IN sh.taken _ y hcold (by simp [Shared.taken]) (by simp [Shared.taken])
    (by simp [hs]) (by simp [hc, hly]) (by simp [hc, hly])
    (hx y (List.mem_append_right _ (List.mem_singleton_self y)))]
  have e : fastAccept
        { m with sum := wrapS32 (m.sum + ys.sum), error := (ys.foldl fastAccept m).error,
                 adjust := 0, counter := m.counter + ys.length } y
      = { ({ m with sum := wrapS32 (ys ++ [y]).sum, adjust := 0 } : Main) with
            counter := 8, error := wrapS32 (10000000 - y), led := m.led } := by
    simp [fastAccept, wrapS32_add_wrapS32, hsum, hc, hly]
  rw [e, fastClose_irrelevant]
  simp [Shared.taken]

/-! ## The FAST duty-cycle guard -/

theorem fastLimit_range (a : Int) : -32000 ≤ fastLimit a ∧ fastLimit a ≤ 32001 := by
  unfold fastLimit
  split_ifs <;> omega

/-- On a 16-bit duty cycle and a limited adjustment the wrap-around tests of
the guard are tests on the integer sum. -/
theorem fastGuard_eq (d a : Int) (hd0 : 0 ≤ d) (hd1 : d ≤ 65535)
    (ha0 : -32000 ≤ a) (ha1 : a ≤ 32001) :
    fastGuard d a =
      if d + a > 65535 then 0x8001 else if d + a < 0 then 0x8000 else d + a := by
  unfold fastGuard wrapU16
  split_ifs <;> omega

/-- The adjustment left by the tail of a FAST close. -/
theorem fastApply_adjust (m : Main) : (fastApply m).adjust = fastLimit m.adjust := by
  unfold fastApply
  simp only []
  split_ifs <;> rfl

/-- The duty cycle left by the tail of a FAST close. -/
theorem fastApply_pwm (m : Main) :
    (fastApply m).pwm_duty_cycle = fastGuard m.pwm_duty_cycle (fastLimit m.adjust) := by
  unfold fastApply
  simp only []
  split_ifs <;> rfl

/-- The error band does not touch the duty cycle. -/
theorem fastBand_pwm (m : Main) : (fastBand m).pwm_duty_cycle = m.pwm_duty_cycle := by
  unfold fastBand
  split_ifs <;> rfl

/-- The duty cycle after a FAST close is the guard applied to the old duty
cycle and the adjustment the close leaves. -/
theorem fastClose_pwm (m : Main) :
    (fastClose m).pwm_duty_cycle = fastGuard m.pwm_duty_cycle (fastClose m).adjust := by
  simp only [fastClose, fastApply_pwm, fastApply_adjust, fastBand_pwm]
  rfl

/-- The 1PPS handler is `sampleArrives` for the sample `count + c`, together
with the new `countadd` and the cleared overflow flag. -/
theorem Timer_A0_sampleArrives (c : Int) (sh : Shared) :
    Timer_A0 c sh =
      { sampleArrives (wrapS32 (sh.count + wrapU16 c)) sh with
          countadd := wrapS32 (0x10000 - wrapU16 c), cov := false } := rfl

/-! ## FAST window close -/

theorem fastClose_duty (m : Main) (hd0 : 0 ≤ m.pwm_duty_cycle) (hd1 : m.pwm_duty_cycle ≤ 65535) :
    (fastClose m).pwm_duty_cycle =
      if m.pwm_duty_cycle + (fastClose m).adjust > 65535 then 0x8001
      else if m.pwm_duty_cycle + (fastClose m).adjust < 0 then 0x8000
      else m.pwm_duty_cycle + (fastClose m).adjust := by
  have hr : -32000 ≤ (fastClose m).adjust ∧ (fastClose m).adjust ≤ 32001 := by
    simp only [fastClose, fastApply_adjust]; exact fastLimit_range _
  rw [fastClose_pwm, fastGuard_eq _ _ hd0 hd1 hr.1 hr.2]

/-- A FAST window close does not read `counter` or `error`. -/
theorem fastClose_counter_error (m : Main) (c e : Int) :
    fastClose { m with counter := c, error := e } = fastClose m := by
  simp [fastClose, fastError]

/-- The tail of a FAST close empties the window sum. -/
theorem fastApply_sum (m : Main) : (fastApply m).sum = 0 := rfl

/-- The window counter left by the tail of a FAST close. -/
theorem fastApply_counter (m : Main) :
    (fastApply m).counter = if fastLimit m.adjust ≠ 0 then -1 else m.counter := by
  unfold fastApply
  simp only []
  split_ifs <;> rfl

/-- The error band does not touch the window counter. -/
theorem fastBand_counter (m : Main) : (fastBand m).counter = m.counter := by
  unfold fastBand
  split_ifs <;> rfl

/-- After a FAST window close the window is empty again: `sum = 0`, and
`counter` is 0 when no adjustment was made and -1 when one was. -/
theorem fastClose_restart (m : Main) :
    (fastClose m).sum = 0 ∧
    (((fastClose m).adjust = 0 ∧ (fastClose m).counter = 0) ∨
     ((fastClose m).adjust ≠ 0 ∧ (fastClose m).counter = -1)) := by
  refine ⟨rfl, ?_⟩
  simp only [fastClose, fastApply_adjust, fastApply_counter, fastBand_counter]
  by_cases h : fastLimit (fastBand (fastError m)).adjust = 0
  · left; exact ⟨h, by rw [if_neg (not_not.mpr h)]; rfl⟩
  · right; exact ⟨h, by rw [if_pos h]⟩

/-- The seconds before a FAST window: none when the last close made no
adjustment (`counter = 0`), one skipped second when it did (`counter = -1`). -/
theorem feed_fast_settle (P2IN : Nat) (hcold : bitSet P2IN P2OSC = false)
    (sh : Shared) (m : Main) (ys : List Int) (hp0 : 0 ≤ sh.pps) (hp1 : sh.pps ≤ 13)
    (hs : m.state = FAST)
    (hc : (m.counter = 0 ∧ ys = []) ∨ (m.counter = -1 ∧ ys.length = 1))
    (hy : ∀ y ∈ ys, y ≠ 0) :
    ∃ sh0 e a, feed P2IN (sh, m) ys = (sh0, { m with counter := 0, error := e, adjust := a }) ∧
      0 ≤ sh0.pps ∧ sh0.pps ≤ 13 := by
  rcases hc with ⟨h0, rfl⟩ | ⟨h1, hl⟩
  · refine ⟨sh, m.error, m.adjust, ?_, hp0, hp1⟩
    rw [feed_nil, ← h0]
  · obtain ⟨y, rfl⟩ : ∃ y, ys = [y] := List.length_eq_one.mp hl
    refine ⟨sh.taken, wrapS32 (10000000 - y), 0, ?_, by simp [Shared.taken], by simp [Shared.taken]⟩
    rw [feed_cons, feed_nil, second_fast_skip P2IN sh m y hcold hp0 hp1 hs h1
      (hy y (List.mem_singleton_self y))]

/-- Bounds on the sum of a list of bounded positive samples. -/
theorem sum_lt_of_forall_lt (xs : List Int) (b : Int) (h : ∀ x ∈ xs, 0 < x ∧ x < b) :
    0 ≤ xs.sum ∧ xs.sum ≤ xs.length * b := by
  induction xs with
  | nil => simp
  | cons x xs ih =>
    have hx := h x (List.mem_cons_self _ _)
    have := ih (fun y hy => h y (List.mem_cons_of_mem _ hy))
    simp only [List.sum_cons, List.length_cons]
    push_cast
    constructor
    · omega
    · nlinarith [this.2, hx.2]

/-- A FAST window close on a window sum of exactly 80,000,000. -/
theorem fastClose_in_band (m : Main) (hsum : m.sum = 80000000) (ha : m.adjust = 0)
    (hl0 : 0 ≤ m.lockcount) (hl1 : m.lockcount < 255)
    (hd0 : 0 ≤ m.pwm_duty_cycle) (hd1 : m.pwm_duty_cycle ≤ 65535) :
    fastClose m = { m with counter := 0, sum := 0, error := 0, adjust := 0, led := (0, 0, -1),
                           lockcount := m.lockcount + 1,
                           state := if m.lockcount + 1 > 5 then SLOWINIT else m.state } := by
  have e0 : wrapS32 (SAMPLE_SECONDS * 10000000 - m.sum) = 0 := by rw [hsum]; decide
  have a0 : abs16 0 = 0 := by decide
  have hw : wrapU8 (m.lockcount + 1) = m.lockcount + 1 := by simp only [wrapU8]; omega
  have hg : wrapU16 m.pwm_duty_cycle = m.pwm_duty_cycle := by simp only [wrapU16]; omega
  simp [fastClose, fastError, fastBand, fastApply, fastLimit, fastGuard, e0, a0, hw, ha, hg]

/-- The tail of a FAST close does not touch the mode. -/
theorem fastApply_state (m : Main) : (fastApply m).state = m.state := by
  unfold fastApply
  simp only []
  split_ifs <;> rfl

/-- The tail of a FAST close does not touch `lockcount`. -/
theorem fastApply_lockcount (m : Main) : (fastApply m).lockcount = m.lockcount := by
  unfold fastApply
  simp only []
  split_ifs <;> rfl

/-- A FAST window close outside the error band keeps the mode and restarts
the lock count. -/
theorem fastClose_out_of_band (m : Main)
    (h : ¬ abs16 (wrapS32 (SAMPLE_SECONDS * 10000000 - m.sum)) ≤ P_ERRORBAND_FAST) :
    (fastClose m).state = m.state ∧ (fastClose m).lockcount = 0 := by
  have h' : ¬ abs16 (fastError m).error ≤ P_ERRORBAND_FAST := h
  simp only [fastClose, fastApply_state, fastApply_lockcount]
  unfold fastBand
  rw [if_neg h']
  exact ⟨rfl, rfl⟩

/-- A sample seen in SLOWINIT: the SLOW locals are reset, the mode is SLOW and
`counter` is -1 after the fall-through into `case SLOW:`. -/
theorem second_slowinit (P2IN : Nat) (sh : Shared) (m : Main) (x : Int)
    (hcold : bitSet P2IN P2OSC = false) (hp0 : 0 ≤ sh.pps) (hp1 : sh.pps ≤ 13)
    (hs : m.state = SLOWINIT) (hx : x ≠ 0) :
    second P2IN (sh, m) x =
      (sh.taken, { m with slowlock := 0, sum := 0, Ihist := 0, led := (0, 1, 0), state := SLOW,
                          counter := -1, error := wrapS32 (10000000 - x) }) := by
  rw [second_quiet P2IN sh m x hcold hp0 hp1 (by rw [hs]; rfl) hx]
  have h1 : wrapS16 (-1) = -1 := by decide
  have h2 : ¬ (SAMPLE_MINUTE ≤ (-1 : Int)) := by decide
  by_cases hc : m.counter ≥ 0 <;>
    simp [ppsSwitch, takeSample, hs, hc, slowCase, h1, h2, Shared.taken]

/-! ## SLOW window close -/

theorem abs16_of_int16 (x : Int) (h0 : -32768 < x) (h1 : x ≤ 32767) :
    abs16 x = if x < 0 then -x else x := by
  have hw : wrapS16 x = x := by simp only [wrapS16]; omega
  unfold abs16
  rw [hw]
  split_ifs with h
  · have : ((x.natAbs : Nat) : Int) = -x := by omega
    rw [this]; simp only [wrapS16]; omega
  · have : ((x.natAbs : Nat) : Int) = x := by omega
    rw [this]; exact hw

/-- SLOW, `0 <= counter <= 58`: the sample is summed and counted. -/
theorem second_slow_accept (P2IN : Nat) (sh : Shared) (m : Main) (x : Int)
    (hcold : bitSet P2IN P2OSC = false) (hp0 : 0 ≤ sh.pps) (hp1 : sh.pps ≤ 13)
    (hs : m.state = SLOW) (hc0 : 0 ≤ m.counter) (hc1 : m.counter ≤ 58) (hx : x ≠ 0) :
    second P2IN (sh, m) x = (sh.taken, slowAccept m x) := by
  rw [second_quiet P2IN sh m x hcold hp0 hp1 (by rw [hs]; rfl) hx]
  have hw : wrapS16 (m.counter + 1) = m.counter + 1 := by simp only [wrapS16]; omega
  have h8 : ¬ (m.counter + 1 ≥ SAMPLE_MINUTE) := by simp only [SAMPLE_MINUTE]; omega
  simp [ppsSwitch, slowCase, takeSample, hs, hc0, hw, h8, slowAccept, Shared.taken]

/-- SLOW, `counter >= 59`: the sample is summed and the window closes. -/
theorem second_slow_close (P2IN : Nat) (sh : Shared) (m : Main) (x : Int)
    (hcold : bitSet P2IN P2OSC = false) (hp0 : 0 ≤ sh.pps) (hp1 : sh.pps ≤ 13)
    (hs : m.state = SLOW) (hc0 : 59 ≤ m.counter) (hc1 : m.counter < 32767) (hx : x ≠ 0) :
    second P2IN (sh, m) x = (sh.taken, slowClose (slowAccept m x)) := by
  rw [second_quiet P2IN sh m x hcold hp0 hp1 (by rw [hs]; rfl) hx]
  have hw : wrapS16 (m.counter + 1) = m.counter + 1 := by simp only [wrapS16]; omega
  have h8 : m.counter + 1 ≥ SAMPLE_MINUTE := by simp only [SAMPLE_MINUTE]; omega
  have h0 : 0 ≤ m.counter := by omega
  simp [ppsSwitch, slowCase, takeSample, hs, h0, hw, h8, slowAccept, Shared.taken]

/-- The SLOW adjustment does not touch the mode. -/
theorem slowAdjust_state (m : Main) : (slowAdjust m).state = m.state := by
  unfold slowAdjust
  dsimp only
  split <;> simp only []

/-- The history left by the SLOW adjustment. -/
theorem slowAdjust_Ihist (m : Main) : (slowAdjust m).Ihist = slowIhist m.error m.Ihist := by
  unfold slowAdjust
  dsimp only
  split <;> simp only []

/-- The I term left by the SLOW adjustment. -/
theorem slowAdjust_I (m : Main) : (slowAdjust m).I = slowI (slowIhist m.error m.Ihist) := by
  unfold slowAdjust
  dsimp only
  split <;> simp only []

/-- SLOW window close with a gross error. -/
theorem slowClose_gross (m : Main)
    (h : abs16 (wrapS32 (60 * 10000000 - m.sum)) > 128) :
    slowClose m = { m with error := wrapS32 (60 * 10000000 - m.sum), counter := 0, sum := 0,
                           state := FASTINIT } := by
  unfold slowClose
  simp only [h, if_true]

/-- A SLOW window close whose `abs(error)` is at most 128. -/
theorem slowClose_fine (m : Main)
    (h : ¬ abs16 (wrapS32 (60 * 10000000 - m.sum)) > 128) :
    slowClose m
      = slowAdjust { m with error := wrapS32 (60 * 10000000 - m.sum), counter := 0, sum := 0 } := by
  unfold slowClose
  simp only [h, if_false]

/-- A SLOW window close with a window error in [-128, 128] is the SLOW
adjustment on that error. -/
theorem slowCloseWithError_eq (m : Main) (e : Int) (h0 : -128 ≤ e) (h1 : e ≤ 128) :
    slowCloseWithError m e = slowAdjust { m with error := e, counter := 0, sum := 0 } := by
  have he : wrapS32 (60 * 10000000 - (600000000 - e)) = e := by
    simp only [wrapS32]; omega
  have hg : ¬ abs16 (wrapS32 (60 * 10000000
      - ({ m with sum := 600000000 - e } : Main).sum)) > 128 := by
    show ¬ abs16 (wrapS32 (60 * 10000000 - (600000000 - e))) > 128
    rw [he, abs16_of_int16 _ (by omega) (by omega)]
    split_ifs <;> omega
  unfold slowCloseWithError
  rw [slowClose_fine _ hg]
  show slowAdjust { m with error := wrapS32 (60 * 10000000 - (600000000 - e)),
                           counter := 0, sum := 0 } = _
  rw [he]

/-- The history after a SLOW window close with error `e`. -/
theorem slowCloseWithError_Ihist (m : Main) (e : Int) (h0 : -128 ≤ e) (h1 : e ≤ 128) :
    (slowCloseWithError m e).Ihist = slowIhist e m.Ihist := by
  rw [slowCloseWithError_eq m e h0 h1, slowAdjust_Ihist]

/-- The I term after a SLOW window close with error `e`. -/
theorem slowCloseWithError_I (m : Main) (e : Int) (h0 : -128 ≤ e) (h1 : e ≤ 128) :
    (slowCloseWithError m e).I = slowI (slowIhist e m.Ihist) := by
  rw [slowCloseWithError_eq m e h0 h1, slowAdjust_I]

/-- Consecutive SLOW window closes with positive errors count `Ihist` up. -/
theorem foldl_slowClose_pos (es : List Int) : ∀ (m : Main), 0 ≤ m.Ihist →
    m.Ihist + es.length ≤ 32767 → (∀ e ∈ es, 0 < e ∧ e ≤ 128) →
    (es.foldl slowCloseWithError m).Ihist = m.Ihist + es.length := by
  induction es with
  | nil => intro m _ _ _; simp
  | cons e es ih =>
    intro m h0 h1 he
    have hlen : ((e :: es).length : Int) = (es.length : Int) + 1 := by simp
    rw [hlen] at h1 ⊢
    have hxl : (0 : Int) ≤ es.length := Int.natCast_nonneg _
    obtain ⟨e0, e1⟩ := he e (List.mem_cons_self _ _)
    have hstep : (slowCloseWithError m e).Ihist = m.Ihist + 1 := by
      rw [slowCloseWithError_Ihist m e (by omega) e1]
      simp only [slowIhist, wrapS16]
      split_ifs <;> omega
    rw [List.foldl_cons, ih (slowCloseWithError m e) (by omega) (by omega)
      (fun y hy => he y (List.mem_cons_of_mem _ hy)), hstep]
    ring

/-- Consecutive SLOW window closes with negative errors count `Ihist` down. -/
theorem foldl_slowClose_neg (es : List Int) : ∀ (m : Main), m.Ihist ≤ 0 →
    -32768 ≤ m.Ihist - es.length → (∀ e ∈ es, -128 ≤ e ∧ e < 0) →
    (es.foldl slowCloseWithError m).Ihist = m.Ihist - es.length := by
  induction es with
  | nil => intro m _ _ _; simp
  | cons e es ih =>
    intro m h0 h1 he
    have hlen : ((e :: es).length : Int) = (es.length : Int) + 1 := by simp
    rw [hlen] at h1 ⊢
    have hxl : (0 : Int) ≤ es.length := Int.natCast_nonneg _
    obtain ⟨e0, e1⟩ := he e (List.mem_cons_self _ _)
    have hstep : (slowCloseWithError m e).Ihist = m.Ihist - 1 := by
      rw [slowCloseWithError_Ihist m e e0 (by omega)]
      simp only [slowIhist, wrapS16]
      split_ifs <;> omega
    rw [List.foldl_cons, ih (slowCloseWithError m e) (by omega) (by omega)
      (fun y hy => he y (List.mem_cons_of_mem _ hy)), hstep]
    ring

/-- The I term on a history that fits an `int`. -/
theorem slowI_eq (h : Int) (h0 : -32768 < h) (h1 : h ≤ 32767) :
    slowI h = if -1 ≤ h ∧ h ≤ 1 then 0 else wrapS16 (25 * h) := by
  unfold slowI
  rw [abs16_of_int16 h h0 h1]
  simp only [I_ERRORBAND_SLOW, I_FACTOR_SLOW]
  split_ifs <;> first | rfl | omega

/-- The updated history is an `int`. -/
theorem slowIhist_range (e h : Int) : -32768 ≤ slowIhist e h ∧ slowIhist e h ≤ 32767 := by
  simp only [slowIhist, wrapS16]
  split_ifs <;> omega

/-! ## Tick accumulator -/

theorem Timer.ticks_succ (n : Nat) (t : Timer) :
    Timer.ticks (n + 1) t = (Timer.ticks n t).tick := by
  induction n generalizing t with
  | zero => rfl
  | succ k ih =>
    show Timer.ticks (k + 1) t.tick = _
    rw [ih]
    rfl

/-- State of the counter and the accumulator `n` ticks after a reference
edge that latched `c`: before the first roll-over the accumulator is still
0 and `countadd` is the rest of the partial cycle; from the first roll-over
on, `count + TAR` is the number of ticks since the edge (as a `long`). -/
theorem Timer.ticks_after_edge (c cap p : Int) (b : Bool) (hc0 : 0 ≤ c)
    (hc1 : c < 65536) (n : Nat) :
    (Timer.ticks n (Timer.justAfterEdge c cap p b)).TAR = (c + n) % 65536 ∧
    (c + n < 65536 →
      (Timer.ticks n (Timer.justAfterEdge c cap p b)).sh.count = 0 ∧
      (Timer.ticks n (Timer.justAfterEdge c cap p b)).sh.countadd = 65536 - c) ∧
    (65536 ≤ c + n →
      (Timer.ticks n (Timer.justAfterEdge c cap p b)).sh.countadd = 65536 ∧
      (Timer.ticks n (Timer.justAfterEdge c cap p b)).sh.count
        = wrapS32 (n - (c + n) % 65536)) := by
  induction n with
  | zero =>
    refine ⟨?_, fun _ => ⟨rfl, rfl⟩, fun h => ?_⟩
    · show c = (c + ((0 : Nat) : Int)) % 65536
      omega
    · exfalso; omega
  | succ k ih =>
    rw [Timer.ticks_succ]
    generalize Timer.ticks k (Timer.justAfterEdge c cap p b) = u at ih
    obtain ⟨h1, h5, h6⟩ := ih
    have hk : ((k + 1 : Nat) : Int) = (k : Int) + 1 := by push_cast; ring
    rw [hk]
    have hmod : wrapU16 (u.TAR + 1) = (c + ((k : Int) + 1)) % 65536 := by
      rw [h1]; simp only [wrapU16]; omega
    by_cases hz : (c + ((k : Int) + 1)) % 65536 = 0
    · have hs : u.tick = { TAR := 0, sh := Timer_A 10 u.sh } := by
        simp only [Timer.tick, hmod, hz, if_true]
      rw [hs, hz]
      refine ⟨rfl, fun h => ?_, fun _ => ⟨rfl, ?_⟩⟩
      · exfalso; omega
      · show wrapS32 (u.sh.count + u.sh.countadd) = _
        by_cases hlt : c + (k : Int) < 65536
        · obtain ⟨e1, e2⟩ := h5 hlt
          rw [e1, e2]; simp only [wrapS32]; omega
        · obtain ⟨e1, e2⟩ := h6 (by omega)
          rw [e1, e2]; simp only [wrapS32]; omega
    · have hs : u.tick = { TAR := (c + ((k : Int) + 1)) % 65536, sh := u.sh } := by
        simp only [Timer.tick, hmod, hz, if_false]
      rw [hs]
      refine ⟨rfl, fun h => h5 (by omega), fun h => ?_⟩
      have hge : 65536 ≤ c + (k : Int) := by omega
      obtain ⟨e1, e2⟩ := h6 hge
      refine ⟨e1, ?_⟩
      show u.sh.count = _
      rw [e2]; simp only [wrapS32]; omega

/-- The sample stored at the second of two reference edges `n` ticks apart,
the first of which latched `c`: the latched value `c + n` when the counter
did not roll over in between, and the tick count `n` (as a `long`) when it
did. -/
theorem Timer.sample_after (t : Timer) (h0 : 0 ≤ t.TAR) (h1 : t.TAR < 65536)
    (n : Nat) :
    ((Timer.ticks n t.edge).edge).sh.capture =
      if t.TAR + n < 65536 then wrapS32 (t.TAR + n) else wrapS32 n := by
  have hu : wrapU16 t.TAR = t.TAR := by simp only [wrapU16]; omega
  have hca : wrapS32 (65536 - t.TAR) = 65536 - t.TAR := by
    simp only [wrapS32]; omega
  have he : t.edge = Timer.justAfterEdge t.TAR (wrapS32 (t.sh.count + t.TAR))
      (wrapU8 (t.sh.pps + 1)) false := by
    simp only [Timer.edge, Timer_A0, Timer.justAfterEdge, hu, hca]
  rw [he]
  obtain ⟨k1, k5, k6⟩ := Timer.ticks_after_edge t.TAR (wrapS32 (t.sh.count + t.TAR))
    (wrapU8 (t.sh.pps + 1)) false h0 h1 n
  generalize Timer.ticks n (Timer.justAfterEdge t.TAR (wrapS32 (t.sh.count + t.TAR))
    (wrapU8 (t.sh.pps + 1)) false) = u at k1 k5 k6
  show wrapS32 (u.sh.count + wrapU16 u.TAR) = _
  rw [k1]
  by_cases hlt : t.TAR + (n : Int) < 65536
  · obtain ⟨e1, -⟩ := k5 hlt
    rw [e1, if_pos hlt]; simp only [wrapS32, wrapU16]; omega
  · obtain ⟨-, e2⟩ := k6 (by omega)
    rw [e2, if_neg hlt]; simp only [wrapS32, wrapU16]; omega

/-- C1, as stated, fails.  An edge that latched 5 followed one tick later by
the next edge (no roll-over in between) stores the sample 6, not the one
tick that elapsed; and two edges 2^31 ticks apart store a negative sample,
because the accumulator is a 32-bit `long`. -/
theorem C1_sample_not_elapsed_ticks :
    ((Timer.ticks 1 (Timer.edge { TAR := 5, sh := Shared.init })).edge).sh.capture = 6 ∧
    ((Timer.ticks 1 (Timer.edge { TAR := 5, sh := Shared.init })).edge).sh.capture ≠ 1 ∧
    ((Timer.ticks 2147483648
        (Timer.edge { TAR := 5, sh := Shared.init })).edge).sh.capture = -2147483648 := by
  refine ⟨by decide, by decide, ?_⟩
  rw [Timer.sample_after _ (by decide) (by decide)]
  decide

/-- C1 (amended): for two consecutive reference edges `n` ticks apart, with
at least one counter roll-over between them and `n` below 2^31, the sample
stored in `capture` at the second edge is exactly `n`, whatever the state
before the first edge and however many roll-overs lie in between. -/
theorem C1_sample_eq_elapsed_ticks (t : Timer) (n : Nat)
    (h0 : 0 ≤ t.TAR) (h1 : t.TAR < 65536)
    (hwrap : 65536 ≤ t.TAR + n) (hn : n < 2147483648) :
    ((Timer.ticks n t.edge).edge).sh.capture = n := by
  rw [Timer.sample_after t h0 h1 n]
  have : ¬ (t.TAR + (n : Int) < 65536) := by omega
  simp only [this, if_false, wrapS32]
  omega

/-- C1 witness: an edge at counter value 40000 and the next edge 10,000,000
ticks later (152 roll-overs in between). -/
theorem C1_sample_eq_elapsed_ticks_witness :
    ((Timer.ticks 10000000
        (Timer.edge { TAR := 40000, sh := Shared.init })).edge).sh.capture
      = (10000000 : Nat) :=
  C1_sample_eq_elapsed_ticks { TAR := 40000, sh := Shared.init } 10000000
    (by decide) (by decide) (by decide) (by decide)

/-! ## Duty-cycle guards -/

/-- C2 (code at the failing input): a SLOW window close with duty cycle 65530,
`Ihist = 1` and window error 1 computes `adjust = P + I = 0 + 50` and stores
the wrapped sum 65530 + 50 - 65536 = 44 in the duty cycle and in `TA1CCR1`:
the SLOW path adds `adjust` without the overflow guard of the FAST path. -/
theorem C2_slow_close_wraps_duty_cycle :
    (second 0 (Shared.init,
        { Main.init with state := SLOW, counter := 59, sum := 589999999, Ihist := 1,
                         pwm_duty_cycle := 65530, TA1CCR1 := 65530 }) 10000000).2.adjust = 50 ∧
    (second 0 (Shared.init,
        { Main.init with state := SLOW, counter := 59, sum := 589999999, Ihist := 1,
                         pwm_duty_cycle := 65530, TA1CCR1 := 65530 }) 10000000).2.pwm_duty_cycle = 44 ∧
    (second 0 (Shared.init,
        { Main.init with state := SLOW, counter := 59, sum := 589999999, Ihist := 1,
                         pwm_duty_cycle := 65530, TA1CCR1 := 65530 }) 10000000).2.TA1CCR1 = 44 := by
  decide

/-- C3, as stated, fails.  A FAST window close with duty cycle 65530 and
window error 2 (`adjust = 624`, sum past 65535) sets the duty cycle to
0x8001 = 32769, not to 65535; with duty cycle 100 and window error -2
(`adjust = -624`, sum below 0) it sets 0x8000 = 32768, not 1; and with duty
cycle 624 and window error -2 the new duty cycle is 0, below 1. -/
theorem C3_fast_guard_not_range_ends :
    (second 0 (Shared.init,
        { Main.init with state := FAST, counter := 7, sum := 69999998,
                         pwm_duty_cycle := 65530, TA1CCR1 := 65530 }) 10000000).2.adjust = 624 ∧
    (second 0 (Shared.init,
        { Main.init with state := FAST, counter := 7, sum := 69999998,
                         pwm_duty_cycle := 65530, TA1CCR1 := 65530 }) 10000000).2.pwm_duty_cycle
      = 32769 ∧
    (second 0 (Shared.init,
        { Main.init with state := FAST, counter := 7, sum := 70000002,
                         pwm_duty_cycle := 100, TA1CCR1 := 100 }) 10000000).2.adjust = -624 ∧
    (second 0 (Shared.init,
        { Main.init with state := FAST, counter := 7, sum := 70000002,
                         pwm_duty_cycle := 100, TA1CCR1 := 100 }) 10000000).2.pwm_duty_cycle
      = 32768 ∧
    (second 0 (Shared.init,
        { Main.init with state := FAST, counter := 7, sum := 70000002,
                         pwm_duty_cycle := 624, TA1CCR1 := 624 }) 10000000).2.pwm_duty_cycle
      = 0 := by
  decide

/-- C3 (amended): at a FAST window close with a 16-bit duty cycle `d` and the
limited adjustment `adjust`, the new duty cycle is 0x8001 when `d + adjust`
exceeds 65535, 0x8000 when `d + adjust` is below 0, and `d + adjust`
otherwise; it always stays in [0, 65535] and is never the wrapped sum. -/
theorem C3_fast_close_duty_cycle (P2IN : Nat) (sh : Shared) (m : Main) (x : Int)
    (hcold : bitSet P2IN P2OSC = false) (hp0 : 0 ≤ sh.pps) (hp1 : sh.pps ≤ 13)
    (hs : m.state = FAST) (hc0 : 7 ≤ m.counter) (hc1 : m.counter < 32767) (hx : x ≠ 0)
    (hd0 : 0 ≤ m.pwm_duty_cycle) (hd1 : m.pwm_duty_cycle ≤ 65535) :
    (m.pwm_duty_cycle + (second P2IN (sh, m) x).2.adjust > 65535 →
      (second P2IN (sh, m) x).2.pwm_duty_cycle = 0x8001) ∧
    (m.pwm_duty_cycle + (second P2IN (sh, m) x).2.adjust < 0 →
      (second P2IN (sh, m) x).2.pwm_duty_cycle = 0x8000) ∧
    (0 ≤ m.pwm_duty_cycle + (second P2IN (sh, m) x).2.adjust →
      m.pwm_duty_cycle + (second P2IN (sh, m) x).2.adjust ≤ 65535 →
      (second P2IN (sh, m) x).2.pwm_duty_cycle
        = m.pwm_duty_cycle + (second P2IN (sh, m) x).2.adjust) ∧
    0 ≤ (second P2IN (sh, m) x).2.pwm_duty_cycle ∧
    (second P2IN (sh, m) x).2.pwm_duty_cycle ≤ 65535 := by
  rw [second_fast_close P2IN sh m x hcold hp0 hp1 hs hc0 hc1 hx]
  have key := fastClose_duty (fastAccept m x) hd0 hd1
  have hpw : (fastAccept m x).pwm_duty_cycle = m.pwm_duty_cycle := rfl
  rw [hpw] at key
  simp only []
  rw [key]
  refine ⟨fun h => ?_, fun h => ?_, fun h1 h2 => ?_, ?_, ?_⟩ <;> split_ifs <;> omega

/-- C3 witness: duty cycle 30000 and window error 2; `adjust = 624` is simply
added. -/
theorem C3_fast_close_duty_cycle_witness :
    (second 0 (Shared.init,
        { Main.init with state := FAST, counter := 7, sum := 69999998,
                         pwm_duty_cycle := 30000, TA1CCR1 := 30000 }) 10000000).2.pwm_duty_cycle
      = 30000 + (second 0 (Shared.init,
        { Main.init with state := FAST, counter := 7, sum := 69999998,
                         pwm_duty_cycle := 30000, TA1CCR1 := 30000 }) 10000000).2.adjust :=
  (C3_fast_close_duty_cycle 0 Shared.init
    { Main.init with state := FAST, counter := 7, sum := 69999998,
                     pwm_duty_cycle := 30000, TA1CCR1 := 30000 } 10000000
    (by decide) (by decide) (by decide) rfl (by decide) (by decide) (by decide)
    (by decide) (by decide)).2.2.1 (by decide) (by decide)

/-! ## FAST: lock detection, window length, sign of the adjustment -/

set_option maxRecDepth 100000 in
/-- C4 (code at the failing input): after power-up two idle passes bring the
mode to FASTINIT; with samples of exactly 10,000,000, FASTINIT and FASTWAIT
take six samples and enter FAST with `lockcount = 0` and an empty window.
After five further windows of eight samples, each with window error 0, the
mode is still FAST with `lockcount = 5`; SLOWINIT is entered only at the
close of the sixth in-band window, because the test is `lockcount > 5`. -/
theorem C4_five_windows_do_not_lock :
    (mainPass 0 (mainPass 0 (Shared.init, Main.init))).2.state = FASTINIT ∧
    (feed 0 (mainPass 0 (mainPass 0 (Shared.init, Main.init)))
      (List.replicate 6 10000000)).2.state = FAST ∧
    (feed 0 (mainPass 0 (mainPass 0 (Shared.init, Main.init)))
      (List.replicate 6 10000000)).2.lockcount = 0 ∧
    (feed 0 (mainPass 0 (mainPass 0 (Shared.init, Main.init)))
      (List.replicate 6 10000000)).2.counter = 0 ∧
    (feed 0 (mainPass 0 (mainPass 0 (Shared.init, Main.init)))
      (List.replicate 46 10000000)).2.error = 0 ∧
    (feed 0 (mainPass 0 (mainPass 0 (Shared.init, Main.init)))
      (List.replicate 46 10000000)).2.lockcount = 5 ∧
    (feed 0 (mainPass 0 (mainPass 0 (Shared.init, Main.init)))
      (List.replicate 46 10000000)).2.state = FAST ∧
    (feed 0 (mainPass 0 (mainPass 0 (Shared.init, Main.init)))
      (List.replicate 54 10000000)).2.lockcount = 6 ∧
    (feed 0 (mainPass 0 (mainPass 0 (Shared.init, Main.init)))
      (List.replicate 54 10000000)).2.state = SLOWINIT := by
  decide

/-- C5: FAST window length.  From a FAST state with an empty window (`sum = 0`
and `counter = 0`, or `counter = -1` after a close that adjusted, in which
case one settle sample `ys` comes first and is not summed), eight samples
`xs` are fed.  After the first `k < 8` of them no window has closed: the mode
is FAST, `counter = k`, the window sum is the sum of those `k` samples, and
`lockcount`, the duty cycle and the actuator are untouched.  The eighth
sample closes the window: the locals are exactly `fastClose` applied to the
state whose `sum` is the sum of the eight samples (a `long`), so the window
error is 80,000,000 minus that sum (exactly, for samples below 2^28).  After
the close the window is empty again (`sum = 0`, `counter` 0 or -1), so the
same holds for the next window. -/
theorem C5_fast_window_is_eight_samples (P2IN : Nat) (sh : Shared) (m : Main)
    (ys xs : List Int) (hcold : bitSet P2IN P2OSC = false)
    (hp0 : 0 ≤ sh.pps) (hp1 : sh.pps ≤ 13) (hs : m.state = FAST) (hsum : m.sum = 0)
    (hc : (m.counter = 0 ∧ ys = []) ∨ (m.counter = -1 ∧ ys.length = 1))
    (hlen : xs.length = 8) (hx : ∀ x ∈ ys ++ xs, x ≠ 0) :
    (∀ k, k < 8 →
      (feed P2IN (sh, m) (ys ++ xs.take k)).2.state = FAST ∧
      (feed P2IN (sh, m) (ys ++ xs.take k)).2.counter = k ∧
      (feed P2IN (sh, m) (ys ++ xs.take k)).2.sum = wrapS32 (xs.take k).sum ∧
      (feed P2IN (sh, m) (ys ++ xs.take k)).2.lockcount = m.lockcount ∧
      (feed P2IN (sh, m) (ys ++ xs.take k)).2.pwm_duty_cycle = m.pwm_duty_cycle ∧
      (feed P2IN (sh, m) (ys ++ xs.take k)).2.TA1CCR1_writes = m.TA1CCR1_writes) ∧
    (feed P2IN (sh, m) (ys ++ xs)).2
      = fastClose { m with sum := wrapS32 xs.sum, adjust := 0 } ∧
    ((∀ x ∈ xs, 0 < x ∧ x < 268435456) →
      (fastError { m with sum := wrapS32 xs.sum, adjust := 0 }).error
        = 80000000 - xs.sum) ∧
    (feed P2IN (sh, m) (ys ++ xs)).2.sum = 0 ∧
    (((feed P2IN (sh, m) (ys ++ xs)).2.adjust = 0 ∧
        (feed P2IN (sh, m) (ys ++ xs)).2.counter = 0) ∨
     ((feed P2IN (sh, m) (ys ++ xs)).2.adjust ≠ 0 ∧
        (feed P2IN (sh, m) (ys ++ xs)).2.counter = -1)) := by
  obtain ⟨sh0, e, a, hfeed, hq0, hq1⟩ := feed_fast_settle P2IN hcold sh m ys hp0 hp1 hs hc
    (fun y hy => hx y (List.mem_append_left _ hy))
  have hxs : ∀ x ∈ xs, x ≠ 0 := fun x h => hx x (List.mem_append_right _ h)
  have hclose : (feed P2IN (sh, m) (ys ++ xs)).2
      = fastClose { m with sum := wrapS32 xs.sum, adjust := 0 } := by
    rw [feed_append, hfeed, feed_fast_window P2IN hcold sh0
      { m with counter := 0, error := e, adjust := a } xs hq0 hq1 hs rfl hsum hlen hxs]
    exact fastClose_counter_error { m with sum := wrapS32 xs.sum, adjust := 0 } 0 e
  refine ⟨fun k hk => ?_, hclose, fun hr => ?_, ?_, ?_⟩
  · have hlk : (xs.take k).length = k := by
      rw [List.length_take]; omega
    rw [feed_append, hfeed, feed_fast_accept P2IN hcold (xs.take k) sh0
      { m with counter := 0, error := e, adjust := a } hq0 hq1 hs
      (le_refl _) (by simp only [hlk]; omega) (fun x h => hxs x (List.mem_of_mem_take h))]
    rw [foldl_fastAccept]
    by_cases hnil : xs.take k = []
    · have hk0 : k = 0 := by rw [hnil] at hlk; simpa using hlk.symm
      subst hk0
      simp [hs, hsum, wrapS32]
    · simp [hnil, hs, hsum, hlk]
  · have := sum_lt_of_forall_lt xs 268435456 hr
    rw [hlen] at this
    simp only [fastError, SAMPLE_SECONDS, wrapS32]
    push_cast at this
    omega
  · rw [hclose]; exact (fastClose_restart _).1
  · rw [hclose]; exact (fastClose_restart _).2

/-- C5 witness: a window of eight samples around 10,000,000, from
`counter = 0`. -/
theorem C5_fast_window_is_eight_samples_witness :
    (feed 0 (Shared.init, { Main.init with state := FAST, counter := 0 })
        ([] ++ [10000001, 9999999, 10000000, 10000002, 9999998, 10000000, 10000001,
                9999999])).2
      = fastClose { ({ Main.init with state := FAST, counter := 0 } : Main) with
          sum := wrapS32 ([10000001, 9999999, 10000000, 10000002, 9999998, 10000000,
                           10000001, 9999999] : List Int).sum,
          adjust := 0 } :=
  (C5_fast_window_is_eight_samples 0 Shared.init
    { Main.init with state := FAST, counter := 0 } []
    [10000001, 9999999, 10000000, 10000002, 9999998, 10000000, 10000001, 9999999]
    (by decide) (by decide) (by decide) rfl rfl (Or.inl ⟨rfl, rfl⟩) rfl (by decide)).2.1

/-- C6 (code at the failing input): a FAST window whose sum is 79,999,894 has
the positive error 106, yet the value stored in the `int adjust` is negative:
312 * 106 = 33072 does not fit in 16 bits and is stored as -32464, which the
limiting step turns into -32000, and the duty cycle goes down from 40000 to
8000. -/
theorem C6_positive_error_negative_adjust :
    (second 0 (Shared.init,
        { Main.init with state := FAST, counter := 7, sum := 69999894,
                         pwm_duty_cycle := 40000, TA1CCR1 := 40000 }) 10000000).2.error = 106 ∧
    (second 0 (Shared.init,
        { Main.init with state := FAST, counter := 7, sum := 69999894,
                         pwm_duty_cycle := 40000, TA1CCR1 := 40000 }) 10000000).2.adjust = -32000 ∧
    (second 0 (Shared.init,
        { Main.init with state := FAST, counter := 7, sum := 69999894,
                         pwm_duty_cycle := 40000, TA1CCR1 := 40000 }) 10000000).2.pwm_duty_cycle
      = 8000 := by
  decide

/-- C7: Scenario 1 (perfect lock).  In FAST at the start of a window
(`counter = 0`, `sum = 0`), eight samples of exactly 10,000,000 close the
window with `error = 0` and `adjust = 0`; the duty cycle is unchanged,
`TA1CCR1` is not written, `lockcount` goes up by exactly one, and no settle
sample follows (`counter = 0`, `sum = 0`). -/
theorem C7_perfect_lock (P2IN : Nat) (sh : Shared) (m : Main)
    (hcold : bitSet P2IN P2OSC = false) (hp0 : 0 ≤ sh.pps) (hp1 : sh.pps ≤ 13)
    (hs : m.state = FAST) (hc : m.counter = 0) (hsum : m.sum = 0)
    (hl0 : 0 ≤ m.lockcount) (hl1 : m.lockcount < 255)
    (hd0 : 0 ≤ m.pwm_duty_cycle) (hd1 : m.pwm_duty_cycle ≤ 65535) :
    (feed P2IN (sh, m) (List.replicate 8 10000000)).2.error = 0 ∧
    (feed P2IN (sh, m) (List.replicate 8 10000000)).2.adjust = 0 ∧
    (feed P2IN (sh, m) (List.replicate 8 10000000)).2.pwm_duty_cycle = m.pwm_duty_cycle ∧
    (feed P2IN (sh, m) (List.replicate 8 10000000)).2.TA1CCR1 = m.TA1CCR1 ∧
    (feed P2IN (sh, m) (List.replicate 8 10000000)).2.TA1CCR1_writes = m.TA1CCR1_writes ∧
    (feed P2IN (sh, m) (List.replicate 8 10000000)).2.lockcount = m.lockcount + 1 ∧
    (feed P2IN (sh, m) (List.replicate 8 10000000)).2.counter = 0 ∧
    (feed P2IN (sh, m) (List.replicate 8 10000000)).2.sum = 0 := by
  have hx : ∀ x ∈ List.replicate 8 (10000000 : Int), x ≠ 0 := by
    intro x hx'
    rw [List.eq_of_mem_replicate hx']; decide
  rw [feed_fast_window P2IN hcold sh m _ hp0 hp1 hs hc hsum (by simp) hx]
  have hS : wrapS32 (List.replicate 8 (10000000 : Int)).sum = 80000000 := by decide
  rw [hS, fastClose_in_band { m with sum := 80000000, adjust := 0 } rfl rfl hl0 hl1 hd0 hd1]
  simp

/-- C7 witness: eight samples of 10,000,000 from `lockcount = 2`. -/
theorem C7_perfect_lock_witness :
    (feed 0 (Shared.init, { Main.init with state := FAST, counter := 0, lockcount := 2,
                                           pwm_duty_cycle := 30000, TA1CCR1 := 30000 })
        (List.replicate 8 10000000)).2.lockcount = 2 + 1 :=
  (C7_perfect_lock 0 Shared.init
    { Main.init with state := FAST, counter := 0, lockcount := 2,
                     pwm_duty_cycle := 30000, TA1CCR1 := 30000 }
    (by decide) (by decide) (by decide) rfl rfl rfl (by decide) (by decide)
    (by decide) (by decide)).2.2.2.2.2.1

set_option maxRecDepth 100000 in
/-- C9 (code at the failing input): a SLOW window whose sum is 599,934,464
closes with the window error 65536 stored in the `long` variable `error`,
far above 128, and the mode stays SLOW: the test is `abs(error) > 128`, and
`abs` takes an `int`, which on this target keeps the low 16 bits of the
`long` error, here 0.  The window is handled as a perfect one: no
adjustment, duty cycle untouched. -/
theorem C9_gross_error_65536_stays_slow :
    (second 0 (Shared.init,
        { Main.init with state := SLOW, counter := 59, sum := 589934464,
                         pwm_duty_cycle := 30000, TA1CCR1 := 30000 }) 10000000).2.state = SLOW ∧
    (second 0 (Shared.init,
        { Main.init with state := SLOW, counter := 59, sum := 589934464,
                         pwm_duty_cycle := 30000, TA1CCR1 := 30000 }) 10000000).2.error = 65536 ∧
    (second 0 (Shared.init,
        { Main.init with state := SLOW, counter := 59, sum := 589934464,
                         pwm_duty_cycle := 30000, TA1CCR1 := 30000 }) 10000000).2.adjust = 0 ∧
    (second 0 (Shared.init,
        { Main.init with state := SLOW, counter := 59, sum := 589934464,
                         pwm_duty_cycle := 30000, TA1CCR1 := 30000 }) 10000000).2.pwm_duty_cycle
      = 30000 := by
  decide

/-- The gross-error test inside the `int` range.  At a SLOW window close
whose window error `e` fits the 16-bit `int` that `abs` sees,
`128 < |e| <= 32767` makes the mode FASTINIT, resets the window sum and the
window counter to 0 and applies no adjustment (duty cycle and `TA1CCR1`
untouched, no store); `|e| <= 128` leaves the mode SLOW. -/
theorem second_slow_gross_in_int_range (P2IN : Nat) (sh : Shared) (m : Main) (x : Int)
    (hcold : bitSet P2IN P2OSC = false) (hp0 : 0 ≤ sh.pps) (hp1 : sh.pps ≤ 13)
    (hs : m.state = SLOW) (hc0 : 59 ≤ m.counter) (hc1 : m.counter < 32767) (hx : x ≠ 0) :
    (((128 < wrapS32 (600000000 - wrapS32 (m.sum + x)) ∧
        wrapS32 (600000000 - wrapS32 (m.sum + x)) ≤ 32767) ∨
      (-32767 ≤ wrapS32 (600000000 - wrapS32 (m.sum + x)) ∧
        wrapS32 (600000000 - wrapS32 (m.sum + x)) < -128)) →
      (second P2IN (sh, m) x).2.state = FASTINIT ∧
      (second P2IN (sh, m) x).2.sum = 0 ∧
      (second P2IN (sh, m) x).2.counter = 0 ∧
      (second P2IN (sh, m) x).2.pwm_duty_cycle = m.pwm_duty_cycle ∧
      (second P2IN (sh, m) x).2.TA1CCR1 = m.TA1CCR1 ∧
      (second P2IN (sh, m) x).2.TA1CCR1_writes = m.TA1CCR1_writes) ∧
    ((-128 ≤ wrapS32 (600000000 - wrapS32 (m.sum + x)) ∧
        wrapS32 (600000000 - wrapS32 (m.sum + x)) ≤ 128) →
      (second P2IN (sh, m) x).2.state = SLOW) := by
  rw [second_slow_close P2IN sh m x hcold hp0 hp1 hs hc0 hc1 hx]
  have he : (60 : Int) * 10000000 - (slowAccept m x).sum = 600000000 - wrapS32 (m.sum + x) := by
    simp [slowAccept]
  constructor
  · intro h
    have hg : abs16 (wrapS32 (60 * 10000000 - (slowAccept m x).sum)) > 128 := by
      rw [he, abs16_of_int16 _ (by omega) (by omega)]
      split_ifs <;> omega
    rw [slowClose_gross _ hg]
    exact ⟨rfl, rfl, rfl, rfl, rfl, rfl⟩
  · intro h
    have hg : ¬ abs16 (wrapS32 (60 * 10000000 - (slowAccept m x).sum)) > 128 := by
      rw [he, abs16_of_int16 _ (by omega) (by omega)]
      split_ifs <;> omega
    rw [slowClose_fine _ hg, slowAdjust_state]
    exact hs

/-- A window sum of 599,999,800, that is, a window error of 200, moves the
mode to FASTINIT. -/
theorem second_slow_gross_in_int_range_example :
    (second 0 (Shared.init,
        { Main.init with state := SLOW, counter := 59, sum := 589999800,
                         pwm_duty_cycle := 30000, TA1CCR1 := 30000 }) 10000000).2.state
      = FASTINIT :=
  ((second_slow_gross_in_int_range 0 Shared.init
      { Main.init with state := SLOW, counter := 59, sum := 589999800,
                       pwm_duty_cycle := 30000, TA1CCR1 := 30000 } 10000000
      (by decide) (by decide) (by decide) rfl (by decide) (by decide) (by decide)).1
    (Or.inl ⟨by decide, by decide⟩)).1

/-- C10, as stated, fails.  After 1310 consecutive window closes with error
+1 from `Ihist = 0`, `Ihist` is 1310; the next such close makes it 1311 and
computes the I term in 16-bit `int` arithmetic: 25 * 1311 = 32775 is stored
as -32761, not as `I_FACTOR_SLOW * Ihist`. -/
theorem C10_integral_term_overflows :
    (List.foldl slowCloseWithError { Main.init with state := SLOW } (List.replicate 1310 1)).Ihist
      = 1310 ∧
    (List.foldl slowCloseWithError { Main.init with state := SLOW } (List.replicate 1311 1)).Ihist
      = 1311 ∧
    (List.foldl slowCloseWithError { Main.init with state := SLOW } (List.replicate 1311 1)).I
      = -32761 ∧
    (-32761 : Int) ≠ I_FACTOR_SLOW * 1311 := by
  have hmem : ∀ n : Nat, ∀ e ∈ List.replicate n (1 : Int), 0 < e ∧ e ≤ 128 := by
    intro n e he
    rw [List.eq_of_mem_replicate he]; decide
  have hI : ({ Main.init with state := SLOW } : Main).Ihist = 0 := rfl
  have h1310 : (List.foldl slowCloseWithError { Main.init with state := SLOW }
      (List.replicate 1310 1)).Ihist = 1310 := by
    rw [foldl_slowClose_pos (List.replicate 1310 1) { Main.init with state := SLOW }
      (by decide) (by rw [hI, List.length_replicate]; decide) (hmem 1310),
      hI, List.length_replicate]
    decide
  have h1311 : (List.foldl slowCloseWithError { Main.init with state := SLOW }
      (List.replicate 1311 1)).Ihist = 1311 := by
    rw [foldl_slowClose_pos (List.replicate 1311 1) { Main.init with state := SLOW }
      (by decide) (by rw [hI, List.length_replicate]; decide) (hmem 1311),
      hI, List.length_replicate]
    decide
  have hs : List.replicate 1311 (1 : Int) = List.replicate 1310 1 ++ [1] :=
    List.replicate_succ' 1310 1
  refine ⟨h1310, h1311, ?_, by decide⟩
  rw [hs, List.foldl_append, List.foldl_cons, List.foldl_nil,
    slowCloseWithError_I _ 1 (by decide) (by decide), h1310]
  decide

/-- C10 (amended): SLOW integral history, for window errors `e` with
`|e| <= 128`.  Starting from `Ihist = 0`, after `n <= 32767` consecutive
window closes with positive errors `Ihist = n`, and with negative errors
`Ihist = -n`; a close whose error has the sign opposite to `Ihist` resets
`Ihist` to 0; and after any close the I term is 0 when `|Ihist| <= 1` and
`I_FACTOR_SLOW * Ihist` when `1 < |Ihist| <= 1310` (the products that fit
the 16-bit `int`). -/
theorem C10_integral_history (m : Main) (es : List Int) (e : Int) :
    (m.Ihist = 0 → es.length ≤ 32767 → (∀ x ∈ es, 0 < x ∧ x ≤ 128) →
      (es.foldl slowCloseWithError m).Ihist = es.length) ∧
    (m.Ihist = 0 → es.length ≤ 32767 → (∀ x ∈ es, -128 ≤ x ∧ x < 0) →
      (es.foldl slowCloseWithError m).Ihist = -(es.length : Int)) ∧
    (-128 ≤ e → e ≤ 128 → ((0 < m.Ihist ∧ e < 0) ∨ (m.Ihist < 0 ∧ 0 < e)) →
      (slowCloseWithError m e).Ihist = 0) ∧
    (-128 ≤ e → e ≤ 128 →
      ((-1 ≤ (slowCloseWithError m e).Ihist ∧ (slowCloseWithError m e).Ihist ≤ 1) →
        (slowCloseWithError m e).I = 0) ∧
      (((1 < (slowCloseWithError m e).Ihist ∧ (slowCloseWithError m e).Ihist ≤ 1310) ∨
        (-1310 ≤ (slowCloseWithError m e).Ihist ∧ (slowCloseWithError m e).Ihist < -1)) →
        (slowCloseWithError m e).I = I_FACTOR_SLOW * (slowCloseWithError m e).Ihist)) := by
  refine ⟨fun h0 hl hx => ?_, fun h0 hl hx => ?_, fun e0 e1 hflip => ?_, fun e0 e1 => ?_⟩
  · have hl' : ((es.length : Nat) : Int) ≤ 32767 := by exact_mod_cast hl
    rw [foldl_slowClose_pos es m (by omega) (by omega) hx, h0]
    ring
  · have hl' : ((es.length : Nat) : Int) ≤ 32767 := by exact_mod_cast hl
    rw [foldl_slowClose_neg es m (by omega) (by omega) hx, h0]
    ring
  · rw [slowCloseWithError_Ihist m e e0 e1]
    simp only [slowIhist]
    split_ifs <;> omega
  · rw [slowCloseWithError_I m e e0 e1, slowCloseWithError_Ihist m e e0 e1]
    have hr := slowIhist_range e m.Ihist
    constructor
    · intro hb
      rw [slowI_eq _ (by omega) hr.2, if_pos hb]
    · intro hb
      rw [slowI_eq _ (by omega) hr.2]
      simp only [I_FACTOR_SLOW, wrapS16]
      split_ifs <;> omega

/-- C10 witness: three closes with the positive errors 5, 3, 7. -/
theorem C10_integral_history_witness :
    (List.foldl slowCloseWithError { Main.init with state := SLOW } [5, 3, 7]).Ihist
      = (([5, 3, 7] : List Int).length : Int) :=
  (C10_integral_history { Main.init with state := SLOW } [5, 3, 7] 0).1 rfl (by decide)
    (by decide)

/-! ## Fault monitor -/

/-- A pass from a checked state is the error checks, entered with the mode
GOOD from START and CHECKERRORS. -/
theorem faultSwitch_checked (P2IN : Nat) (sh : Shared) (m : Main)
    (hs : m.state.checked = true) :
    faultSwitch P2IN sh m = errorChecks P2IN sh { m with state := m.state.enterChecks } := by
  unfold faultSwitch
  cases h : m.state <;> simp [h, Mode.checked, Mode.enterChecks] at hs ⊢ <;>
    · congr 1
      cases m
      simp_all

/-- The error checks with the cold bit high: OSCCOLD, nothing else looked
at. -/
theorem errorChecks_cold (P2IN : Nat) (sh : Shared) (m : Main)
    (hcold : bitSet P2IN P2OSC = true) :
    errorChecks P2IN sh m = (sh, { m with led := (-1, 0, 0), state := OSCCOLD }) := by
  simp [errorChecks, hcold]

/-- The mode after the error checks with the cold bit low: the later of the
two remaining checks that fires decides. -/
theorem errorChecks_warm_state (P2IN : Nat) (sh : Shared) (m : Main)
    (hcold : bitSet P2IN P2OSC = false) :
    (errorChecks P2IN sh m).2.state =
      if sh.pps > 14 then NOOSCCLOCK
      else if sh.count > 150000000 then NOGPSPPS else m.state := by
  simp only [errorChecks, hcold]
  split_ifs <;> simp_all

/-- The handlers' data after the error checks: `pps` is cleared when the
missing-oscillator check fires, nothing else is written. -/
theorem errorChecks_shared (P2IN : Nat) (sh : Shared) (m : Main) :
    (errorChecks P2IN sh m).1 =
      if bitSet P2IN P2OSC = false ∧ sh.pps > 14 then { sh with pps := 0 } else sh := by
  simp only [errorChecks]
  split_ifs <;> simp_all

/-- The error checks write only `state` and `led`. -/
theorem errorChecks_locals (P2IN : Nat) (sh : Shared) (m : Main) :
    (errorChecks P2IN sh m).2 =
      { m with state := (errorChecks P2IN sh m).2.state, led := (errorChecks P2IN sh m).2.led } := by
  simp only [errorChecks]
  split_ifs <;> rfl

/-- The first `switch` writes only `state` and `led`. -/
theorem faultSwitch_locals (P2IN : Nat) (sh : Shared) (m : Main) :
    (faultSwitch P2IN sh m).2 =
      { m with state := (faultSwitch P2IN sh m).2.state, led := (faultSwitch P2IN sh m).2.led } := by
  unfold faultSwitch
  cases h : m.state <;> simp only [h] <;>
    first
    | exact errorChecks_locals P2IN sh _
    | (split_ifs <;> (cases m; simp_all))

/-- The first `switch` does not write `capture`. -/
theorem faultSwitch_capture (P2IN : Nat) (sh : Shared) (m : Main) :
    (faultSwitch P2IN sh m).1.capture = sh.capture := by
  unfold faultSwitch
  cases h : m.state <;> simp only [h] <;>
    first
    | (rw [errorChecks_shared]; split_ifs <;> rfl)
    | (split_ifs <;> rfl)

/-- A pass with no sample pending is the first `switch` alone. -/
theorem mainPass_no_sample (P2IN : Nat) (sh : Shared) (m : Main) (hcap : sh.capture = 0) :
    mainPass P2IN (sh, m) = faultSwitch P2IN sh m := by
  have h := faultSwitch_capture P2IN sh m
  rw [hcap] at h
  simp only [mainPass, onCapture, h]
  simp


/-- OSCCOLD: the pass leaves the state alone while the cold bit is high and
moves to CHECKERRORS once it is low. -/
theorem faultSwitch_osccold (P2IN : Nat) (sh : Shared) (m : Main) (hs : m.state = OSCCOLD) :
    faultSwitch P2IN sh m =
      if bitSet P2IN P2OSC = false then (sh, { m with led := (0, 0, 0), state := CHECKERRORS })
      else (sh, m) := by
  unfold faultSwitch
  simp only [hs]

/-- C11: Scenario 3 (fault then recovery), on passes with no sample pending.
From START, CHECKERRORS or any operational state a pass with the cold bit
high sets the mode to OSCCOLD and touches neither the duty cycle nor
`TA1CCR1`, whatever the other fault inputs are; in OSCCOLD a pass with the
cold bit high changes nothing; and once the bit is low three successive
passes (the second one with no other fault showing) take the mode to
CHECKERRORS, GOOD and FASTINIT, the duty cycle and `TA1CCR1` still
untouched. -/
theorem C11_cold_fault_and_recovery (P2IN p1 p2 p3 : Nat) (sh sh1 sh2 sh3 : Shared) (m : Main)
    (hcap : sh.capture = 0) (hcap1 : sh1.capture = 0) (hcap2 : sh2.capture = 0)
    (hcap3 : sh3.capture = 0) :
    (m.state.checked = true → bitSet P2IN P2OSC = true →
      (mainPass P2IN (sh, m)).2.state = OSCCOLD ∧
      (mainPass P2IN (sh, m)).2.pwm_duty_cycle = m.pwm_duty_cycle ∧
      (mainPass P2IN (sh, m)).2.TA1CCR1 = m.TA1CCR1 ∧
      (mainPass P2IN (sh, m)).2.TA1CCR1_writes = m.TA1CCR1_writes) ∧
    (m.state = OSCCOLD → bitSet P2IN P2OSC = true → mainPass P2IN (sh, m) = (sh, m)) ∧
    (m.state = OSCCOLD → bitSet p1 P2OSC = false → bitSet p2 P2OSC = false →
      sh2.count ≤ 150000000 → sh2.pps ≤ 14 →
      (mainPass p1 (sh1, m)).2.state = CHECKERRORS ∧
      (mainPass p2 (sh2, (mainPass p1 (sh1, m)).2)).2.state = GOOD ∧
      (mainPass p3 (sh3, (mainPass p2 (sh2, (mainPass p1 (sh1, m)).2)).2)).2.state = FASTINIT ∧
      (mainPass p3 (sh3, (mainPass p2 (sh2, (mainPass p1 (sh1, m)).2)).2)).2.pwm_duty_cycle
        = m.pwm_duty_cycle ∧
      (mainPass p3 (sh3, (mainPass p2 (sh2, (mainPass p1 (sh1, m)).2)).2)).2.TA1CCR1
        = m.TA1CCR1 ∧
      (mainPass p3 (sh3, (mainPass p2 (sh2, (mainPass p1 (sh1, m)).2)).2)).2.TA1CCR1_writes
        = m.TA1CCR1_writes) := by
  refine ⟨fun hs hcold => ?_, fun hs hcold => ?_, fun hs h1 h2 hcount hpps => ?_⟩
  · rw [mainPass_no_sample P2IN sh m hcap, faultSwitch_checked P2IN sh m hs,
      errorChecks_cold P2IN sh _ hcold]
    exact ⟨rfl, rfl, rfl, rfl⟩
  · rw [mainPass_no_sample P2IN sh m hcap, faultSwitch_osccold P2IN sh m hs]
    simp [hcold]
  · have e1 : mainPass p1 (sh1, m) = (sh1, { m with led := (0, 0, 0), state := CHECKERRORS }) := by
      rw [mainPass_no_sample p1 sh1 m hcap1, faultSwitch_osccold p1 sh1 m hs]
      simp [h1]
    have e2 : mainPass p2 (sh2, { m with led := (0, 0, 0), state := CHECKERRORS })
        = (sh2, { m with led := (0, 0, 0), state := GOOD }) := by
      rw [mainPass_no_sample p2 sh2 _ hcap2,
        faultSwitch_checked p2 sh2 { m with led := (0, 0, 0), state := CHECKERRORS } rfl,
        errorChecks_quiet p2 sh2 _ h2 hcount hpps]
      rfl
    have e3 : mainPass p3 (sh3, { m with led := (0, 0, 0), state := GOOD })
        = (sh3, { m with led := (0, 0, 0), state := FASTINIT }) := by
      rw [mainPass_no_sample p3 sh3 _ hcap3]
      rfl
    rw [e1, e2, e3]
    exact ⟨rfl, rfl, rfl, rfl, rfl, rfl⟩

/-- C11 witness: a cold oscillator seen in FAST. -/
theorem C11_cold_fault_and_recovery_witness :
    (mainPass 1 (Shared.init, { Main.init with state := FAST, pwm_duty_cycle := 30000,
                                               TA1CCR1 := 30000 })).2.state = OSCCOLD :=
  ((C11_cold_fault_and_recovery 1 0 0 0 Shared.init Shared.init Shared.init Shared.init
      { Main.init with state := FAST, pwm_duty_cycle := 30000, TA1CCR1 := 30000 }
      rfl rfl rfl rfl).1 rfl (by decide)).1

/-- NOOSCCLOCK and NOGPSPPS: the pass leaves the state alone while `pps` is 0
and moves to CHECKERRORS once it is not. -/
theorem faultSwitch_waits_pps (P2IN : Nat) (sh : Shared) (m : Main)
    (hs : m.state = NOOSCCLOCK ∨ m.state = NOGPSPPS) :
    faultSwitch P2IN sh m =
      if sh.pps ≠ 0 then (sh, { m with led := (0, 0, 0), state := CHECKERRORS })
      else (sh, m) := by
  unfold faultSwitch
  rcases hs with hs | hs <;> simp only [hs]

/-- NOGPSLOCK: the pass leaves the state alone while the lock-lost bit is
high and moves to CHECKERRORS once it is low. -/
theorem faultSwitch_nogpslock (P2IN : Nat) (sh : Shared) (m : Main) (hs : m.state = NOGPSLOCK) :
    faultSwitch P2IN sh m =
      if bitSet P2IN P2GPSLOCK = false then
        (sh, { m with led := (0, 0, 0), state := CHECKERRORS })
      else (sh, m) := by
  unfold faultSwitch
  simp only [hs]

/-- C12, as stated, fails.  From power-up with no fault and no sample, the
first pass puts the mode at GOOD and a second pass with the same inputs
moves it on to FASTINIT. -/
theorem C12_start_is_not_a_fixed_point :
    (mainPass 0 (Shared.init, Main.init)).2.state = GOOD ∧
    (mainPass 0 (mainPass 0 (Shared.init, Main.init))).2.state = FASTINIT ∧
    (mainPass 0 (mainPass 0 (Shared.init, Main.init))).2.state
      ≠ (mainPass 0 (Shared.init, Main.init)).2.state := by
  decide

/-- C12 (amended): the fault-check pass on settled modes, with no sample
pending.  A pass changes nothing in an operational state (FASTINIT ... SLOW)
with no fault showing, and in a fault state whose own recovery test fails
(OSCCOLD with the cold bit high, NOOSCCLOCK or NOGPSPPS with `pps = 0`,
NOGPSLOCK with the lock-lost bit high).  From every operational state and
for every value of the inputs, `pps` being as the first pass left it, a
second pass leaves the mode where the first pass put it, unless `count` is
above the threshold while `pps` is between 1 and 14. -/
theorem C12_fault_pass_stable (P2IN : Nat) (sh : Shared) (m : Main) (hcap : sh.capture = 0) :
    (m.state.ppsGated = true → bitSet P2IN P2OSC = false → sh.count ≤ 150000000 →
      sh.pps ≤ 14 → mainPass P2IN (sh, m) = (sh, m)) ∧
    (m.state = OSCCOLD → bitSet P2IN P2OSC = true → mainPass P2IN (sh, m) = (sh, m)) ∧
    ((m.state = NOOSCCLOCK ∨ m.state = NOGPSPPS) → sh.pps = 0 →
      mainPass P2IN (sh, m) = (sh, m)) ∧
    (m.state = NOGPSLOCK → bitSet P2IN P2GPSLOCK = true → mainPass P2IN (sh, m) = (sh, m)) ∧
    (m.state.ppsGated = true →
      ¬ (bitSet P2IN P2OSC = false ∧ sh.count > 150000000 ∧ sh.pps ≠ 0 ∧ sh.pps ≤ 14) →
      (mainPass P2IN (mainPass P2IN (sh, m))).2.state = (mainPass P2IN (sh, m)).2.state) := by
  refine ⟨fun hg hcold hcount hpps => mainPass_idle P2IN sh m hcold hcount hpps hg hcap,
    fun hs hcold => ?_, fun hs hpps => ?_, fun hs hlock => ?_, fun hg hex => ?_⟩
  · rw [mainPass_no_sample P2IN sh m hcap, faultSwitch_osccold P2IN sh m hs]
    simp [hcold]
  · rw [mainPass_no_sample P2IN sh m hcap, faultSwitch_waits_pps P2IN sh m hs]
    simp [hpps]
  · rw [mainPass_no_sample P2IN sh m hcap, faultSwitch_nogpslock P2IN sh m hs]
    simp [hlock]
  · have hchk : m.state.checked = true := by
      revert hg; cases m.state <;> simp [Mode.ppsGated, Mode.checked]
    have hent : m.state.enterChecks = m.state := by
      revert hg; cases m.state <;> simp [Mode.ppsGated, Mode.enterChecks]
    have hm : ({ m with state := m.state.enterChecks } : Main) = m := by
      rw [hent]
    rw [mainPass_no_sample P2IN sh m hcap, faultSwitch_checked P2IN sh m hchk, hm]
    cases hcold : bitSet P2IN P2OSC
    · -- cold bit low
      have hst := errorChecks_warm_state P2IN sh m hcold
      have hsh := errorChecks_shared P2IN sh m
      have hcap' : (errorChecks P2IN sh m).1.capture = 0 := by
        rw [hsh]; split_ifs <;> simpa using hcap
      generalize errorChecks P2IN sh m = r at hst hsh hcap'
      obtain ⟨sh', m'⟩ := r
      simp only at hst hsh hcap'
      rw [mainPass_no_sample P2IN sh' m' hcap']
      by_cases h14 : sh.pps > 14
      · have hs' : m'.state = NOOSCCLOCK := by rw [hst, if_pos h14]
        have hp' : sh'.pps = 0 := by rw [hsh]; simp [hcold, h14]
        rw [faultSwitch_waits_pps P2IN sh' m' (Or.inl hs')]
        simp [hp']
      · have hsh' : sh' = sh := by rw [hsh]; simp [h14]
        by_cases hc : sh.count > 150000000
        · have hs' : m'.state = NOGPSPPS := by rw [hst, if_neg h14, if_pos hc]
          have hp0 : sh.pps = 0 := by
            by_contra hne
            exact hex ⟨hcold, hc, hne, by omega⟩
          rw [faultSwitch_waits_pps P2IN sh' m' (Or.inr hs'), hsh']
          simp [hp0]
        · have hs' : m'.state = m.state := by rw [hst, if_neg h14, if_neg hc]
          have hg' : m'.state.ppsGated = true := by rw [hs']; exact hg
          rw [hsh', faultSwitch_quiet P2IN sh m' hcold (by omega) (by omega) hg']
    · -- cold bit high
      rw [errorChecks_cold P2IN sh m hcold, mainPass_no_sample P2IN sh _ hcap,
        faultSwitch_osccold P2IN sh _ rfl]
      simp [hcold]

/-- C12 witness: in FAST with the cold bit high the first pass gives OSCCOLD
and so does the second. -/
theorem C12_fault_pass_stable_witness :
    (mainPass 1 (mainPass 1 (Shared.init, { Main.init with state := FAST }))).2.state
      = (mainPass 1 (Shared.init, { Main.init with state := FAST })).2.state :=
  (C12_fault_pass_stable 1 Shared.init { Main.init with state := FAST } rfl).2.2.2.2 rfl
    (by decide)

/-- C13 (code at the failing input): in FAST with the cold bit low,
`count = 200,000,000` (above the missing-1PPS threshold) and `pps = 15`
(above 14), the pass first sets NOGPSPPS and then, the missing-1PPS check
having no `break`, overwrites it with NOOSCCLOCK and clears `pps`.  Either
condition alone gives its own mode, and the cold bit pre-empts both. -/
theorem C13_both_faults_give_nooscclock :
    (mainPass 0 ({ Shared.init with count := 200000000, pps := 15 },
                 { Main.init with state := FAST })).2.state = NOOSCCLOCK ∧
    (mainPass 0 ({ Shared.init with count := 200000000, pps := 15 },
                 { Main.init with state := FAST })).1.pps = 0 ∧
    (mainPass 0 ({ Shared.init with count := 200000000, pps := 0 },
                 { Main.init with state := FAST })).2.state = NOGPSPPS ∧
    (mainPass 0 ({ Shared.init with count := 0, pps := 15 },
                 { Main.init with state := FAST })).2.state = NOOSCCLOCK ∧
    (mainPass 1 ({ Shared.init with count := 200000000, pps := 15 },
                 { Main.init with state := FAST })).2.state = OSCCOLD := by
  decide

/-- C14, as stated, fails.  With `count = 20,000,000` and no other fault a pass
leaves FAST at FAST and takes START to GOOD: the threshold in the code is
150,000,000 (15 seconds at 10 MHz), and `count = 150,000,000` does not
exceed it either. -/
theorem C14_count_20000000_is_no_fault :
    (mainPass 0 ({ Shared.init with count := 20000000 },
                 { Main.init with state := FAST })).2.state = FAST ∧
    (mainPass 0 ({ Shared.init with count := 20000000 }, Main.init)).2.state = GOOD ∧
    (mainPass 0 ({ Shared.init with count := 150000000 },
                 { Main.init with state := FAST })).2.state = FAST := by
  decide

/-- C14 (amended): from START, CHECKERRORS or any operational state, with the
cold bit low and no sample pending, a pass in which `count` exceeds
150,000,000 sets the mode to NOGPSPPS (when `pps` is at most 14, so that the
missing-oscillator check does not fire), and a pass with
`count <= 150,000,000` does not. -/
theorem C14_missing_pps_threshold (P2IN : Nat) (sh : Shared) (m : Main)
    (hcap : sh.capture = 0) (hs : m.state.checked = true)
    (hcold : bitSet P2IN P2OSC = false) :
    (sh.pps ≤ 14 → sh.count > 150000000 → (mainPass P2IN (sh, m)).2.state = NOGPSPPS) ∧
    (sh.count ≤ 150000000 → (mainPass P2IN (sh, m)).2.state ≠ NOGPSPPS) := by
  rw [mainPass_no_sample P2IN sh m hcap, faultSwitch_checked P2IN sh m hs,
    errorChecks_warm_state P2IN sh _ hcold]
  have hne : m.state.enterChecks ≠ NOGPSPPS := by
    revert hs; cases m.state <;> simp [Mode.checked, Mode.enterChecks]
  constructor
  · intro hp hc
    rw [if_neg (by omega), if_pos hc]
  · intro hc
    split_ifs with h1 h2
    · decide
    · omega
    · exact hne

/-- C14 witness: `count = 200,000,000` seen in FAST. -/
theorem C14_missing_pps_threshold_witness :
    (mainPass 0 ({ Shared.init with count := 200000000 },
                 { Main.init with state := FAST })).2.state = NOGPSPPS :=
  (C14_missing_pps_threshold 0 { Shared.init with count := 200000000 }
    { Main.init with state := FAST } rfl rfl (by decide)).1 (by decide) (by decide)

set_option maxRecDepth 100000 in
/-- C15 (code at the failing input): a 1PPS edge with no oscillator tick
(`count = 0`, latched counter 0) stores `capture = 0` and counts `pps` up to
1; the next pass in NOOSCCLOCK sees `pps != 0` and returns to CHECKERRORS,
although no oscillator activity was observed.  From power-up with a stopped
oscillator, the 15th such edge enters NOOSCCLOCK and the 16th already leaves
it. -/
theorem C15_edge_without_ticks_ends_nooscclock :
    (Timer_A0 0 Shared.init).capture = 0 ∧
    (Timer_A0 0 Shared.init).pps = 1 ∧
    (mainPass 0 (interruptA0 0 (Shared.init, { Main.init with state := NOOSCCLOCK }))).2.state
      = CHECKERRORS ∧
    ((fun s => mainPass 0 (interruptA0 0 s))^[15] (Shared.init, Main.init)).2.state
      = NOOSCCLOCK ∧
    ((fun s => mainPass 0 (interruptA0 0 s))^[15] (Shared.init, Main.init)).1.pps = 0 ∧
    ((fun s => mainPass 0 (interruptA0 0 s))^[16] (Shared.init, Main.init)).1.capture = 0 ∧
    ((fun s => mainPass 0 (interruptA0 0 s))^[16] (Shared.init, Main.init)).2.state
      = CHECKERRORS := by
  decide

/-! ## The reference-edge handler -/

/-- C16, as stated, fails at the limits of the variables' types: with the
accumulator at 2,147,483,647 and the latched value 1 the 32-bit `capture`
becomes -2,147,483,648, and `pps++` on the 8-bit `pps = 255` gives 0. -/
theorem C16_edge_wraps_at_type_limits :
    (Timer_A0 1 { Shared.init with count := 2147483647 }).capture = -2147483648 ∧
    (Timer_A0 1 { Shared.init with count := 2147483647 }).capture ≠ 2147483647 + 1 ∧
    (Timer_A0 1 { Shared.init with pps := 255 }).pps = 0 := by
  decide

/-- C16 (amended): the reference-edge handler.  For every latched counter value
`c` in [0, 65535], every accumulator value `n` whose sum `n + c` fits the
32-bit `long`, and `pps` below 255, `Timer_A0` sets `capture = n + c`,
`countadd = 65536 - c` and `count = 0`, counts `pps` up by exactly one,
leaves the capture-overflow flag cleared, and changes none of the locals of
`main`. -/
theorem C16_reference_edge (TA0CCR0 : Int) (sh : Shared) (m : Main)
    (hc0 : 0 ≤ TA0CCR0) (hc1 : TA0CCR0 ≤ 65535)
    (hn0 : -2147483648 ≤ sh.count + TA0CCR0) (hn1 : sh.count + TA0CCR0 ≤ 2147483647)
    (hp0 : 0 ≤ sh.pps) (hp1 : sh.pps < 255) :
    (interruptA0 TA0CCR0 (sh, m)).1.capture = sh.count + TA0CCR0 ∧
    (interruptA0 TA0CCR0 (sh, m)).1.countadd = 65536 - TA0CCR0 ∧
    (interruptA0 TA0CCR0 (sh, m)).1.count = 0 ∧
    (interruptA0 TA0CCR0 (sh, m)).1.pps = sh.pps + 1 ∧
    (interruptA0 TA0CCR0 (sh, m)).1.cov = false ∧
    (interruptA0 TA0CCR0 (sh, m)).2 = m := by
  have hu : wrapU16 TA0CCR0 = TA0CCR0 := by simp only [wrapU16]; omega
  refine ⟨?_, ?_, rfl, ?_, rfl, rfl⟩
  · show wrapS32 (sh.count + wrapU16 TA0CCR0) = _
    rw [hu]; simp only [wrapS32]; omega
  · show wrapS32 (0x10000 - wrapU16 TA0CCR0) = _
    rw [hu]; simp only [wrapS32]; omega
  · show wrapU8 (sh.pps + 1) = _
    simp only [wrapU8]; omega

/-- C16 witness: accumulator 9,961,472 (152 roll-overs) and latched value
38528, with the overflow flag pending. -/
theorem C16_reference_edge_witness :
    (interruptA0 38528 ({ Shared.init with count := 9961472, cov := true },
                        Main.init)).1.capture = 9961472 + 38528 :=
  (C16_reference_edge 38528 { Shared.init with count := 9961472, cov := true } Main.init
    (by decide) (by decide) (by decide) (by decide) (by decide) (by decide)).1

/-! ## FAST: arithmetic of the adjustment -/

/-- C18 (code at the failing input): a FAST window with error 393, the clamp
value itself.  The product 312 * 393 = 122616 exceeds 32767, and the value
stored in the 16-bit `int adjust` is -8456. -/
theorem C18_clamped_error_overflows_int :
    (second 0 (Shared.init,
        { Main.init with state := FAST, counter := 7, sum := 69999607,
                         pwm_duty_cycle := 30000, TA1CCR1 := 30000 }) 10000000).2.error = 393 ∧
    (second 0 (Shared.init,
        { Main.init with state := FAST, counter := 7, sum := 69999607,
                         pwm_duty_cycle := 30000, TA1CCR1 := 30000 }) 10000000).2.adjust
      = -8456 ∧
    (P_FACTOR_FAST / SAMPLE_SECONDS) * P_MAX_ERROR = 122616 ∧
    (32767 : Int) < (P_FACTOR_FAST / SAMPLE_SECONDS) * P_MAX_ERROR := by
  decide

/-- C19, as stated, fails.  A FAST window with error 103 computes
312 * 103 = 32136, above 32000, and the limiting step stores 32001. -/
theorem C19_limit_is_32001 :
    (second 0 (Shared.init,
        { Main.init with state := FAST, counter := 7, sum := 69999897,
                         pwm_duty_cycle := 30000, TA1CCR1 := 30000 }) 10000000).2.error = 103 ∧
    (second 0 (Shared.init,
        { Main.init with state := FAST, counter := 7, sum := 69999897,
                         pwm_duty_cycle := 30000, TA1CCR1 := 30000 }) 10000000).2.adjust
      = 32001 := by
  decide

/-- C19 (amended): after the limiting step of a FAST window close the
adjustment satisfies `-32000 <= adjust <= 32001`, for every window sum. -/
theorem C19_fast_adjust_limit (P2IN : Nat) (sh : Shared) (m : Main) (x : Int)
    (hcold : bitSet P2IN P2OSC = false) (hp0 : 0 ≤ sh.pps) (hp1 : sh.pps ≤ 13)
    (hs : m.state = FAST) (hc0 : 7 ≤ m.counter) (hc1 : m.counter < 32767) (hx : x ≠ 0) :
    -32000 ≤ (second P2IN (sh, m) x).2.adjust ∧ (second P2IN (sh, m) x).2.adjust ≤ 32001 := by
  rw [second_fast_close P2IN sh m x hcold hp0 hp1 hs hc0 hc1 hx]
  simp only [fastClose, fastApply_adjust]
  exact fastLimit_range _

/-- C19 witness: a window with error 1000. -/
theorem C19_fast_adjust_limit_witness :
    (second 0 (Shared.init,
        { Main.init with state := FAST, counter := 7, sum := 69999000,
                         pwm_duty_cycle := 30000, TA1CCR1 := 30000 }) 10000000).2.adjust
      ≤ 32001 :=
  (C19_fast_adjust_limit 0 Shared.init
    { Main.init with state := FAST, counter := 7, sum := 69999000,
                     pwm_duty_cycle := 30000, TA1CCR1 := 30000 } 10000000
    (by decide) (by decide) (by decide) rfl (by decide) (by decide) (by decide)).2

/-- C20: the FAST wrap detection is exact.  For a duty cycle `d` in [0, 65535]
and a limited adjustment `a` in [-32000, 32001], the overflow test of the
guard holds exactly when `d + a > 65535`, the underflow test exactly when
`d + a < 0`, and the guard returns 0x8001 in the first case, 0x8000 in the
second and the integer `d + a` when neither holds. -/
theorem C20_wrap_detection_exact (d a : Int) (hd0 : 0 ≤ d) (hd1 : d ≤ 65535)
    (ha0 : -32000 ≤ a) (ha1 : a ≤ 32001) :
    ((a > 0 ∧ wrapU16 (d + a) < d) ↔ d + a > 65535) ∧
    ((a < 0 ∧ wrapU16 (d + a) > d) ↔ d + a < 0) ∧
    (d + a > 65535 → fastGuard d a = 0x8001) ∧
    (d + a < 0 → fastGuard d a = 0x8000) ∧
    (¬ (a > 0 ∧ wrapU16 (d + a) < d) → ¬ (a < 0 ∧ wrapU16 (d + a) > d) →
      fastGuard d a = d + a) := by
  have key := fastGuard_eq d a hd0 hd1 ha0 ha1
  have hov : (a > 0 ∧ wrapU16 (d + a) < d) ↔ d + a > 65535 := by
    simp only [wrapU16]; constructor <;> intro h <;> omega
  have hun : (a < 0 ∧ wrapU16 (d + a) > d) ↔ d + a < 0 := by
    simp only [wrapU16]; constructor <;> intro h <;> omega
  refine ⟨hov, hun, ?_, ?_, ?_⟩
  · intro h; rw [key, if_pos h]
  · intro h; rw [key]; split_ifs <;> first | rfl | omega
  · intro h1 h2
    rw [hov] at h1
    rw [hun] at h2
    rw [key, if_neg h1, if_neg h2]

/-- C20 witness: duty cycle 65530 and adjustment 50 trip the overflow test. -/
theorem C20_wrap_detection_exact_witness :
    fastGuard 65530 50 = 0x8001 :=
  (C20_wrap_detection_exact 65530 50 (by decide) (by decide) (by decide) (by decide)).2.2.1
    (by decide)

/-! ## SLOW: windows of sixty samples -/

/-- SLOW, `counter = -1`: the sample is not summed; `counter` becomes 0. -/
theorem second_slow_skip (P2IN : Nat) (sh : Shared) (m : Main) (x : Int)
    (hcold : bitSet P2IN P2OSC = false) (hp0 : 0 ≤ sh.pps) (hp1 : sh.pps ≤ 13)
    (hs : m.state = SLOW) (hc : m.counter = -1) (hx : x ≠ 0) :
    second P2IN (sh, m) x =
      (sh.taken, { m with error := wrapS32 (10000000 - x), counter := 0 }) := by
  rw [second_quiet P2IN sh m x hcold hp0 hp1 (by rw [hs]; rfl) hx]
  simp [ppsSwitch, slowCase, takeSample, hs, hc, wrapS16, Shared.taken]

/-- Accepting a list of samples in SLOW. -/
theorem foldl_slowAccept (xs : List Int) (m : Main) :
    xs.foldl slowAccept m =
      if xs = [] then m
      else { m with sum := wrapS32 (m.sum + xs.sum),
                    error := (xs.foldl slowAccept m).error,
                    counter := m.counter + xs.length } := by
  induction xs generalizing m with
  | nil => simp
  | cons x xs ih =>
    simp only [List.foldl_cons, reduceCtorEq, if_false]
    rw [ih]
    by_cases hxs : xs = []
    · subst hxs; simp [slowAccept]
    · simp only [hxs, if_false]
      simp only [slowAccept, wrapS32_add_wrapS32, List.sum_cons, List.length_cons]
      have e1 : m.sum + x + xs.sum = m.sum + (x + xs.sum) := by ring
      have e2 : m.counter + 1 + (xs.length : Int) = m.counter + ((xs.length + 1 : Nat) : Int) := by
        push_cast; ring
      rw [e1, e2]

/-- Seconds inside a SLOW window: while fewer than `SAMPLE_MINUTE` samples
have been counted, every sample is accepted and no window closes. -/
theorem feed_slow_accept (P2IN : Nat) (hcold : bitSet P2IN P2OSC = false)
    (xs : List Int) : ∀ (sh : Shared) (m : Main), 0 ≤ sh.pps → sh.pps ≤ 13 →
    m.state = SLOW → 0 ≤ m.counter → m.counter + xs.length ≤ 59 →
    (∀ x ∈ xs, x ≠ 0) →
    feed P2IN (sh, m) xs = (if xs = [] then sh else sh.taken, xs.foldl slowAccept m) := by
  induction xs with
  | nil => intros; rfl
  | cons x xs ih =>
    intro sh m hp0 hp1 hs hc0 hc1 hx
    have hlen : ((x :: xs).length : Int) = (xs.length : Int) + 1 := by simp
    rw [hlen] at hc1
    have hxl : (0 : Int) ≤ xs.length := Int.natCast_nonneg _
    rw [feed_cons, second_slow_accept P2IN sh m x hcold hp0 hp1 hs hc0 (by omega)
      (hx x (List.mem_cons_self _ _))]
    rw [ih sh.taken (slowAccept m x) (by simp [Shared.taken]) (by simp [Shared.taken])
      (by simp [slowAccept, hs]) (by simp [slowAccept]; omega) (by simp [slowAccept]; omega)
      (fun y hy => hx y (List.mem_cons_of_mem _ hy))]
    simp only [List.foldl_cons, reduceCtorEq, if_false]
    by_cases hxs : xs = [] <;> simp [hxs, Shared.taken]

/-- A SLOW window close overwrites `counter` and `error`. -/
theorem slowClose_irrelevant (m : Main) (c e : Int) :
    slowClose { m with counter := c, error := e } = slowClose m := by
  simp [slowClose]

/-- A whole SLOW window: from a SLOW state with `counter = 0` and `sum = 0`,
sixty samples are accepted and the window closes at the sixtieth, on their
sum. -/
theorem feed_slow_window (P2IN : Nat) (hcold : bitSet P2IN P2OSC = false)
    (sh : Shared) (m : Main) (xs : List Int) (hp0 : 0 ≤ sh.pps) (hp1 : sh.pps ≤ 13)
    (hs : m.state = SLOW) (hc : m.counter = 0) (hsum : m.sum = 0)
    (hlen : xs.length = 60) (hx : ∀ x ∈ xs, x ≠ 0) :
    feed P2IN (sh, m) xs = (sh.taken, slowClose { m with sum := wrapS32 xs.sum }) := by
  have hne : xs ≠ [] := by intro h; simp [h] at hlen
  obtain ⟨ys, y, rfl⟩ : ∃ ys y, xs = ys ++ [y] :=
    ⟨xs.dropLast, xs.getLast hne, (List.dropLast_append_getLast hne).symm⟩
  have hly : ys.length = 59 := by simpa using hlen
  have hys : ys ≠ [] := by intro h; simp [h] at hly
  rw [feed_append, feed_slow_accept P2IN hcold ys sh m hp0 hp1 hs (by omega)
    (by rw [hc, hly]; decide) (fun x hx' => hx x (List.mem_append_left _ hx'))]
  simp only [hys, if_false, feed_cons, feed_nil]
  rw [foldl_slowAccept, if_neg hys]
  rw [second_slow_close P2IN sh.taken _ y hcold (by simp [Shared.taken]) (by simp [Shared.taken])
    (by simp [hs]) (by simp [hc, hly]) (by simp [hc, hly])
    (hx y (List.mem_append_right _ (List.mem_singleton_self y)))]
  have e : slowAccept
        { m with sum := wrapS32 (m.sum + ys.sum), error := (ys.foldl slowAccept m).error,
                 counter := m.counter + ys.length } y
      = { ({ m with sum := wrapS32 (ys ++ [y]).sum } : Main) with
            counter := 60, error := wrapS32 (10000000 - y) } := by
    simp [slowAccept, wrapS32_add_wrapS32, hsum, hc, hly]
  rw [e, slowClose_irrelevant]
  simp [Shared.taken]

/-- The SLOW adjustment does not touch the window sum. -/
theorem slowAdjust_sum (m : Main) : (slowAdjust m).sum = m.sum := by
  unfold slowAdjust
  dsimp only
  split <;> simp only []

/-- The SLOW adjustment sets `counter = -1` exactly when it adjusts. -/
theorem slowAdjust_counter (m : Main) :
    (slowAdjust m).counter = if (slowAdjust m).adjust ≠ 0 then -1 else m.counter := by
  unfold slowAdjust
  dsimp only
  split
  · simp only []
  · simp

/-- After a SLOW window close the window is empty again. -/
theorem slowClose_restart (m : Main) :
    (slowClose m).sum = 0 ∧
    ((slowClose m).counter = 0 ∨ (slowClose m).counter = -1) := by
  by_cases h : abs16 (wrapS32 (60 * 10000000 - m.sum)) > 128
  · rw [slowClose_gross m h]; exact ⟨rfl, Or.inl rfl⟩
  · rw [slowClose_fine m h, slowAdjust_sum, slowAdjust_counter]
    refine ⟨rfl, ?_⟩
    split_ifs
    · right; rfl
    · left; rfl

/-- The seconds before a SLOW window. -/
theorem feed_slow_settle (P2IN : Nat) (hcold : bitSet P2IN P2OSC = false)
    (sh : Shared) (m : Main) (ys : List Int) (hp0 : 0 ≤ sh.pps) (hp1 : sh.pps ≤ 13)
    (hs : m.state = SLOW)
    (hc : (m.counter = 0 ∧ ys = []) ∨ (m.counter = -1 ∧ ys.length = 1))
    (hy : ∀ y ∈ ys, y ≠ 0) :
    ∃ sh0 e, feed P2IN (sh, m) ys = (sh0, { m with counter := 0, error := e }) ∧
      0 ≤ sh0.pps ∧ sh0.pps ≤ 13 := by
  rcases hc with ⟨h0, rfl⟩ | ⟨h1, hl⟩
  · refine ⟨sh, m.error, ?_, hp0, hp1⟩
    rw [feed_nil, ← h0]
  · obtain ⟨y, rfl⟩ : ∃ y, ys = [y] := List.length_eq_one.mp hl
    refine ⟨sh.taken, wrapS32 (10000000 - y), ?_, by simp [Shared.taken], by simp [Shared.taken]⟩
    rw [feed_cons, feed_nil, second_slow_skip P2IN sh m y hcold hp0 hp1 hs h1
      (hy y (List.mem_singleton_self y))]

/-- The SLOW adjustment keeps the window error. -/
theorem slowAdjust_error (m : Main) : (slowAdjust m).error = m.error := by
  unfold slowAdjust
  dsimp only
  split <;> simp only []

/-- The window error stored by a SLOW window close. -/
theorem slowClose_error (m : Main) :
    (slowClose m).error = wrapS32 (60 * 10000000 - m.sum) := by
  by_cases h : abs16 (wrapS32 (60 * 10000000 - m.sum)) > 128
  · rw [slowClose_gross m h]
  · rw [slowClose_fine m h, slowAdjust_error]

/-- The seconds before a SLOW window: the SLOWINIT sample and the skipped one
after it, or the settle of `feed_slow_settle`. -/
theorem feed_slow_start (P2IN : Nat) (hcold : bitSet P2IN P2OSC = false)
    (sh : Shared) (m : Main) (ys : List Int) (hp0 : 0 ≤ sh.pps) (hp1 : sh.pps ≤ 13)
    (hstart : (m.state = SLOWINIT ∧ ys.length = 2) ∨
      (m.state = SLOW ∧ m.sum = 0 ∧
        ((m.counter = 0 ∧ ys = []) ∨ (m.counter = -1 ∧ ys.length = 1))))
    (hy : ∀ y ∈ ys, y ≠ 0) :
    ∃ sh0 m1, feed P2IN (sh, m) ys = (sh0, m1) ∧ 0 ≤ sh0.pps ∧ sh0.pps ≤ 13 ∧
      m1.state = SLOW ∧ m1.counter = 0 ∧ m1.sum = 0 ∧
      m1.Ihist = (if m.state = SLOWINIT then 0 else m.Ihist) ∧
      m1.slowlock = (if m.state = SLOWINIT then 0 else m.slowlock) ∧
      m1.pwm_duty_cycle = m.pwm_duty_cycle ∧ m1.TA1CCR1_writes = m.TA1CCR1_writes := by
  rcases hstart with ⟨hs, hl⟩ | ⟨hs, hsum, hc⟩
  · obtain ⟨y0, y1, rfl⟩ : ∃ y0 y1, ys = [y0, y1] := List.length_eq_two.mp hl
    refine ⟨sh.taken.taken,
      { m with slowlock := 0, sum := 0, Ihist := 0, led := (0, 1, 0), state := SLOW,
               counter := 0, error := wrapS32 (10000000 - y1) },
      ?_, by simp [Shared.taken], by simp [Shared.taken], ?_⟩
    · rw [feed_cons, feed_cons, feed_nil,
        second_slowinit P2IN sh m y0 hcold hp0 hp1 hs (hy y0 (by simp)),
        second_slow_skip P2IN sh.taken _ y1 hcold (by simp [Shared.taken])
          (by simp [Shared.taken]) rfl rfl (hy y1 (by simp))]
    · simp [hs]
  · obtain ⟨sh0, e, hfeed, hq0, hq1⟩ := feed_slow_settle P2IN hcold sh m ys hp0 hp1 hs hc hy
    refine ⟨sh0, _, hfeed, hq0, hq1, ?_⟩
    simp [hs, hsum]

/-- C24: SLOW window length.  A SLOW window starts either at SLOWINIT (the
two samples `ys` are the one observed in SLOWINIT and the one after it) or in
SLOW with an empty window (`sum = 0` and `counter = 0`, or `counter = -1`
after a close that adjusted, with its one settle sample `ys`).  The pass
that observes a sample in SLOWINIT leaves the mode SLOW with `sum = 0`,
`Ihist = 0`, `slowlock = 0` and `counter = -1`.  After `ys`
the mode is SLOW with `sum = 0` and `counter = 0`, and from SLOWINIT also
`Ihist = 0` and `slowlock = 0`, whatever `sum` and `counter` were before.
Then sixty samples `xs` are fed.  After the first `k < 60` of them no window
has closed: the mode is SLOW, `counter = k`, the window sum is the sum of
those `k` samples, and `Ihist`, `slowlock`, the duty cycle and the actuator
are untouched.  The sixtieth sample closes the window: the locals are exactly
`slowClose` applied to the state whose `sum` is the sum of the sixty samples
`xs` (a `long`), so the error it stores is 600,000,000 minus that sum
(exactly, for samples below 2^25), and no sample of `ys` or earlier enters
it.  After the close the window is empty again (`sum = 0`, `counter` 0 or
-1), so the same holds for the next window. -/
theorem C24_slow_window_is_sixty_samples (P2IN : Nat) (sh : Shared) (m : Main)
    (ys xs : List Int) (hcold : bitSet P2IN P2OSC = false)
    (hp0 : 0 ≤ sh.pps) (hp1 : sh.pps ≤ 13)
    (hstart : (m.state = SLOWINIT ∧ ys.length = 2) ∨
      (m.state = SLOW ∧ m.sum = 0 ∧
        ((m.counter = 0 ∧ ys = []) ∨ (m.counter = -1 ∧ ys.length = 1))))
    (hlen : xs.length = 60) (hx : ∀ x ∈ ys ++ xs, x ≠ 0) :
    (m.state = SLOWINIT →
      (feed P2IN (sh, m) (ys.take 1)).2.state = SLOW ∧
      (feed P2IN (sh, m) (ys.take 1)).2.sum = 0 ∧
      (feed P2IN (sh, m) (ys.take 1)).2.Ihist = 0 ∧
      (feed P2IN (sh, m) (ys.take 1)).2.slowlock = 0 ∧
      (feed P2IN (sh, m) (ys.take 1)).2.counter = -1) ∧
    ((feed P2IN (sh, m) ys).2.state = SLOW ∧
      (feed P2IN (sh, m) ys).2.sum = 0 ∧
      (feed P2IN (sh, m) ys).2.counter = 0 ∧
      (feed P2IN (sh, m) ys).2.Ihist = (if m.state = SLOWINIT then 0 else m.Ihist) ∧
      (feed P2IN (sh, m) ys).2.slowlock = (if m.state = SLOWINIT then 0 else m.slowlock)) ∧
    (∀ k, k < 60 →
      (feed P2IN (sh, m) (ys ++ xs.take k)).2.state = SLOW ∧
      (feed P2IN (sh, m) (ys ++ xs.take k)).2.counter = k ∧
      (feed P2IN (sh, m) (ys ++ xs.take k)).2.sum = wrapS32 (xs.take k).sum ∧
      (feed P2IN (sh, m) (ys ++ xs.take k)).2.Ihist = (feed P2IN (sh, m) ys).2.Ihist ∧
      (feed P2IN (sh, m) (ys ++ xs.take k)).2.slowlock = (feed P2IN (sh, m) ys).2.slowlock ∧
      (feed P2IN (sh, m) (ys ++ xs.take k)).2.pwm_duty_cycle = m.pwm_duty_cycle ∧
      (feed P2IN (sh, m) (ys ++ xs.take k)).2.TA1CCR1_writes = m.TA1CCR1_writes) ∧
    (feed P2IN (sh, m) (ys ++ xs)).2
      = slowClose { (feed P2IN (sh, m) ys).2 with sum := wrapS32 xs.sum } ∧
    (feed P2IN (sh, m) (ys ++ xs)).2.error = wrapS32 (60 * 10000000 - wrapS32 xs.sum) ∧
    ((∀ x ∈ xs, 0 < x ∧ x < 33554432) →
      (feed P2IN (sh, m) (ys ++ xs)).2.error = 600000000 - xs.sum) ∧
    (feed P2IN (sh, m) (ys ++ xs)).2.sum = 0 ∧
    ((feed P2IN (sh, m) (ys ++ xs)).2.counter = 0 ∨
      (feed P2IN (sh, m) (ys ++ xs)).2.counter = -1) := by
  obtain ⟨sh0, m1, hfeed, hq0, hq1, hs1, hc1, hsum1, hI, hl, hd, hw⟩ :=
    feed_slow_start P2IN hcold sh m ys hp0 hp1 hstart
      (fun y hy => hx y (List.mem_append_left _ hy))
  have hxs : ∀ x ∈ xs, x ≠ 0 := fun x h => hx x (List.mem_append_right _ h)
  have hclose : (feed P2IN (sh, m) (ys ++ xs)).2
      = slowClose { (feed P2IN (sh, m) ys).2 with sum := wrapS32 xs.sum } := by
    rw [feed_append, hfeed, feed_slow_window P2IN hcold sh0 m1 xs hq0 hq1 hs1 hc1 hsum1 hlen hxs]
  have herr : (feed P2IN (sh, m) (ys ++ xs)).2.error
      = wrapS32 (60 * 10000000 - wrapS32 xs.sum) := by
    rw [hclose, slowClose_error]
  refine ⟨fun hs => ?_, ?_, fun k hk => ?_, hclose, herr, fun hr => ?_, ?_, ?_⟩
  · rcases hstart with ⟨_, hl2⟩ | ⟨hs', _⟩
    · obtain ⟨y0, y1, rfl⟩ : ∃ y0 y1, ys = [y0, y1] := List.length_eq_two.mp hl2
      have hy0 : y0 ≠ 0 := hx y0 (by simp)
      have ht : [y0, y1].take 1 = [y0] := rfl
      rw [ht, feed_cons, feed_nil, second_slowinit P2IN sh m y0 hcold hp0 hp1 hs hy0]
      exact ⟨rfl, rfl, rfl, rfl, rfl⟩
    · rw [hs] at hs'
      exact absurd hs' (by decide)
  · rw [hfeed]; exact ⟨hs1, hsum1, hc1, hI, hl⟩
  · have hlk : (xs.take k).length = k := by
      rw [List.length_take]; omega
    rw [feed_append, hfeed, feed_slow_accept P2IN hcold (xs.take k) sh0 m1 hq0 hq1 hs1
      (by omega) (by simp only [hlk, hc1]; omega) (fun x h => hxs x (List.mem_of_mem_take h))]
    rw [foldl_slowAccept]
    by_cases hnil : xs.take k = []
    · have hk0 : k = 0 := by rw [hnil] at hlk; simpa using hlk.symm
      subst hk0
      simp [hs1, hsum1, hc1, hd, hw, wrapS32]
    · simp [hnil, hs1, hsum1, hc1, hd, hw, hlk]
  · have := sum_lt_of_forall_lt xs 33554432 hr
    rw [hlen] at this
    rw [herr]
    simp only [wrapS32]
    push_cast at this
    omega
  · rw [hclose]; exact (slowClose_restart _).1
  · rw [hclose]; exact (slowClose_restart _).2

set_option maxRecDepth 100000 in
/-- C24 witness: SLOWINIT, the skipped sample after it, and sixty samples of
10,000,001: the window error is 600,000,000 minus their sum. -/
theorem C24_slow_window_is_sixty_samples_witness :
    (feed 0 (Shared.init, { Main.init with state := SLOWINIT, sum := 12345 })
      ([9999000, 9999500] ++ List.replicate 60 10000001)).2.error
      = 600000000 - (List.replicate 60 (10000001 : Int)).sum :=
  (C24_slow_window_is_sixty_samples 0 Shared.init
    { Main.init with state := SLOWINIT, sum := 12345 } [9999000, 9999500]
    (List.replicate 60 10000001) (by decide) (by decide) (by decide)
    (Or.inl ⟨rfl, rfl⟩) (by decide) (by decide)).2.2.2.2.2.1 (by decide)

/-! ## Settle skip after an adjustment -/

/-- The SLOW adjustment stores the adjustment it applied. -/
theorem slowAdjust_adjust_counter (m : Main) :
    ((slowAdjust m).adjust = 0 ∧ (slowAdjust m).counter = m.counter) ∨
    ((slowAdjust m).adjust ≠ 0 ∧ (slowAdjust m).counter = -1) := by
  rw [slowAdjust_counter]
  by_cases h : (slowAdjust m).adjust = 0
  · left; exact ⟨h, by rw [if_neg (not_not.mpr h)]⟩
  · right; exact ⟨h, by rw [if_pos h]⟩

/-- A SLOW window close either changes the mode, with `counter = 0`, or keeps
it and sets `counter` to 0 without and to -1 with an adjustment. -/
theorem slowClose_cases (m : Main) :
    (slowClose m).sum = 0 ∧
    (((slowClose m).state = FASTINIT ∧ (slowClose m).counter = 0) ∨
     ((slowClose m).state = m.state ∧ (slowClose m).adjust = 0 ∧ (slowClose m).counter = 0) ∨
     ((slowClose m).state = m.state ∧ (slowClose m).adjust ≠ 0 ∧ (slowClose m).counter = -1)) := by
  refine ⟨(slowClose_restart m).1, ?_⟩
  by_cases h : abs16 (wrapS32 (60 * 10000000 - m.sum)) > 128
  · rw [slowClose_gross m h]; exact Or.inl ⟨rfl, rfl⟩
  · rw [slowClose_fine m h, slowAdjust_state]
    rcases slowAdjust_adjust_counter
      { m with error := wrapS32 (60 * 10000000 - m.sum), counter := 0, sum := 0 } with h1 | h1
    · exact Or.inr (Or.inl ⟨rfl, h1⟩)
    · exact Or.inr (Or.inr ⟨rfl, h1⟩)

/-- The P term left by the SLOW adjustment. -/
theorem slowAdjust_P (m : Main) : (slowAdjust m).P = slowP m.error := by
  unfold slowAdjust
  dsimp only
  split <;> simp only []

/-- The adjustment left by the SLOW adjustment: `P + I` as an `int`. -/
theorem slowAdjust_adjust (m : Main) :
    (slowAdjust m).adjust
      = wrapS16 (slowP m.error + slowI (slowIhist m.error m.Ihist)) := by
  unfold slowAdjust
  dsimp only
  split
  · simp only []
  · rename_i h
    simp only []
    exact (not_not.mp h).symm

/-- The P term on a window error of at most 128 in size. -/
theorem slowP_eq (e : Int) (h0 : -128 ≤ e) (h1 : e ≤ 128) :
    slowP e = if -1 ≤ e ∧ e ≤ 1 then 0 else 50 * e := by
  unfold slowP
  rw [abs16_of_int16 e (by omega) (by omega)]
  simp only [P_ERRORBAND_SLOW, P_FACTOR_SLOW, wrapS16, wrapS32]
  split_ifs <;> omega

/-- A pass that closes a SLOW window with a window error `e` of at most 128
in size is the SLOW adjustment on `e`. -/
theorem second_slow_fine (P2IN : Nat) (sh : Shared) (m : Main) (x e : Int)
    (hcold : bitSet P2IN P2OSC = false) (hp0 : 0 ≤ sh.pps) (hp1 : sh.pps ≤ 13)
    (hs : m.state = SLOW) (hc0 : 59 ≤ m.counter) (hc1 : m.counter < 32767) (hx : x ≠ 0)
    (he : wrapS32 (60 * 10000000 - wrapS32 (m.sum + x)) = e)
    (he0 : -128 ≤ e) (he1 : e ≤ 128) :
    (second P2IN (sh, m) x).2
      = slowAdjust { slowAccept m x with error := e, counter := 0, sum := 0 } := by
  have he' : wrapS32 (60 * 10000000 - (slowAccept m x).sum) = e := he
  have hg : ¬ abs16 (wrapS32 (60 * 10000000 - (slowAccept m x).sum)) > 128 := by
    rw [he', abs16_of_int16 _ (by omega) (by omega)]
    split_ifs <;> omega
  rw [second_slow_close P2IN sh m x hcold hp0 hp1 hs hc0 hc1 hx]
  dsimp only
  rw [slowClose_fine _ hg, he']

/-- C22, as stated, fails.  A SLOW window of sixty samples whose sum is
exactly 600,000,000 closes with window error 0 on a history `Ihist = 3`:
error and history are both non-negative, their signs are not opposite, and
the code resets `Ihist` to 0 instead of incrementing it to 4. -/
theorem C22_zero_error_resets_history :
    (second 0 (Shared.init,
        { Main.init with state := SLOW, counter := 59, sum := 590000000, Ihist := 3 })
      10000000).2.error = 0 ∧
    (second 0 (Shared.init,
        { Main.init with state := SLOW, counter := 59, sum := 590000000, Ihist := 3 })
      10000000).2.Ihist = 0 ∧
    (second 0 (Shared.init,
        { Main.init with state := SLOW, counter := 59, sum := 590000000, Ihist := 3 })
      10000000).2.state = SLOW := by
  decide

/-- C22 (amended): `Ihist` update at a SLOW window close.  On the pass that
closes a SLOW window with window error `e`, `|e| <= 128`, the history is
incremented when `e > 0` and `0 <= Ihist` (below the `int` maximum),
decremented when `e < 0` and `Ihist <= 0` (above the `int` minimum), and
reset to 0 in every other case; so it is 0 after the close exactly when
`e = 0` or the strict sign of `e` is opposite to that of a non-zero `Ihist`. -/
theorem C22_ihist_update (P2IN : Nat) (sh : Shared) (m : Main) (x e : Int)
    (hcold : bitSet P2IN P2OSC = false) (hp0 : 0 ≤ sh.pps) (hp1 : sh.pps ≤ 13)
    (hs : m.state = SLOW) (hc0 : 59 ≤ m.counter) (hc1 : m.counter < 32767) (hx : x ≠ 0)
    (he : wrapS32 (60 * 10000000 - wrapS32 (m.sum + x)) = e)
    (he0 : -128 ≤ e) (he1 : e ≤ 128)
    (hI0 : -32768 < m.Ihist) (hI1 : m.Ihist < 32767) :
    (e > 0 ∧ m.Ihist ≥ 0 → (second P2IN (sh, m) x).2.Ihist = m.Ihist + 1) ∧
    (e < 0 ∧ m.Ihist ≤ 0 → (second P2IN (sh, m) x).2.Ihist = m.Ihist - 1) ∧
    ((second P2IN (sh, m) x).2.Ihist = 0 ↔
      (e = 0 ∨ (e > 0 ∧ m.Ihist < 0) ∨ (e < 0 ∧ m.Ihist > 0))) := by
  rw [second_slow_fine P2IN sh m x e hcold hp0 hp1 hs hc0 hc1 hx he he0 he1, slowAdjust_Ihist]
  show (e > 0 ∧ m.Ihist ≥ 0 → slowIhist e m.Ihist = m.Ihist + 1) ∧
    (e < 0 ∧ m.Ihist ≤ 0 → slowIhist e m.Ihist = m.Ihist - 1) ∧
    (slowIhist e m.Ihist = 0 ↔ (e = 0 ∨ (e > 0 ∧ m.Ihist < 0) ∨ (e < 0 ∧ m.Ihist > 0)))
  simp only [slowIhist, wrapS16]
  refine ⟨fun h => ?_, fun h => ?_, ?_⟩
  · split_ifs <;> omega
  · split_ifs
    omega
  · split_ifs <;> constructor <;> intro h <;> omega

/-- C22 witness: window error 10 on a history of 3. -/
theorem C22_ihist_update_witness :
    (second 0 (Shared.init,
        { Main.init with state := SLOW, counter := 59, sum := 590000000, Ihist := 3 })
      9999990).2.Ihist = 4 :=
  (C22_ihist_update 0 Shared.init
    { Main.init with state := SLOW, counter := 59, sum := 590000000, Ihist := 3 }
    9999990 10 (by decide) (by decide) (by decide) rfl (by decide) (by decide) (by decide)
    (by decide) (by decide) (by decide) (by decide) (by decide)).1 ⟨by decide, by decide⟩

/-- C23, as stated, fails.  A SLOW window closes with window error 128 on a
history `Ihist = 1100`: the history becomes 1101, `P = 6400`, `I = 27525`,
and `adjust = P + I` is stored in an `int` as -31611, not 33925. -/
theorem C23_adjust_overflows_int :
    (second 0 (Shared.init,
        { Main.init with state := SLOW, counter := 59, sum := 590000000, Ihist := 1100 })
      9999872).2.error = 128 ∧
    (second 0 (Shared.init,
        { Main.init with state := SLOW, counter := 59, sum := 590000000, Ihist := 1100 })
      9999872).2.Ihist = 1101 ∧
    (second 0 (Shared.init,
        { Main.init with state := SLOW, counter := 59, sum := 590000000, Ihist := 1100 })
      9999872).2.P = 6400 ∧
    (second 0 (Shared.init,
        { Main.init with state := SLOW, counter := 59, sum := 590000000, Ihist := 1100 })
      9999872).2.I = 27525 ∧
    (second 0 (Shared.init,
        { Main.init with state := SLOW, counter := 59, sum := 590000000, Ihist := 1100 })
      9999872).2.adjust = -31611 := by
  decide

/-- C23 (amended): SLOW adjustment formula.  On the pass that closes a SLOW
window with window error `e`, `|e| <= 128`, and a history of at most 1053 in
size before the close: `P = 50 * e` if `|e| > 1` and 0 otherwise,
`I = 25 * Ihist'` if `|Ihist'| > 1` and 0 otherwise, where `Ihist'` is the
history after this close, and `adjust = P + I`. -/
theorem C23_slow_adjust_formula (P2IN : Nat) (sh : Shared) (m : Main) (x e : Int)
    (hcold : bitSet P2IN P2OSC = false) (hp0 : 0 ≤ sh.pps) (hp1 : sh.pps ≤ 13)
    (hs : m.state = SLOW) (hc0 : 59 ≤ m.counter) (hc1 : m.counter < 32767) (hx : x ≠ 0)
    (he : wrapS32 (60 * 10000000 - wrapS32 (m.sum + x)) = e)
    (he0 : -128 ≤ e) (he1 : e ≤ 128)
    (hI0 : -1053 ≤ m.Ihist) (hI1 : m.Ihist ≤ 1053) :
    (second P2IN (sh, m) x).2.error = e ∧
    (second P2IN (sh, m) x).2.Ihist = slowIhist e m.Ihist ∧
    (second P2IN (sh, m) x).2.P = (if |e| > P_ERRORBAND_SLOW then e * P_FACTOR_SLOW else 0) ∧
    (second P2IN (sh, m) x).2.I
      = (if |(second P2IN (sh, m) x).2.Ihist| > I_ERRORBAND_SLOW
          then I_FACTOR_SLOW * (second P2IN (sh, m) x).2.Ihist else 0) ∧
    (second P2IN (sh, m) x).2.adjust
      = (second P2IN (sh, m) x).2.P + (second P2IN (sh, m) x).2.I := by
  rw [second_slow_fine P2IN sh m x e hcold hp0 hp1 hs hc0 hc1 hx he he0 he1,
    slowAdjust_Ihist, slowAdjust_P, slowAdjust_I, slowAdjust_adjust, slowAdjust_error]
  show e = e ∧ slowIhist e m.Ihist = slowIhist e m.Ihist ∧
    slowP e = (if |e| > P_ERRORBAND_SLOW then e * P_FACTOR_SLOW else 0) ∧
    slowI (slowIhist e m.Ihist)
      = (if |slowIhist e m.Ihist| > I_ERRORBAND_SLOW
          then I_FACTOR_SLOW * slowIhist e m.Ihist else 0) ∧
    wrapS16 (slowP e + slowI (slowIhist e m.Ihist)) = slowP e + slowI (slowIhist e m.Ihist)
  have hr : -1054 ≤ slowIhist e m.Ihist ∧ slowIhist e m.Ihist ≤ 1054 := by
    simp only [slowIhist, wrapS16]
    split_ifs <;> omega
  have hP := slowP_eq e he0 he1
  have hI := slowI_eq (slowIhist e m.Ihist) (by omega) (by omega)
  have hw : wrapS16 (25 * slowIhist e m.Ihist) = 25 * slowIhist e m.Ihist := by
    simp only [wrapS16]; omega
  rw [hw] at hI
  refine ⟨rfl, rfl, ?_, ?_, ?_⟩
  · rw [hP, Int.abs_eq_natAbs]
    simp only [P_ERRORBAND_SLOW, P_FACTOR_SLOW]
    split_ifs <;> omega
  · rw [hI, Int.abs_eq_natAbs]
    simp only [I_ERRORBAND_SLOW, I_FACTOR_SLOW]
    split_ifs <;> omega
  · rw [hP, hI]
    simp only [wrapS16]
    split_ifs <;> omega

/-- C23 witness: window error 10 on a history of 3. -/
theorem C23_slow_adjust_formula_witness :
    (second 0 (Shared.init,
        { Main.init with state := SLOW, counter := 59, sum := 590000000, Ihist := 3 })
      9999990).2.error = 10 ∧
    (second 0 (Shared.init,
        { Main.init with state := SLOW, counter := 59, sum := 590000000, Ihist := 3 })
      9999990).2.adjust
      = (second 0 (Shared.init,
          { Main.init with state := SLOW, counter := 59, sum := 590000000, Ihist := 3 })
        9999990).2.P
        + (second 0 (Shared.init,
          { Main.init with state := SLOW, counter := 59, sum := 590000000, Ihist := 3 })
        9999990).2.I :=
  ⟨(C23_slow_adjust_formula 0 Shared.init
      { Main.init with state := SLOW, counter := 59, sum := 590000000, Ihist := 3 }
      9999990 10 (by decide) (by decide) (by decide) rfl (by decide) (by decide) (by decide)
      (by decide) (by decide) (by decide) (by decide) (by decide)).1,
   (C23_slow_adjust_formula 0 Shared.init
      { Main.init with state := SLOW, counter := 59, sum := 590000000, Ihist := 3 }
      9999990 10 (by decide) (by decide) (by decide) rfl (by decide) (by decide) (by decide)
      (by decide) (by decide) (by decide) (by decide) (by decide)).2.2.2.2⟩

/-! ## FASTINIT and FASTWAIT -/

/-- A sample seen in FASTINIT: `counter = 5`, `lockcount = 0`, FASTWAIT. -/
theorem second_fastinit (P2IN : Nat) (sh : Shared) (m : Main) (x : Int)
    (hcold : bitSet P2IN P2OSC = false) (hp0 : 0 ≤ sh.pps) (hp1 : sh.pps ≤ 13)
    (hs : m.state = FASTINIT) (hx : x ≠ 0) :
    second P2IN (sh, m) x =
      (sh.taken, { m with sum := (takeSample m x).sum, error := wrapS32 (10000000 - x),
                          counter := 5, state := FASTWAIT, led := (0, 0, 1),
                          lockcount := 0 }) := by
  rw [second_quiet P2IN sh m x hcold hp0 hp1 (by rw [hs]; rfl) hx]
  by_cases hc : m.counter ≥ 0 <;> simp [ppsSwitch, takeSample, hs, hc, Shared.taken]

/-- A sample seen in FASTWAIT with `counter >= 2`: the count goes down. -/
theorem second_fastwait_stay (P2IN : Nat) (sh : Shared) (m : Main) (x : Int)
    (hcold : bitSet P2IN P2OSC = false) (hp0 : 0 ≤ sh.pps) (hp1 : sh.pps ≤ 13)
    (hs : m.state = FASTWAIT) (hc0 : 2 ≤ m.counter) (hc1 : m.counter ≤ 32767) (hx : x ≠ 0) :
    second P2IN (sh, m) x =
      (sh.taken, { m with sum := wrapS32 (m.sum + x), error := wrapS32 (10000000 - x),
                          counter := m.counter - 1 }) := by
  rw [second_quiet P2IN sh m x hcold hp0 hp1 (by rw [hs]; rfl) hx]
  have hw : wrapS16 (m.counter - 1) = m.counter - 1 := by simp only [wrapS16]; omega
  have h0 : 0 ≤ m.counter := by omega
  have h1 : ¬ (m.counter - 1 ≤ 0) := by omega
  simp [ppsSwitch, takeSample, hs, h0, hw, h1, Shared.taken]

/-- A sample seen in FASTWAIT with `counter = 1`: the count reaches 0, the
window sum is cleared and the mode is FAST. -/
theorem second_fastwait_exit (P2IN : Nat) (sh : Shared) (m : Main) (x : Int)
    (hcold : bitSet P2IN P2OSC = false) (hp0 : 0 ≤ sh.pps) (hp1 : sh.pps ≤ 13)
    (hs : m.state = FASTWAIT) (hc : m.counter = 1) (hx : x ≠ 0) :
    second P2IN (sh, m) x =
      (sh.taken, { m with sum := 0, error := wrapS32 (10000000 - x), counter := 0,
                          state := FAST }) := by
  rw [second_quiet P2IN sh m x hcold hp0 hp1 (by rw [hs]; rfl) hx]
  simp [ppsSwitch, takeSample, hs, hc, wrapS16, Shared.taken]

/-- Seconds in FASTWAIT: fewer samples than `counter` only count it down. -/
theorem feed_fastwait (P2IN : Nat) (hcold : bitSet P2IN P2OSC = false)
    (xs : List Int) : ∀ (sh : Shared) (m : Main), 0 ≤ sh.pps → sh.pps ≤ 13 →
    m.state = FASTWAIT → (xs.length : Int) < m.counter → m.counter ≤ 32767 →
    (∀ x ∈ xs, x ≠ 0) →
    ∃ sh0 s e, feed P2IN (sh, m) xs
        = (sh0, { m with sum := s, error := e, counter := m.counter - xs.length }) ∧
      0 ≤ sh0.pps ∧ sh0.pps ≤ 13 := by
  induction xs with
  | nil =>
    intro sh m hp0 hp1 _ _ _ _
    exact ⟨sh, m.sum, m.error, by simp [feed_nil], hp0, hp1⟩
  | cons x xs ih =>
    intro sh m hp0 hp1 hs hc0 hc1 hx
    have hlen : ((x :: xs).length : Int) = (xs.length : Int) + 1 := by simp
    rw [hlen] at hc0
    have hxl : (0 : Int) ≤ xs.length := Int.natCast_nonneg _
    obtain ⟨sh0, s, e, hfeed, hq⟩ := ih sh.taken
      { m with sum := wrapS32 (m.sum + x), error := wrapS32 (10000000 - x),
               counter := m.counter - 1 }
      (by simp [Shared.taken]) (by simp [Shared.taken]) hs
      (by show (xs.length : Int) < m.counter - 1; omega)
      (by show m.counter - 1 ≤ 32767; omega)
      (fun y hy => hx y (List.mem_cons_of_mem _ hy))
    refine ⟨sh0, s, e, ?_, hq⟩
    rw [feed_cons, second_fastwait_stay P2IN sh m x hcold hp0 hp1 hs (by omega) hc1
      (hx x (List.mem_cons_self _ _)), hfeed, hlen]
    have e1 : m.counter - 1 - (xs.length : Int) = m.counter - ((xs.length : Int) + 1) := by ring
    simp only [e1]

/-- FASTINIT and FASTWAIT together: the sample seen in FASTINIT and the five
after it end in FAST with an empty window. -/
theorem feed_fastinit (P2IN : Nat) (hcold : bitSet P2IN P2OSC = false)
    (sh : Shared) (m : Main) (x0 : Int) (xs : List Int) (hp0 : 0 ≤ sh.pps) (hp1 : sh.pps ≤ 13)
    (hs : m.state = FASTINIT) (hlen : xs.length = 5) (hx : ∀ x ∈ x0 :: xs, x ≠ 0) :
    ∃ sh0 e, feed P2IN (sh, m) (x0 :: xs)
        = (sh0, { m with sum := 0, error := e, counter := 0, state := FAST, led := (0, 0, 1),
                         lockcount := 0 }) ∧
      0 ≤ sh0.pps ∧ sh0.pps ≤ 13 := by
  have hne : xs ≠ [] := by intro h; simp [h] at hlen
  obtain ⟨ys, y, rfl⟩ : ∃ ys y, xs = ys ++ [y] :=
    ⟨xs.dropLast, xs.getLast hne, (List.dropLast_append_getLast hne).symm⟩
  have hly : ys.length = 4 := by simpa using hlen
  obtain ⟨sh0, s, e, hfeed, hq0, hq1⟩ := feed_fastwait P2IN hcold ys sh.taken
    { m with sum := (takeSample m x0).sum, error := wrapS32 (10000000 - x0),
             counter := 5, state := FASTWAIT, led := (0, 0, 1), lockcount := 0 }
    (by simp [Shared.taken]) (by simp [Shared.taken]) rfl
    (by show (ys.length : Int) < 5; rw [hly]; decide)
    (by show (5 : Int) ≤ 32767; decide)
    (fun z hz => hx z (List.mem_cons_of_mem _ (List.mem_append_left _ hz)))
  refine ⟨sh0.taken, wrapS32 (10000000 - y), ?_, by simp [Shared.taken], by simp [Shared.taken]⟩
  rw [feed_cons, second_fastinit P2IN sh m x0 hcold hp0 hp1 hs (hx x0 (List.mem_cons_self _ _)),
    feed_append, hfeed, feed_cons, feed_nil,
    second_fastwait_exit P2IN sh0 _ y hcold hq0 hq1 rfl (by simp [hly])
      (hx y (List.mem_cons_of_mem _ (List.mem_append_right _ (List.mem_singleton_self y))))]

/-- C25: acquisition settle.  `x0` is the sample observed in FASTINIT, `xs`
the five samples after it and `zs` the eight after those.  The FASTINIT
sample sets `counter = 5`, `lockcount = 0` and the mode FASTWAIT.  After
`k <= 4` further samples the mode is still FASTWAIT, with `counter = 5 - k`;
the fifth moves it to FAST with `sum = 0`, `counter = 0` and `lockcount = 0`
(duty cycle and actuator untouched).  The first FAST window then closes on
the sum of `zs` alone: nothing of `x0` or `xs` is in it. -/
theorem C25_acquisition_settle (P2IN : Nat) (sh : Shared) (m : Main) (x0 : Int)
    (xs zs : List Int) (hcold : bitSet P2IN P2OSC = false)
    (hp0 : 0 ≤ sh.pps) (hp1 : sh.pps ≤ 13) (hs : m.state = FASTINIT)
    (hlen : xs.length = 5) (hz : zs.length = 8) (hx : ∀ x ∈ x0 :: (xs ++ zs), x ≠ 0) :
    ((feed P2IN (sh, m) [x0]).2.counter = 5 ∧
      (feed P2IN (sh, m) [x0]).2.lockcount = 0 ∧
      (feed P2IN (sh, m) [x0]).2.state = FASTWAIT) ∧
    (∀ k : Nat, k < 5 →
      (feed P2IN (sh, m) (x0 :: xs.take k)).2.state = FASTWAIT ∧
      (feed P2IN (sh, m) (x0 :: xs.take k)).2.counter = 5 - (k : Int) ∧
      (feed P2IN (sh, m) (x0 :: xs.take k)).2.lockcount = 0) ∧
    ((feed P2IN (sh, m) (x0 :: xs)).2.state = FAST ∧
      (feed P2IN (sh, m) (x0 :: xs)).2.sum = 0 ∧
      (feed P2IN (sh, m) (x0 :: xs)).2.counter = 0 ∧
      (feed P2IN (sh, m) (x0 :: xs)).2.lockcount = 0 ∧
      (feed P2IN (sh, m) (x0 :: xs)).2.pwm_duty_cycle = m.pwm_duty_cycle ∧
      (feed P2IN (sh, m) (x0 :: xs)).2.TA1CCR1_writes = m.TA1CCR1_writes) ∧
    (feed P2IN (sh, m) (x0 :: (xs ++ zs))).2
      = fastClose { (feed P2IN (sh, m) (x0 :: xs)).2 with sum := wrapS32 zs.sum, adjust := 0 } := by
  have hx0 : x0 ≠ 0 := hx x0 (List.mem_cons_self _ _)
  have hxs : ∀ x ∈ xs, x ≠ 0 :=
    fun x h => hx x (List.mem_cons_of_mem _ (List.mem_append_left _ h))
  have hzs : ∀ x ∈ zs, x ≠ 0 :=
    fun x h => hx x (List.mem_cons_of_mem _ (List.mem_append_right _ h))
  have hfirst := second_fastinit P2IN sh m x0 hcold hp0 hp1 hs hx0
  obtain ⟨sh0, e, hfeed, hq0, hq1⟩ := feed_fastinit P2IN hcold sh m x0 xs hp0 hp1 hs hlen
    (fun x h => by
      rcases List.mem_cons.mp h with h | h
      · rw [h]; exact hx0
      · exact hxs x h)
  refine ⟨?_, fun k hk => ?_, ?_, ?_⟩
  · rw [feed_cons, feed_nil, hfirst]
    exact ⟨rfl, rfl, rfl⟩
  · have hlk : (xs.take k).length = k := by
      rw [List.length_take]; omega
    obtain ⟨sh1, s1, e1, hf1, _, _⟩ := feed_fastwait P2IN hcold (xs.take k) sh.taken
      { m with sum := (takeSample m x0).sum, error := wrapS32 (10000000 - x0),
               counter := 5, state := FASTWAIT, led := (0, 0, 1), lockcount := 0 }
      (by simp [Shared.taken]) (by simp [Shared.taken]) rfl
      (by show ((xs.take k).length : Int) < 5; rw [hlk]; omega)
      (by show (5 : Int) ≤ 32767; decide)
      (fun z hz => hxs z (List.mem_of_mem_take hz))
    rw [feed_cons, hfirst, hf1, hlk]
    exact ⟨rfl, rfl, rfl⟩
  · rw [hfeed]
    exact ⟨rfl, rfl, rfl, rfl, rfl, rfl⟩
  · have happ : x0 :: (xs ++ zs) = (x0 :: xs) ++ zs := rfl
    rw [happ, feed_append, hfeed,
      feed_fast_window P2IN hcold sh0 _ zs hq0 hq1 rfl rfl rfl hz hzs]

/-- C25 witness: a sample in FASTINIT and five in FASTWAIT. -/
theorem C25_acquisition_settle_witness :
    (feed 0 (Shared.init, { Main.init with state := FASTINIT, counter := 2, sum := 777 })
      (10000100 :: [10000090, 10000080, 10000070, 10000060, 10000050])).2.state = FAST ∧
    (feed 0 (Shared.init, { Main.init with state := FASTINIT, counter := 2, sum := 777 })
      (10000100 :: [10000090, 10000080, 10000070, 10000060, 10000050])).2.sum = 0 :=
  ⟨(C25_acquisition_settle 0 Shared.init
      { Main.init with state := FASTINIT, counter := 2, sum := 777 } 10000100
      [10000090, 10000080, 10000070, 10000060, 10000050]
      [10000001, 10000002, 10000003, 10000004, 10000005, 10000006, 10000007, 10000008]
      (by decide) (by decide) (by decide) rfl rfl rfl (by decide)).2.2.1.1,
   (C25_acquisition_settle 0 Shared.init
      { Main.init with state := FASTINIT, counter := 2, sum := 777 } 10000100
      [10000090, 10000080, 10000070, 10000060, 10000050]
      [10000001, 10000002, 10000003, 10000004, 10000005, 10000006, 10000007, 10000008]
      (by decide) (by decide) (by decide) rfl rfl rfl (by decide)).2.2.1.2.1⟩

/-! ## The two switches of a pass -/

/-- The second `switch` has no case for the fault states, CHECKERRORS, GOOD
and START. -/
theorem ppsSwitch_not_gated (m : Main) (h : m.state.ppsGated = false) : ppsSwitch m = m := by
  unfold ppsSwitch
  cases hs : m.state <;> simp [hs, Mode.ppsGated] at h ⊢

/-- Taking a sample does not touch the mode. -/
theorem takeSample_state (m : Main) (x : Int) : (takeSample m x).state = m.state := by
  unfold takeSample
  split_ifs <;> rfl

/-- Taking a sample writes `sum` (when `counter >= 0`) and `error` only. -/
theorem takeSample_eq (m : Main) (x : Int) :
    takeSample m x
      = { m with sum := if m.counter ≥ 0 then wrapS32 (m.sum + x) else m.sum,
                 error := wrapS32 (10000000 - x) } := by
  unfold takeSample
  split_ifs <;> rfl

/-- A FAST window close keeps the mode or moves it to SLOWINIT. -/
theorem fastClose_state_cases (m : Main) :
    (fastClose m).state = m.state ∨ (fastClose m).state = SLOWINIT := by
  by_cases hb : abs16 (wrapS32 (SAMPLE_SECONDS * 10000000 - m.sum)) ≤ P_ERRORBAND_FAST
  · have hb' : abs16 (fastError m).error ≤ P_ERRORBAND_FAST := hb
    simp only [fastClose, fastApply_state]
    unfold fastBand
    rw [if_pos hb']
    dsimp only
    split_ifs
    · right; rfl
    · left; rfl
  · left; exact (fastClose_out_of_band m hb).1

/-- A FAST window close leaves a 1PPS-gated mode. -/
theorem fastClose_gated (m : Main) (h : m.state = FAST) :
    (fastClose m).state.ppsGated = true := by
  rcases fastClose_state_cases m with h1 | h1
  · rw [h1, h]; rfl
  · rw [h1]; rfl

/-- The body of `case SLOW:` leaves a 1PPS-gated mode. -/
theorem slowCase_gated (m : Main) (h : m.state = SLOW) :
    (slowCase m).state.ppsGated = true := by
  unfold slowCase
  dsimp only
  split_ifs
  · rcases (slowClose_cases { m with counter := wrapS16 (m.counter + 1) }).2 with h1 | h1 | h1
    · rw [h1.1]; rfl
    · rw [h1.1]; exact h ▸ rfl
    · rw [h1.1]; exact h ▸ rfl
  · exact h ▸ rfl

/-- The second `switch` moves among the 1PPS-gated states only. -/
theorem ppsSwitch_gated (m : Main) (h : m.state.ppsGated = true) :
    (ppsSwitch m).state.ppsGated = true := by
  unfold ppsSwitch
  cases hs : m.state <;> rw [hs] at h <;> try exact absurd h (by decide)
  · rfl
  · dsimp only
    split_ifs <;> rfl
  · dsimp only
    split_ifs
    · exact fastClose_gated _ rfl
    · rfl
  · exact slowCase_gated
      { m with slowlock := 0, sum := 0, Ihist := 0, led := (0, 1, 0), state := SLOW,
               counter := -2 } rfl
  · exact slowCase_gated m hs

/-- The mode after a pass: the second `switch` runs on the mode left by the
first one, if a sample is pending. -/
theorem mainPass_state (P2IN : Nat) (sh : Shared) (m : Main) :
    (mainPass P2IN (sh, m)).2.state
      = if sh.capture ≠ 0 then
          (ppsSwitch (takeSample (faultSwitch P2IN sh m).2 sh.capture)).state
        else (faultSwitch P2IN sh m).2.state := by
  have h := faultSwitch_capture P2IN sh m
  simp only [mainPass, onCapture, h]
  split_ifs <;> rfl

/-- A pass whose first `switch` leaves a state outside the 1PPS-gated ones:
a pending sample is taken and nothing else happens. -/
theorem mainPass_not_gated (P2IN : Nat) (sh : Shared) (m : Main)
    (h : (faultSwitch P2IN sh m).2.state.ppsGated = false) :
    (mainPass P2IN (sh, m)).2
      = if sh.capture ≠ 0 then takeSample (faultSwitch P2IN sh m).2 sh.capture
        else (faultSwitch P2IN sh m).2 := by
  have hc := faultSwitch_capture P2IN sh m
  simp only [mainPass, onCapture, hc]
  split_ifs with h1
  · exact ppsSwitch_not_gated _ (by rw [takeSample_state]; exact h)
  · rfl

/-- The body of `case SLOW:` leaves the window sum or clears it. -/
theorem slowCase_sum_cases (m : Main) :
    (slowCase m).sum = m.sum ∨ (slowCase m).sum = 0 := by
  unfold slowCase
  dsimp only
  split_ifs
  · right; exact (slowClose_restart _).1
  · left; rfl

/-- The second `switch` leaves the window sum or clears it. -/
theorem ppsSwitch_sum_cases (m : Main) :
    (ppsSwitch m).sum = m.sum ∨ (ppsSwitch m).sum = 0 := by
  unfold ppsSwitch
  cases hs : m.state <;> dsimp only <;> try exact Or.inl rfl
  · split_ifs
    · right; rfl
    · left; rfl
  · split_ifs
    · right; exact (fastClose_restart _).1
    · left; rfl
  · right
    rcases slowCase_sum_cases
      { m with slowlock := 0, sum := 0, Ihist := 0, led := (0, 1, 0), state := SLOW,
               counter := -2 } with h | h
    · exact h
    · exact h
  · exact slowCase_sum_cases m

/-- The second `switch` never enters a state outside the 1PPS-gated ones. -/
theorem ppsSwitch_state_ne (m : Main) (s : Mode) (hs : s.ppsGated = false)
    (h : m.state ≠ s) : (ppsSwitch m).state ≠ s := by
  by_cases hg : m.state.ppsGated = true
  · intro he
    have := ppsSwitch_gated m hg
    rw [he, hs] at this
    exact absurd this (by decide)
  · rw [ppsSwitch_not_gated m (by simpa using hg)]
    exact h

/-- C26: 1PPS gating.  In FASTINIT, FASTWAIT, FAST, SLOWINIT and SLOW a pass
with no sample pending (`capture = 0`) and no fault showing (cold bit low,
`count` not above 150,000,000, `pps <= 14`) changes nothing at all: the mode,
`counter`, `sum`, `lockcount`, `Ihist`, `slowlock`, the duty cycle and the
actuator register are as before, and so are the handlers' data. -/
theorem C26_pps_gating (P2IN : Nat) (sh : Shared) (m : Main)
    (hg : m.state = FASTINIT ∨ m.state = FASTWAIT ∨ m.state = FAST ∨ m.state = SLOWINIT ∨
      m.state = SLOW)
    (hcap : sh.capture = 0) (hcold : bitSet P2IN P2OSC = false)
    (hcount : sh.count ≤ 150000000) (hpps : sh.pps ≤ 14) :
    (mainPass P2IN (sh, m)).2.state = m.state ∧
    (mainPass P2IN (sh, m)).2.counter = m.counter ∧
    (mainPass P2IN (sh, m)).2.sum = m.sum ∧
    (mainPass P2IN (sh, m)).2.lockcount = m.lockcount ∧
    (mainPass P2IN (sh, m)).2.Ihist = m.Ihist ∧
    (mainPass P2IN (sh, m)).2.slowlock = m.slowlock ∧
    (mainPass P2IN (sh, m)).2.pwm_duty_cycle = m.pwm_duty_cycle ∧
    (mainPass P2IN (sh, m)).2.TA1CCR1 = m.TA1CCR1 ∧
    mainPass P2IN (sh, m) = (sh, m) := by
  have hg' : m.state.ppsGated = true := by
    rcases hg with h | h | h | h | h <;> rw [h] <;> rfl
  rw [mainPass_idle P2IN sh m hcold hcount hpps hg' hcap]
  exact ⟨rfl, rfl, rfl, rfl, rfl, rfl, rfl, rfl, rfl⟩

/-- C26 witness: an idle pass in the middle of a SLOW window. -/
theorem C26_pps_gating_witness :
    mainPass 0 ({ Shared.init with count := 5000000, pps := 0 },
        { Main.init with state := SLOW, counter := 17, sum := 170000003, Ihist := 2 })
      = ({ Shared.init with count := 5000000, pps := 0 },
        { Main.init with state := SLOW, counter := 17, sum := 170000003, Ihist := 2 }) :=
  (C26_pps_gating 0 { Shared.init with count := 5000000, pps := 0 }
    { Main.init with state := SLOW, counter := 17, sum := 170000003, Ihist := 2 }
    (Or.inr (Or.inr (Or.inr (Or.inr rfl)))) rfl (by decide) (by decide) (by decide)).2.2.2.2.2.2.2.2

/-- C27: fault-state exits.  In OSCCOLD, NOOSCCLOCK, NOGPSPPS and NOGPSLOCK
a pass, with or without a sample pending and whatever the port, `count`,
`pps` and `capture` are, leaves the mode where it is or moves it to
CHECKERRORS, and it moves it to CHECKERRORS exactly when the recovery test
of that state holds: cold bit low in OSCCOLD, `pps` non-zero in NOOSCCLOCK
and in NOGPSPPS, lock-lost bit low in NOGPSLOCK. -/
theorem C27_fault_state_exits (P2IN : Nat) (sh : Shared) (m : Main)
    (hf : m.state = OSCCOLD ∨ m.state = NOOSCCLOCK ∨ m.state = NOGPSPPS ∨
      m.state = NOGPSLOCK) :
    ((mainPass P2IN (sh, m)).2.state = m.state ∨
      (mainPass P2IN (sh, m)).2.state = CHECKERRORS) ∧
    ((mainPass P2IN (sh, m)).2.state = CHECKERRORS ↔
      ((m.state = OSCCOLD ∧ bitSet P2IN P2OSC = false) ∨
       ((m.state = NOOSCCLOCK ∨ m.state = NOGPSPPS) ∧ sh.pps ≠ 0) ∨
       (m.state = NOGPSLOCK ∧ bitSet P2IN P2GPSLOCK = false))) := by
  have hfs : (faultSwitch P2IN sh m).2.state =
      if (m.state = OSCCOLD ∧ bitSet P2IN P2OSC = false) ∨
         ((m.state = NOOSCCLOCK ∨ m.state = NOGPSPPS) ∧ sh.pps ≠ 0) ∨
         (m.state = NOGPSLOCK ∧ bitSet P2IN P2GPSLOCK = false)
      then CHECKERRORS else m.state := by
    rcases hf with h | h | h | h
    · rw [faultSwitch_osccold P2IN sh m h]
      by_cases hb : bitSet P2IN P2OSC = false <;> simp [h, hb]
    · rw [faultSwitch_waits_pps P2IN sh m (Or.inl h)]
      by_cases hb : sh.pps = 0 <;> simp [h, hb]
    · rw [faultSwitch_waits_pps P2IN sh m (Or.inr h)]
      by_cases hb : sh.pps = 0 <;> simp [h, hb]
    · rw [faultSwitch_nogpslock P2IN sh m h]
      by_cases hb : bitSet P2IN P2GPSLOCK = false <;> simp [h, hb]
  have hng : (faultSwitch P2IN sh m).2.state.ppsGated = false := by
    rw [hfs]
    split_ifs
    · rfl
    · rcases hf with h | h | h | h <;> rw [h] <;> rfl
  have hst : (mainPass P2IN (sh, m)).2.state = (faultSwitch P2IN sh m).2.state := by
    rw [mainPass_not_gated P2IN sh m hng]
    split_ifs
    · exact takeSample_state _ _
    · rfl
  rw [hst, hfs]
  constructor
  · split_ifs
    · right; rfl
    · left; rfl
  · constructor
    · intro h
      by_contra hn
      rw [if_neg hn] at h
      rcases hf with h1 | h1 | h1 | h1 <;> rw [h1] at h <;> exact absurd h (by decide)
    · intro h
      rw [if_pos h]

/-- C27 witness: NOGPSPPS with a reference edge counted, while the cold bit
is high and `count` is still above the threshold. -/
theorem C27_fault_state_exits_witness :
    (mainPass 1 ({ Shared.init with count := 200000000, pps := 1 },
        { Main.init with state := NOGPSPPS })).2.state = CHECKERRORS :=
  (C27_fault_state_exits 1 { Shared.init with count := 200000000, pps := 1 }
    { Main.init with state := NOGPSPPS } (Or.inr (Or.inr (Or.inl rfl)))).2.mpr
    (Or.inr (Or.inl ⟨Or.inr rfl, by decide⟩))

/-- C28: missing-oscillator detection.  From START, CHECKERRORS or any
operational state, with the cold bit low, a pass that finds `pps > 14` ends
in NOOSCCLOCK with `pps = 0`, and a pass that finds `pps <= 14` does not end
in NOOSCCLOCK; with or without a sample pending, whatever `count` is. -/
theorem C28_missing_oscillator (P2IN : Nat) (sh : Shared) (m : Main)
    (hchk : m.state = START ∨ m.state = CHECKERRORS ∨ m.state = FASTINIT ∨
      m.state = FASTWAIT ∨ m.state = FAST ∨ m.state = SLOWINIT ∨ m.state = SLOW)
    (hcold : bitSet P2IN P2OSC = false) :
    (sh.pps > 14 →
      (mainPass P2IN (sh, m)).2.state = NOOSCCLOCK ∧ (mainPass P2IN (sh, m)).1.pps = 0) ∧
    (sh.pps ≤ 14 → (mainPass P2IN (sh, m)).2.state ≠ NOOSCCLOCK) := by
  have hc : m.state.checked = true := by
    rcases hchk with h | h | h | h | h | h | h <;> rw [h] <;> rfl
  have hne : m.state.enterChecks ≠ NOOSCCLOCK := by
    rcases hchk with h | h | h | h | h | h | h <;> rw [h] <;> decide
  have hfs := faultSwitch_checked P2IN sh m hc
  have hstate := errorChecks_warm_state P2IN sh { m with state := m.state.enterChecks } hcold
  rw [← hfs] at hstate
  have hshared := errorChecks_shared P2IN sh { m with state := m.state.enterChecks }
  rw [← hfs] at hshared
  constructor
  · intro hp
    rw [if_pos hp] at hstate
    rw [if_pos ⟨hcold, hp⟩] at hshared
    constructor
    · rw [mainPass_not_gated P2IN sh m (by rw [hstate]; rfl)]
      split_ifs
      · rw [takeSample_state]; exact hstate
      · exact hstate
    · simp only [mainPass, onCapture]
      split_ifs
      · rfl
      · rw [hshared]
  · intro hp
    have hp' : ¬ sh.pps > 14 := by omega
    rw [if_neg hp'] at hstate
    have hne' : (faultSwitch P2IN sh m).2.state ≠ NOOSCCLOCK := by
      rw [hstate]
      split_ifs
      · decide
      · exact hne
    rw [mainPass_state]
    split_ifs
    · exact ppsSwitch_state_ne _ NOOSCCLOCK rfl (by rw [takeSample_state]; exact hne')
    · exact hne'

/-- C28 witness: fifteen reference edges counted in FAST, with a sample
pending. -/
theorem C28_missing_oscillator_witness :
    (mainPass 0 ({ Shared.init with capture := 10000000, pps := 15 },
        { Main.init with state := FAST, counter := 3 })).2.state = NOOSCCLOCK ∧
    (mainPass 0 ({ Shared.init with capture := 10000000, pps := 15 },
        { Main.init with state := FAST, counter := 3 })).1.pps = 0 :=
  (C28_missing_oscillator 0 { Shared.init with capture := 10000000, pps := 15 }
    { Main.init with state := FAST, counter := 3 }
    (Or.inr (Or.inr (Or.inr (Or.inr (Or.inl rfl))))) (by decide)).1 (by decide)

/-- C29, as stated, fails.  In OSCCOLD with the cold bit still high, a
sample of 10,000,000 observed with `counter = 3` and `sum = 100` leaves the
mode OSCCOLD and `counter = 3`, but the window sum becomes 10,000,100: the
sample is added before the second `switch` is reached. -/
theorem C29_fault_state_sample_is_summed :
    (faultSwitch 1 { Shared.init with capture := 10000000, pps := 1 }
        { Main.init with state := OSCCOLD, counter := 3, sum := 100 }).2.state = OSCCOLD ∧
    (mainPass 1 ({ Shared.init with capture := 10000000, pps := 1 },
        { Main.init with state := OSCCOLD, counter := 3, sum := 100 })).2.state = OSCCOLD ∧
    (mainPass 1 ({ Shared.init with capture := 10000000, pps := 1 },
        { Main.init with state := OSCCOLD, counter := 3, sum := 100 })).2.counter = 3 ∧
    (mainPass 1 ({ Shared.init with capture := 10000000, pps := 1 },
        { Main.init with state := OSCCOLD, counter := 3, sum := 100 })).2.sum = 10000100 := by
  decide

/-- C29 (amended): a sample observed while the mode left by the first
`switch` of that pass is not one of FASTINIT, FASTWAIT, FAST, SLOWINIT,
SLOW leaves that mode, `counter`, `lockcount`, `Ihist`, `slowlock`, the duty
cycle and the actuator register unchanged; the window sum is unchanged when
`counter < 0`, and has the sample added to it when `counter >= 0`. -/
theorem C29_unlisted_pairs (P2IN : Nat) (sh : Shared) (m : Main)
    (hcap : sh.capture ≠ 0)
    (hng : (faultSwitch P2IN sh m).2.state.ppsGated = false) :
    (mainPass P2IN (sh, m)).2.state = (faultSwitch P2IN sh m).2.state ∧
    (mainPass P2IN (sh, m)).2.counter = m.counter ∧
    (mainPass P2IN (sh, m)).2.lockcount = m.lockcount ∧
    (mainPass P2IN (sh, m)).2.Ihist = m.Ihist ∧
    (mainPass P2IN (sh, m)).2.slowlock = m.slowlock ∧
    (mainPass P2IN (sh, m)).2.pwm_duty_cycle = m.pwm_duty_cycle ∧
    (mainPass P2IN (sh, m)).2.TA1CCR1 = m.TA1CCR1 ∧
    (mainPass P2IN (sh, m)).2.TA1CCR1_writes = m.TA1CCR1_writes ∧
    (mainPass P2IN (sh, m)).2.sum
      = (if m.counter ≥ 0 then wrapS32 (m.sum + sh.capture) else m.sum) := by
  rw [mainPass_not_gated P2IN sh m hng, if_pos hcap, takeSample_eq]
  have hl := faultSwitch_locals P2IN sh m
  refine ⟨rfl, ?_, ?_, ?_, ?_, ?_, ?_, ?_, ?_⟩ <;> dsimp only <;> rw [hl]

/-- C29 witness: a sample observed in NOGPSPPS with `counter = -1`. -/
theorem C29_unlisted_pairs_witness :
    (mainPass 0 ({ Shared.init with capture := 10000000, pps := 0 },
        { Main.init with state := NOGPSPPS, sum := 100 })).2.sum = 100 :=
  ((C29_unlisted_pairs 0 { Shared.init with capture := 10000000, pps := 0 }
    { Main.init with state := NOGPSPPS, sum := 100 } (by decide)
    (by decide)).2.2.2.2.2.2.2.2).trans (by decide)

/-- C30: sample hand-off.  A pass that observes a non-zero sample ends with
`capture = 0` and `pps = 0`; its locals are the second `switch` run on the
locals after `takeSample`, in which the sample has been added to the window
sum once if `counter` was `>= 0` when the pass began and not at all
otherwise (`counter` itself untouched); so the sum at the end of the pass is
that sum or, if the switch cleared it, 0.  A pass that observes `capture = 0`
changes neither `capture` nor the window sum nor `counter`. -/
theorem C30_sample_handoff (P2IN : Nat) (sh : Shared) (m : Main) :
    (sh.capture ≠ 0 →
      (mainPass P2IN (sh, m)).1.capture = 0 ∧
      (mainPass P2IN (sh, m)).1.pps = 0 ∧
      (mainPass P2IN (sh, m)).2
        = ppsSwitch (takeSample (faultSwitch P2IN sh m).2 sh.capture) ∧
      (takeSample (faultSwitch P2IN sh m).2 sh.capture).sum
        = (if m.counter ≥ 0 then wrapS32 (m.sum + sh.capture) else m.sum) ∧
      (takeSample (faultSwitch P2IN sh m).2 sh.capture).counter = m.counter ∧
      ((mainPass P2IN (sh, m)).2.sum
          = (if m.counter ≥ 0 then wrapS32 (m.sum + sh.capture) else m.sum) ∨
        (mainPass P2IN (sh, m)).2.sum = 0)) ∧
    (sh.capture = 0 →
      (mainPass P2IN (sh, m)).1.capture = 0 ∧
      (mainPass P2IN (sh, m)).2.sum = m.sum ∧
      (mainPass P2IN (sh, m)).2.counter = m.counter) := by
  have hc := faultSwitch_capture P2IN sh m
  have hl := faultSwitch_locals P2IN sh m
  have hsum : (takeSample (faultSwitch P2IN sh m).2 sh.capture).sum
      = (if m.counter ≥ 0 then wrapS32 (m.sum + sh.capture) else m.sum) := by
    rw [takeSample_eq]; dsimp only; rw [hl]
  constructor
  · intro hcap
    have hpass : mainPass P2IN (sh, m)
        = ({ (faultSwitch P2IN sh m).1 with pps := 0, capture := 0 },
            ppsSwitch (takeSample (faultSwitch P2IN sh m).2 sh.capture)) := by
      simp only [mainPass, onCapture, hc]
      rw [if_pos hcap]
    rw [hpass]
    refine ⟨rfl, rfl, rfl, hsum, ?_, ?_⟩
    · rw [takeSample_eq]; dsimp only; rw [hl]
    · rcases ppsSwitch_sum_cases (takeSample (faultSwitch P2IN sh m).2 sh.capture) with h | h
      · left; exact h.trans hsum
      · right; exact h
  · intro hcap
    rw [mainPass_no_sample P2IN sh m hcap]
    refine ⟨by rw [hc]; exact hcap, ?_, ?_⟩ <;> rw [hl]

/-- C30 witness: a sample observed in FAST with `counter = 3`. -/
theorem C30_sample_handoff_witness :
    (mainPass 0 ({ Shared.init with capture := 10000001, pps := 1 },
        { Main.init with state := FAST, counter := 3, sum := 30000000 })).1.capture = 0 ∧
    (mainPass 0 ({ Shared.init with capture := 10000001, pps := 1 },
        { Main.init with state := FAST, counter := 3, sum := 30000000 })).1.pps = 0 :=
  ⟨((C30_sample_handoff 0 { Shared.init with capture := 10000001, pps := 1 }
      { Main.init with state := FAST, counter := 3, sum := 30000000 }).1 (by decide)).1,
   ((C30_sample_handoff 0 { Shared.init with capture := 10000001, pps := 1 }
      { Main.init with state := FAST, counter := 3, sum := 30000000 }).1 (by decide)).2.1⟩

/-! ## The handlers over a sequence of interrupt requests -/

/-- Serving no request. -/
theorem serveAll_nil (sh : Shared) : serveAll [] sh = sh := rfl

/-- Serving a first request and then the rest. -/
theorem serveAll_cons (e : Interrupt) (es : List Interrupt) (sh : Shared) :
    serveAll (e :: es) sh = serveAll es (e.serve sh) := rfl

/-- Serving two sequences one after the other. -/
theorem serveAll_append (es fs : List Interrupt) (sh : Shared) :
    serveAll (es ++ fs) sh = serveAll fs (serveAll es sh) := by
  simp [serveAll, List.foldl_append]

/-- A run of TA0IV requests: nothing happens without a counter overflow among
them; otherwise the first overflow adds `countadd` and each later one a full
cycle of 65536. -/
theorem serveAll_vectorA1 (vs : List Nat) : ∀ sh : Shared,
    serveAll (vs.map Interrupt.vectorA1) sh =
      if vs.count 10 = 0 then sh
      else { sh with count := wrapS32 (sh.count + sh.countadd
                                + 65536 * ((vs.count 10 : Int) - 1)),
                     countadd := 0x10000 } := by
  induction vs with
  | nil => intro sh; rfl
  | cons v vs ih =>
    intro sh
    rw [List.map_cons, serveAll_cons, ih]
    by_cases hv : v = 10
    · subst hv
      have hc : (10 :: vs).count 10 = vs.count 10 + 1 := by simp
      rw [hc]
      simp only [Interrupt.serve, Timer_A, if_true]
      by_cases h0 : vs.count 10 = 0
      · simp [h0]
      · simp only [h0, if_false, Nat.succ_ne_zero, Nat.add_one_ne_zero]
        congr 1
        push_cast
        simp only [wrapS32]
        omega
    · have hc : (v :: vs).count 10 = vs.count 10 := by
        rw [List.count_cons]; simp [hv]
      rw [hc]
      simp only [Interrupt.serve, Timer_A, hv, if_false]

/-- The accumulator after a reference edge that latched `c1` and a run of
TA0IV requests with at least one counter overflow. -/
theorem serveAll_edge_wraps (sh : Shared) (c1 : Int) (vs : List Nat)
    (h0 : 0 ≤ c1) (h1 : c1 ≤ 65535) (hk : 1 ≤ vs.count 10) :
    (serveAll (vs.map Interrupt.vectorA1) (Timer_A0 c1 sh)).count
      = wrapS32 ((65536 - c1) + 65536 * ((vs.count 10 : Int) - 1)) ∧
    (serveAll (vs.map Interrupt.vectorA1) (Timer_A0 c1 sh)).countadd = 65536 := by
  have hu : wrapU16 c1 = c1 := by simp only [wrapU16]; omega
  have hne : ¬ vs.count 10 = 0 := by omega
  rw [serveAll_vectorA1, if_neg hne]
  refine ⟨?_, rfl⟩
  show wrapS32 (0 + wrapS32 (0x10000 - wrapU16 c1) + 65536 * ((vs.count 10 : Int) - 1)) = _
  rw [hu]
  simp only [wrapS32]
  omega

/-- C31: conditional tick-count correctness.  On the handlers: a reference
edge latches `c1`, then TA0IV requests `vs` are served, `k >= 1` of them
counter overflows (value 10), then the next reference edge latches `c2`; if
`(65536 - c1) + 65536 * (k - 1) + c2` is below 2^31, that is the sample
stored in `capture`, whatever the handlers' data were before the first
edge.  On the counter: for two edges `n` ticks apart with a roll-over in
between, `c1` is the counter at the first edge, `c2` the counter at the
second, `k = (c1 + n) / 65536` roll-overs are delivered, and the same
expression is both the sample stored and the number `n` of ticks. -/
theorem C31_conditional_tick_count (sh : Shared) (c1 c2 : Int) (vs : List Nat)
    (t : Timer) (n : Nat)
    (h1 : 0 ≤ c1 ∧ c1 ≤ 65535) (h2 : 0 ≤ c2 ∧ c2 ≤ 65535) (hk : 1 ≤ vs.count 10)
    (hlt : (65536 - c1) + 65536 * ((vs.count 10 : Int) - 1) + c2 < 2147483648)
    (ht : 0 ≤ t.TAR ∧ t.TAR < 65536) (hwrap : 65536 ≤ t.TAR + n) (hn : n < 2147483648) :
    (serveAll (Interrupt.vectorA0 c1 :: (vs.map Interrupt.vectorA1 ++ [Interrupt.vectorA0 c2]))
        sh).capture
      = (65536 - c1) + 65536 * ((vs.count 10 : Int) - 1) + c2 ∧
    ((Timer.ticks n t.edge).edge).sh.capture
      = (65536 - t.TAR) + 65536 * ((t.TAR + n) / 65536 - 1) + (Timer.ticks n t.edge).TAR ∧
    (65536 - t.TAR) + 65536 * ((t.TAR + n) / 65536 - 1) + (Timer.ticks n t.edge).TAR = n := by
  have hu2 : wrapU16 c2 = c2 := by simp only [wrapU16]; omega
  have hk0 : (1 : Int) ≤ (vs.count 10 : Int) := by exact_mod_cast hk
  refine ⟨?_, ?_, ?_⟩
  · rw [serveAll_cons, serveAll_append, serveAll_cons, serveAll_nil]
    obtain ⟨hcount, -⟩ := serveAll_edge_wraps sh c1 vs h1.1 h1.2 hk
    show wrapS32 ((serveAll (vs.map Interrupt.vectorA1) (Timer_A0 c1 sh)).count + wrapU16 c2) = _
    rw [hcount, hu2]
    simp only [wrapS32]
    omega
  · have hu : wrapU16 t.TAR = t.TAR := by simp only [wrapU16]; omega
    have hca : wrapS32 (65536 - t.TAR) = 65536 - t.TAR := by simp only [wrapS32]; omega
    have he : t.edge = Timer.justAfterEdge t.TAR (wrapS32 (t.sh.count + t.TAR))
        (wrapU8 (t.sh.pps + 1)) false := by
      simp only [Timer.edge, Timer_A0, Timer.justAfterEdge, hu, hca]
    have hT : (Timer.ticks n t.edge).TAR = (t.TAR + n) % 65536 := by
      rw [he]
      exact (Timer.ticks_after_edge t.TAR _ _ false ht.1 ht.2 n).1
    rw [Timer.sample_after t ht.1 ht.2 n, hT]
    have : ¬ (t.TAR + (n : Int) < 65536) := by omega
    simp only [this, if_false, wrapS32]
    omega
  · have hu : wrapU16 t.TAR = t.TAR := by simp only [wrapU16]; omega
    have hca : wrapS32 (65536 - t.TAR) = 65536 - t.TAR := by simp only [wrapS32]; omega
    have he : t.edge = Timer.justAfterEdge t.TAR (wrapS32 (t.sh.count + t.TAR))
        (wrapU8 (t.sh.pps + 1)) false := by
      simp only [Timer.edge, Timer_A0, Timer.justAfterEdge, hu, hca]
    have hT : (Timer.ticks n t.edge).TAR = (t.TAR + n) % 65536 := by
      rw [he]
      exact (Timer.ticks_after_edge t.TAR _ _ false ht.1 ht.2 n).1
    rw [hT]
    omega

set_option maxRecDepth 100000 in
/-- C31 witness: edges latching 40000 and 123 with 153 roll-overs (and two
other TA0IV requests) in between: 25536 + 152 * 65536 + 123 ticks. -/
theorem C31_conditional_tick_count_witness :
    (serveAll (Interrupt.vectorA0 40000 ::
        ((2 :: 4 :: List.replicate 153 10).map Interrupt.vectorA1 ++ [Interrupt.vectorA0 123]))
        Shared.init).capture = 9987131 :=
  ((C31_conditional_tick_count Shared.init 40000 123 (2 :: 4 :: List.replicate 153 10)
    { TAR := 40000, sh := Shared.init } 10000000
    (by decide) (by decide) (by decide) (by decide) (by decide) (by decide)
    (by decide)).1).trans (by decide)

/-- One handler call keeps `1 <= countadd <= 65536` and `count >= 0`. -/
theorem Interrupt.serve_invariant (e : Interrupt) (sh : Shared)
    (hr : e.inRange sh = true) (h1 : 1 ≤ sh.countadd) (h2 : sh.countadd ≤ 65536)
    (h3 : 0 ≤ sh.count) :
    1 ≤ (e.serve sh).countadd ∧ (e.serve sh).countadd ≤ 65536 ∧ 0 ≤ (e.serve sh).count := by
  cases e with
  | vectorA1 v =>
    by_cases hv : v = 10
    · subst hv
      have hlt : sh.count + sh.countadd < 2147483648 := by
        simpa [Interrupt.inRange] using hr
      simp only [Interrupt.serve, Timer_A, if_true, wrapS32]
      omega
    · simp only [Interrupt.serve, Timer_A, hv, if_false]
      exact ⟨h1, h2, h3⟩
  | vectorA0 c =>
    have hc : 0 ≤ c ∧ c ≤ 65535 := by simpa [Interrupt.inRange] using hr
    simp only [Interrupt.serve, Timer_A0, wrapU16, wrapS32]
    omega

/-- A sequence of handler calls keeps `1 <= countadd <= 65536` and
`count >= 0`. -/
theorem serveAll_invariant (es : List Interrupt) : ∀ sh : Shared,
    allInRange es sh = true → 1 ≤ sh.countadd → sh.countadd ≤ 65536 → 0 ≤ sh.count →
    1 ≤ (serveAll es sh).countadd ∧ (serveAll es sh).countadd ≤ 65536 ∧
      0 ≤ (serveAll es sh).count := by
  induction es with
  | nil => intro sh _ h1 h2 h3; exact ⟨h1, h2, h3⟩
  | cons e es ih =>
    intro sh hr h1 h2 h3
    simp only [allInRange, Bool.and_eq_true] at hr
    obtain ⟨k1, k2, k3⟩ := Interrupt.serve_invariant e sh hr.1 h1 h2 h3
    rw [serveAll_cons]
    exact ih (e.serve sh) hr.2 k1 k2 k3

/-- The side condition holds along every prefix. -/
theorem allInRange_take (es : List Interrupt) : ∀ (sh : Shared) (n : Nat),
    allInRange es sh = true → allInRange (es.take n) sh = true := by
  induction es with
  | nil => intro sh n _; simp [allInRange]
  | cons e es ih =>
    intro sh n hr
    cases n with
    | zero => rfl
    | succ n =>
      simp only [allInRange, Bool.and_eq_true] at hr
      simp only [List.take_succ_cons, allInRange, Bool.and_eq_true]
      exact ⟨hr.1, ih (e.serve sh) n hr.2⟩

/-- The prefix that ends with the request at position `n`. -/
theorem serveAll_take_succ (es : List Interrupt) (sh : Shared) (n : Nat) (e : Interrupt)
    (h : es[n]? = some e) :
    serveAll (es.take (n + 1)) sh = e.serve (serveAll (es.take n) sh) := by
  rw [List.take_succ, h, serveAll_append]
  rfl

/-- C32: accumulator invariant.  Start with `count = 0` and
`countadd = 65536` and serve any sequence `es` of handler calls in which
every latched value is in [0, 65535] and no `count += countadd` leaves the
`long` range.  After every prefix of `es` (so after every handler call)
`1 <= countadd <= 65536` and `count >= 0`; right after every reference edge
`count = 0`; right after every counter overflow `countadd = 65536`. -/
theorem C32_accumulator_invariant (sh : Shared) (es : List Interrupt)
    (h0 : sh.count = 0) (h1 : sh.countadd = 65536) (hr : allInRange es sh = true) :
    (∀ n : Nat, 1 ≤ (serveAll (es.take n) sh).countadd ∧
      (serveAll (es.take n) sh).countadd ≤ 65536 ∧
      0 ≤ (serveAll (es.take n) sh).count) ∧
    (1 ≤ (serveAll es sh).countadd ∧ (serveAll es sh).countadd ≤ 65536 ∧
      0 ≤ (serveAll es sh).count) ∧
    (∀ (n : Nat) (c : Int), es[n]? = some (Interrupt.vectorA0 c) →
      (serveAll (es.take (n + 1)) sh).count = 0) ∧
    (∀ n : Nat, es[n]? = some (Interrupt.vectorA1 10) →
      (serveAll (es.take (n + 1)) sh).countadd = 65536) := by
  have k1 : 1 ≤ sh.countadd := by rw [h1]; decide
  have k2 : sh.countadd ≤ 65536 := by rw [h1]
  have k3 : 0 ≤ sh.count := by rw [h0]
  refine ⟨fun n => ?_, serveAll_invariant es sh hr k1 k2 k3, fun n c h => ?_, fun n h => ?_⟩
  · exact serveAll_invariant (es.take n) sh (allInRange_take es sh n hr) k1 k2 k3
  · rw [serveAll_take_succ es sh n _ h]
    rfl
  · rw [serveAll_take_succ es sh n _ h]
    rfl

/-- C32 witness: an edge latching 40000, two counter overflows, an edge
latching 65535 and one more overflow. -/
theorem C32_accumulator_invariant_witness :
    (serveAll [Interrupt.vectorA0 40000, Interrupt.vectorA1 10, Interrupt.vectorA1 10,
      Interrupt.vectorA0 65535, Interrupt.vectorA1 10] Shared.init).countadd = 65536 ∧
    (serveAll [Interrupt.vectorA0 40000, Interrupt.vectorA1 10, Interrupt.vectorA1 10,
      Interrupt.vectorA0 65535] Shared.init).count = 0 :=
  ⟨(C32_accumulator_invariant Shared.init
      [Interrupt.vectorA0 40000, Interrupt.vectorA1 10, Interrupt.vectorA1 10,
        Interrupt.vectorA0 65535, Interrupt.vectorA1 10] rfl rfl (by decide)).2.2.2 4 rfl,
   (C32_accumulator_invariant Shared.init
      [Interrupt.vectorA0 40000, Interrupt.vectorA1 10, Interrupt.vectorA1 10,
        Interrupt.vectorA0 65535, Interrupt.vectorA1 10] rfl rfl (by decide)).2.2.1 3 65535 rfl⟩

/-! ## SLOW: signs of the P and I terms -/

/-- The terms stored by a pass that closes a SLOW window with a window error
`e` of at most 128 in size. -/
theorem second_slow_terms (P2IN : Nat) (sh : Shared) (m : Main) (x e : Int)
    (hcold : bitSet P2IN P2OSC = false) (hp0 : 0 ≤ sh.pps) (hp1 : sh.pps ≤ 13)
    (hs : m.state = SLOW) (hc0 : 59 ≤ m.counter) (hc1 : m.counter < 32767) (hx : x ≠ 0)
    (he : wrapS32 (60 * 10000000 - wrapS32 (m.sum + x)) = e)
    (he0 : -128 ≤ e) (he1 : e ≤ 128) :
    (second P2IN (sh, m) x).2.P = slowP e ∧
    (second P2IN (sh, m) x).2.Ihist = slowIhist e m.Ihist ∧
    (second P2IN (sh, m) x).2.I = slowI (slowIhist e m.Ihist) ∧
    (second P2IN (sh, m) x).2.adjust = wrapS16 (slowP e + slowI (slowIhist e m.Ihist)) := by
  rw [second_slow_fine P2IN sh m x e hcold hp0 hp1 hs hc0 hc1 hx he he0 he1,
    slowAdjust_Ihist, slowAdjust_P, slowAdjust_I, slowAdjust_adjust]
  exact ⟨rfl, rfl, rfl, rfl⟩

/-- C33: the SLOW P and I terms never oppose each other.  On the pass that
closes a SLOW window with window error `e`, `|e| <= 128`, and a history of at
most 1000 in size before the close: `P` and `I` never have opposite signs,
`adjust = P + I`, `adjust = 0` exactly when `|e| <= 1` and the updated
history is at most 1 in size, and a non-zero `adjust` has the sign of `e`. -/
theorem C33_slow_terms_never_oppose (P2IN : Nat) (sh : Shared) (m : Main) (x e : Int)
    (hcold : bitSet P2IN P2OSC = false) (hp0 : 0 ≤ sh.pps) (hp1 : sh.pps ≤ 13)
    (hs : m.state = SLOW) (hc0 : 59 ≤ m.counter) (hc1 : m.counter < 32767) (hx : x ≠ 0)
    (he : wrapS32 (60 * 10000000 - wrapS32 (m.sum + x)) = e)
    (he0 : -128 ≤ e) (he1 : e ≤ 128)
    (hI0 : -1000 ≤ m.Ihist) (hI1 : m.Ihist ≤ 1000) :
    ¬ ((second P2IN (sh, m) x).2.P > 0 ∧ (second P2IN (sh, m) x).2.I < 0) ∧
    ¬ ((second P2IN (sh, m) x).2.P < 0 ∧ (second P2IN (sh, m) x).2.I > 0) ∧
    (second P2IN (sh, m) x).2.adjust
      = (second P2IN (sh, m) x).2.P + (second P2IN (sh, m) x).2.I ∧
    ((second P2IN (sh, m) x).2.adjust = 0 ↔
      (|e| ≤ 1 ∧ |(second P2IN (sh, m) x).2.Ihist| ≤ 1)) ∧
    ((second P2IN (sh, m) x).2.adjust > 0 → e > 0) ∧
    ((second P2IN (sh, m) x).2.adjust < 0 → e < 0) := by
  obtain ⟨hP, hH, hI, hA⟩ :=
    second_slow_terms P2IN sh m x e hcold hp0 hp1 hs hc0 hc1 hx he he0 he1
  rw [hP, hH, hI, hA]
  have hr : -1001 ≤ slowIhist e m.Ihist ∧ slowIhist e m.Ihist ≤ 1001 ∧
      (e > 0 → 0 ≤ slowIhist e m.Ihist) ∧ (e < 0 → slowIhist e m.Ihist ≤ 0) ∧
      (e = 0 → slowIhist e m.Ihist = 0) := by
    simp only [slowIhist, wrapS16]
    split_ifs <;> omega
  generalize slowIhist e m.Ihist = g at hr
  have hw : wrapS16 (25 * g) = 25 * g := by simp only [wrapS16]; omega
  have hPb : -6400 ≤ slowP e ∧ slowP e ≤ 6400 ∧ (e > 0 → 0 ≤ slowP e) ∧
      (e < 0 → slowP e ≤ 0) ∧ (slowP e = 0 ↔ (-1 ≤ e ∧ e ≤ 1)) := by
    rw [slowP_eq e he0 he1]
    split_ifs with hb
    · exact ⟨by omega, by omega, by omega, by omega, by simp [hb]⟩
    · exact ⟨by omega, by omega, by omega, by omega, by constructor <;> intro hh <;> omega⟩
  have hIb : -25025 ≤ slowI g ∧ slowI g ≤ 25025 ∧ (g ≥ 0 → 0 ≤ slowI g) ∧
      (g ≤ 0 → slowI g ≤ 0) ∧ (slowI g = 0 ↔ (-1 ≤ g ∧ g ≤ 1)) := by
    rw [slowI_eq g (by omega) (by omega), hw]
    split_ifs with hb
    · exact ⟨by omega, by omega, by omega, by omega, by simp [hb]⟩
    · exact ⟨by omega, by omega, by omega, by omega, by constructor <;> intro hh <;> omega⟩
  generalize slowP e = p at hPb
  generalize slowI g = i at hIb
  have hs16 : wrapS16 (p + i) = p + i := by simp only [wrapS16]; omega
  rw [hs16, Int.abs_eq_natAbs, Int.abs_eq_natAbs]
  obtain ⟨r1, r2, r3, r4, r5⟩ := hr
  obtain ⟨p1, p2, p3, p4, p5⟩ := hPb
  obtain ⟨i1, i2, i3, i4, i5⟩ := hIb
  have hsign : (e > 0 → 0 ≤ p ∧ 0 ≤ i) ∧ (e < 0 → p ≤ 0 ∧ i ≤ 0) ∧ (e = 0 → p = 0 ∧ i = 0) := by
    refine ⟨fun h => ⟨p3 h, i3 (r3 h)⟩, fun h => ⟨p4 h, i4 (r4 h)⟩, fun h => ⟨?_, ?_⟩⟩
    · exact p5.mpr (by omega)
    · exact i5.mpr (by have := r5 h; omega)
  obtain ⟨s1, s2, s3⟩ := hsign
  refine ⟨?_, ?_, rfl, ?_, ?_, ?_⟩
  · rintro ⟨hp, hi⟩
    rcases lt_trichotomy e 0 with h | h | h
    · have := s2 h; omega
    · have := s3 h; omega
    · have := s1 h; omega
  · rintro ⟨hp, hi⟩
    rcases lt_trichotomy e 0 with h | h | h
    · have := s2 h; omega
    · have := s3 h; omega
    · have := s1 h; omega
  · constructor
    · intro h0
      have hp0 : p = 0 := by
        rcases lt_trichotomy e 0 with h | h | h
        · have := s2 h; omega
        · exact (s3 h).1
        · have := s1 h; omega
      have hi0 : i = 0 := by omega
      have := p5.mp hp0
      have := i5.mp hi0
      omega
    · intro h0
      have hp0 : p = 0 := p5.mpr (by omega)
      have hi0 : i = 0 := i5.mpr (by omega)
      omega
  · intro ha
    rcases lt_trichotomy e 0 with h | h | h
    · have := s2 h; omega
    · have := s3 h; omega
    · exact h
  · intro ha
    rcases lt_trichotomy e 0 with h | h | h
    · exact h
    · have := s3 h; omega
    · have := s1 h; omega

/-- C33 witness: window error -1 on a history of -5 (`P = 0`, `I = -150`). -/
theorem C33_slow_terms_never_oppose_witness :
    ¬ ((second 0 (Shared.init,
          { Main.init with state := SLOW, counter := 59, sum := 590000000, Ihist := -5 })
        10000001).2.P < 0 ∧
       (second 0 (Shared.init,
          { Main.init with state := SLOW, counter := 59, sum := 590000000, Ihist := -5 })
        10000001).2.I > 0) ∧
    (second 0 (Shared.init,
        { Main.init with state := SLOW, counter := 59, sum := 590000000, Ihist := -5 })
      10000001).2.adjust
      = (second 0 (Shared.init,
          { Main.init with state := SLOW, counter := 59, sum := 590000000, Ihist := -5 })
        10000001).2.P
        + (second 0 (Shared.init,
          { Main.init with state := SLOW, counter := 59, sum := 590000000, Ihist := -5 })
        10000001).2.I :=
  ⟨(C33_slow_terms_never_oppose 0 Shared.init
      { Main.init with state := SLOW, counter := 59, sum := 590000000, Ihist := -5 }
      10000001 (-1) (by decide) (by decide) (by decide) rfl (by decide) (by decide)
      (by decide) (by decide) (by decide) (by decide) (by decide) (by decide)).2.1,
   (C33_slow_terms_never_oppose 0 Shared.init
      { Main.init with state := SLOW, counter := 59, sum := 590000000, Ihist := -5 }
      10000001 (-1) (by decide) (by decide) (by decide) rfl (by decide) (by decide)
      (by decide) (by decide) (by decide) (by decide) (by decide) (by decide)).2.2.1⟩

/-! ## The proportional controller: the dead arm -/

/-- C34: in `software/p/main.c` the arm `else if (capture > 15000000)` is
dead.  For every state at the start of a pass, whatever `capture`, `pps` and
`counter` are, the pass does not take that arm: with `capture != 0` it takes
the sample arm, and otherwise `capture` is 0, so the pass is the `pps > 4`
arm or does nothing.  A pass is therefore the same function as the loop body
without that arm: the LED toggle and `capture = 0` of that arm are never
executed. -/
theorem C34_missing_gps_arm_is_dead (s : PControl.State) :
    PControl.branch s ≠ PControl.Branch.missingGps ∧
    (PControl.branch s = PControl.Branch.sample ↔ s.capture ≠ 0) ∧
    PControl.mainPass s
      = (if s.capture ≠ 0 then PControl.onSample s
         else if s.pps > 4 then { s with P1OUT := s.P1OUT ^^^ 0x80, pps := 0 }
         else s) := by
  have hb : PControl.branch s =
      if s.capture ≠ 0 then PControl.Branch.sample
      else if s.pps > 4 then PControl.Branch.missingOsc else PControl.Branch.idle := by
    unfold PControl.branch
    by_cases hc : s.capture = 0
    · have h15 : ¬ s.capture > 15000000 := by omega
      simp only [hc, ne_eq, not_true_eq_false, if_false, h15]
      rfl
    · simp only [ne_eq, hc, not_false_eq_true, if_true]
  refine ⟨?_, ?_, ?_⟩
  · rw [hb]
    split_ifs <;> decide
  · rw [hb]
    by_cases hc : s.capture = 0
    · by_cases hp : s.pps > 4 <;> simp [hc, hp]
    · simp [hc]
  · unfold PControl.mainPass
    rw [hb]
    by_cases hc : s.capture = 0
    · by_cases hp : s.pps > 4 <;> simp [hc, hp]
    · simp [hc]

end Gpsdo
